import Mathlib

/-!
# Faraday rotation calculator for an Earth-Moon-Earth radio link

A shallow embedding of `Parameters.h`, `IonospherePhysics.cpp`,
`FaradayRotation.cpp`, `MaidenheadGrid.h` and of the lookup functions of
`MoonCalendarReader.cpp`, `IonexReader.cpp`, `WMMModel.cpp` and
`NOAAGlotecReader.cpp`, followed by theorems about the embedded program.

Conventions of the embedding.

* A `double` is read as a real number: every arithmetic operation is exact and
  there is no NaN. Rounding is outside the model.
* Where the source divides, or passes a value to `std::asin` or `std::sqrt` without
  a clamp, the real-valued definitions give the value of exact arithmetic, with
  Lean's `x / 0 = 0`, `Real.arcsin` and `Real.sqrt` outside the domain.
  `Cmath.divChecked`, `Cmath.asinChecked` and `Cmath.sqrtChecked` are `none` where
  the `double` result is not a finite number; the statements about a zero divisor
  or about an argument at the edge of a domain are made with them.
* `<cmath>` and `<complex>` calls are read as the functions they approximate:
  `std::sin`, `std::cos`, `std::tan` are `Real.sin`, `Real.cos`, `Real.tan`;
  `std::asin`, `std::acos` are `Real.arcsin`, `Real.arccos`; `std::abs` is `|x|`;
  `std::conj` is complex conjugation and `std::norm` is `Complex.normSq`;
  `std::atan2` and `std::log10` are `Cmath.atan2` and `Cmath.log10` below.
* A member function that writes to the object takes the object and returns the
  new one. `std::time(nullptr)` and the stream formatting of a `double` are
  inputs of `calculate` (`now`, `fmt`).
* An `int` is read as an integer, with `/` and `%` the truncating `Int.tdiv` and
  `Int.tmod`; the values that occur are far from the bounds of `int`.
* An exception is an `Except.error`, which carries the object as left at the throw
  when the function has written to it. A function that returns `bool` and writes
  its result through a reference returns an `Option`. A read or write outside a
  vector is undefined in the source; a write is `none` here.
* What a function reads from a file, and `std::mktime`, are inputs of the function.
-/

noncomputable section

/-! ## Library functions -/

namespace Cmath

/-- The angle of the point `(x, y)`, as `std::atan2(y, x)` returns it: a value in
`(-π, π]`, and `0` at the origin. -/
def atan2 (y x : ℝ) : ℝ := Complex.arg ⟨x, y⟩

/-- The decimal logarithm as `std::log10` returns it on a non-negative argument:
`log10(0)` is minus infinity, so the result lives in the extended reals. -/
def log10 (x : ℝ) : EReal := if x = 0 then ⊥ else ((Real.logb 10 x : ℝ) : EReal)

/-- The quotient `x / y` of two `double` values when it is a finite number: for `y = 0` the
quotient is infinite or NaN, which is `none` here. -/
def divChecked (x y : ℝ) : Option ℝ := if y = 0 then none else some (x / y)

end Cmath

/-! ## Parameters.h -/

namespace SystemConstants

/-- The constant `PI = 3.14159265358979323846`, read as the number π. No `double`
lies strictly between the two, so a comparison of a `double` against either gives
the same answer. -/
def PI : ℝ := Real.pi

def FARADAY_CONSTANT : ℝ := 0.23647

def EARTH_RADIUS_KM : ℝ := 6371.0

def IONOSPHERE_HEIGHT_KM : ℝ := 350.0

def SPEED_OF_LIGHT : ℝ := 299792458.0

end SystemConstants

structure SiteParameters where
  latitude : ℝ
  longitude : ℝ
  gridLocator : String
  psi : ℝ
  chi : ℝ
  callsign : String
  name : String

/-- The default constructor `SiteParameters()`. -/
def SiteParameters.new : SiteParameters :=
  { latitude := 0.0, longitude := 0.0, psi := 0.0, chi := 0.0,
    gridLocator := "", callsign := "", name := "" }

structure IonosphereData where
  vTEC_DX : ℝ
  vTEC_Home : ℝ
  hmF2_DX : ℝ
  hmF2_Home : ℝ
  B_magnitude_DX : ℝ
  B_magnitude_Home : ℝ
  B_inclination_DX : ℝ
  B_inclination_Home : ℝ
  B_declination_DX : ℝ
  B_declination_Home : ℝ
  dataSource : String
  timestamp : ℤ

/-- The default constructor `IonosphereData()`. -/
def IonosphereData.new : IonosphereData :=
  { vTEC_DX := 20.0, vTEC_Home := 20.0,
    hmF2_DX := 350.0, hmF2_Home := 350.0,
    B_magnitude_DX := 5e-5, B_magnitude_Home := 5e-5,
    B_inclination_DX := 0.0, B_inclination_Home := 0.0,
    B_declination_DX := 0.0, B_declination_Home := 0.0,
    dataSource := "Manual", timestamp := 0 }

structure MoonEphemeris where
  rightAscension : ℝ
  declination : ℝ
  distance_km : ℝ
  hourAngle_DX : ℝ
  hourAngle_Home : ℝ
  azimuth_DX : ℝ
  elevation_DX : ℝ
  azimuth_Home : ℝ
  elevation_Home : ℝ
  observationTime : ℤ
  julianDate : ℝ
  ephemerisSource : String

/-- The default constructor `MoonEphemeris()`. -/
def MoonEphemeris.new : MoonEphemeris :=
  { rightAscension := 0.0, declination := 0.0, distance_km := 384400.0,
    hourAngle_DX := 0.0, hourAngle_Home := 0.0,
    azimuth_DX := 0.0, elevation_DX := 0.0,
    azimuth_Home := 0.0, elevation_Home := 0.0,
    observationTime := 0, julianDate := 0.0,
    ephemerisSource := "Manual" }

inductive IonosphereModel where
  | SIMPLE
  | CHAPMAN
  | IRI
  | CUSTOM
  deriving DecidableEq

inductive MagneticFieldModel where
  | DIPOLE
  | IGRF
  | WMM
  | CUSTOM
  deriving DecidableEq

structure SystemConfiguration where
  frequency_MHz : ℝ
  bandwidth_Hz : ℝ
  includeFaradayRotation : Bool
  includeSpatialRotation : Bool
  includeMoonReflection : Bool
  ionoModel : IonosphereModel
  magModel : MagneticFieldModel

/-- The default constructor `SystemConfiguration()`. -/
def SystemConfiguration.new : SystemConfiguration :=
  { frequency_MHz := 144.0, bandwidth_Hz := 2500.0,
    includeFaradayRotation := true,
    includeSpatialRotation := true,
    includeMoonReflection := true,
    ionoModel := IonosphereModel.SIMPLE,
    magModel := MagneticFieldModel.DIPOLE }

structure CalculationResults where
  spatialRotation_deg : ℝ
  faradayRotation_DX_deg : ℝ
  faradayRotation_Home_deg : ℝ
  totalRotation_deg : ℝ
  PLF : ℝ
  polarizationLoss_dB : EReal
  polarizationEfficiency : ℝ
  pathLength_km : ℝ
  propagationDelay_ms : ℝ
  parallacticAngle_DX_deg : ℝ
  parallacticAngle_Home_deg : ℝ
  slantFactor_DX : ℝ
  slantFactor_Home : ℝ
  calculationSuccess : Bool
  errorMessage : String
  calculationTime : ℤ

/-- The default constructor `CalculationResults()`: the reset record. -/
def CalculationResults.new : CalculationResults :=
  { spatialRotation_deg := 0.0,
    faradayRotation_DX_deg := 0.0,
    faradayRotation_Home_deg := 0.0,
    totalRotation_deg := 0.0,
    PLF := 0.0,
    polarizationLoss_dB := 0,
    polarizationEfficiency := 0.0,
    pathLength_km := 0.0,
    propagationDelay_ms := 0.0,
    parallacticAngle_DX_deg := 0.0,
    parallacticAngle_Home_deg := 0.0,
    slantFactor_DX := 1.0,
    slantFactor_Home := 1.0,
    calculationSuccess := false,
    errorMessage := "",
    calculationTime := 0 }

/-! ## IonospherePhysics.cpp -/

namespace IonospherePhysics

/-- The default argument `earthRadius = 6371.0` of `IonospherePhysics.h`. -/
def defaultEarthRadius : ℝ := 6371.0

/-- The thin-shell mapping factor. A caller that omits `earthRadius` in the source
passes `defaultEarthRadius` here. -/
def calculateMappingFunction (elevation hmF2 earthRadius : ℝ) : ℝ :=
  if elevation < 0 then
    1.0
  else
    let sinChi := (earthRadius * Real.cos elevation) / (earthRadius + hmF2)
    let sinChi := max (-1.0) (min 1.0 sinChi)
    let chi := Real.arcsin sinChi
    let mappingFactor := 1.0 / Real.cos chi
    mappingFactor

def calculateSlantTEC (vTEC elevation hmF2 earthRadius : ℝ) : ℝ :=
  let mappingFactor := calculateMappingFunction elevation hmF2 earthRadius
  vTEC * mappingFactor

def calculateMagneticFieldProjection
    (B_magnitude B_inclination B_declination elevation azimuth : ℝ) : ℝ :=
  let prop_x := Real.cos elevation * Real.cos azimuth
  let prop_y := Real.cos elevation * Real.sin azimuth
  let prop_z := Real.sin elevation
  let B_x := Real.cos B_inclination * Real.cos B_declination
  let B_y := Real.cos B_inclination * Real.sin B_declination
  let B_z := -Real.sin B_inclination
  let dotProduct := prop_x * B_x + prop_y * B_y + prop_z * B_z
  let B_proj := B_magnitude * dotProduct
  B_proj

/-- The function `calculateFaradayRotationPrecise`, in exact arithmetic. The quotient
`0.23647 / f_squared_MHz` is that of the source for a non-zero divisor; for the divisor zero
see `calculateFaradayRotationPreciseChecked`. -/
def calculateFaradayRotationPrecise
    (vTEC hmF2 B_magnitude B_inclination B_declination elevation azimuth
      frequency_MHz : ℝ) : ℝ :=
  let sTEC := calculateSlantTEC vTEC elevation hmF2 defaultEarthRadius
  let B_proj := calculateMagneticFieldProjection
    B_magnitude B_inclination B_declination elevation azimuth
  let f_MHz := frequency_MHz
  let f_squared_MHz := f_MHz * f_MHz
  let B_proj_nanoTesla := B_proj * 1e9
  let sTEC_TECU := sTEC
  let omega_rad := (0.23647 / f_squared_MHz) * sTEC_TECU * B_proj_nanoTesla
  omega_rad

/-- The function `calculateFaradayRotationPrecise` with the division by `f_squared_MHz`
checked: `none` when that divisor is zero, where the quotient is infinite and the product
formed from it is infinite or NaN, and the value of `calculateFaradayRotationPrecise`
otherwise. -/
def calculateFaradayRotationPreciseChecked
    (vTEC hmF2 B_magnitude B_inclination B_declination elevation azimuth
      frequency_MHz : ℝ) : Option ℝ :=
  let sTEC := calculateSlantTEC vTEC elevation hmF2 defaultEarthRadius
  let B_proj := calculateMagneticFieldProjection
    B_magnitude B_inclination B_declination elevation azimuth
  let f_MHz := frequency_MHz
  let f_squared_MHz := f_MHz * f_MHz
  let B_proj_nanoTesla := B_proj * 1e9
  let sTEC_TECU := sTEC
  match Cmath.divChecked 0.23647 f_squared_MHz with
  | none => none
  | some quotient => some (quotient * sTEC_TECU * B_proj_nanoTesla)

end IonospherePhysics

/-! ## FaradayRotation.h, FaradayRotation.cpp -/

/-- The type `std::array<std::complex<double>, 2>`. -/
abbrev JonesVector := Fin 2 → ℂ

/-- The type `std::array<std::array<std::complex<double>, 2>, 2>`. -/
abbrev Matrix2x2 := Fin 2 → Fin 2 → ℂ

/-- The data members of `class FaradayRotation`. -/
structure FaradayRotation where
  m_config : SystemConfiguration
  m_dxSite : SiteParameters
  m_homeSite : SiteParameters
  m_ionoData : IonosphereData
  m_moonEphem : MoonEphemeris
  m_lastResults : CalculationResults

namespace FaradayRotation

/-- The default constructor `FaradayRotation()`. -/
def new : FaradayRotation :=
  { m_config := SystemConfiguration.new,
    m_dxSite := SiteParameters.new,
    m_homeSite := SiteParameters.new,
    m_ionoData := IonosphereData.new,
    m_moonEphem := MoonEphemeris.new,
    m_lastResults := CalculationResults.new }

def setConfiguration (s : FaradayRotation) (config : SystemConfiguration) :
    FaradayRotation :=
  { s with m_config := config }

def setIonosphereData (s : FaradayRotation) (iono : IonosphereData) : FaradayRotation :=
  { s with m_ionoData := iono }

def setMoonEphemeris (s : FaradayRotation) (moon : MoonEphemeris) : FaradayRotation :=
  { s with m_moonEphem := moon }

def getLastResults (s : FaradayRotation) : CalculationResults := s.m_lastResults

def deg2rad (degrees : ℝ) : ℝ := degrees * SystemConstants.PI / 180.0

def rad2deg (radians : ℝ) : ℝ := radians * 180.0 / SystemConstants.PI

/-- The validator: the returned pair is the boolean result and the text left in
`errorMsg`. `fmt` is the stream formatting of a `double`. -/
def validateParameters (fmt : ℝ → String) (s : FaradayRotation) : Bool × String :=
  let oss := ""
  let oss := if s.m_config.frequency_MHz ≤ 0 then
      oss ++ "Invalid frequency: " ++ fmt s.m_config.frequency_MHz ++ " MHz. "
    else oss
  let oss := if |s.m_dxSite.latitude| > SystemConstants.PI / 2.0 then
      oss ++ "DX latitude out of range. "
    else oss
  let oss := if |s.m_homeSite.latitude| > SystemConstants.PI / 2.0 then
      oss ++ "Home latitude out of range. "
    else oss
  let oss := if s.m_ionoData.vTEC_DX < 0 ∨ s.m_ionoData.vTEC_Home < 0 then
      oss ++ "vTEC values must be non-negative. "
    else oss
  let oss := if s.m_ionoData.B_magnitude_DX ≤ 0 ∨ s.m_ionoData.B_magnitude_Home ≤ 0 then
      oss ++ "Magnetic field magnitude must be positive. "
    else oss
  let errorMsg := oss
  (decide (errorMsg = ""), errorMsg)

def calculatePathLength (s : FaradayRotation) : ℝ :=
  2.0 * s.m_moonEphem.distance_km

/-- The member function `calculateMoonElevation`, in exact arithmetic. The source passes the
two arguments to `std::asin` without a clamp; in exact arithmetic they lie in `[-1, 1]`, where
`Real.arcsin` is the value of the call (see `Cmath.asinChecked` for an argument that rounding
takes above `1`). -/
def calculateMoonElevation (s : FaradayRotation) : FaradayRotation :=
  if s.m_moonEphem.elevation_DX ≠ 0.0 ∨ s.m_moonEphem.elevation_Home ≠ 0.0 then
    s
  else
    let sinLat_DX := Real.sin s.m_dxSite.latitude
    let cosLat_DX := Real.cos s.m_dxSite.latitude
    let sinDec := Real.sin s.m_moonEphem.declination
    let cosDec := Real.cos s.m_moonEphem.declination
    let cosH_DX := Real.cos s.m_moonEphem.hourAngle_DX
    let elevation_DX := Real.arcsin (sinLat_DX * sinDec + cosLat_DX * cosDec * cosH_DX)
    let sinLat_Home := Real.sin s.m_homeSite.latitude
    let cosLat_Home := Real.cos s.m_homeSite.latitude
    let cosH_Home := Real.cos s.m_moonEphem.hourAngle_Home
    let elevation_Home :=
      Real.arcsin (sinLat_Home * sinDec + cosLat_Home * cosDec * cosH_Home)
    let sinH_DX := Real.sin s.m_moonEphem.hourAngle_DX
    let tanDec := Real.tan s.m_moonEphem.declination
    let azimuth_DX := Cmath.atan2 sinH_DX (cosH_DX * sinLat_DX - tanDec * cosLat_DX)
    let sinH_Home := Real.sin s.m_moonEphem.hourAngle_Home
    let azimuth_Home :=
      Cmath.atan2 sinH_Home (cosH_Home * sinLat_Home - tanDec * cosLat_Home)
    { s with m_moonEphem := { s.m_moonEphem with
        elevation_DX := elevation_DX,
        elevation_Home := elevation_Home,
        azimuth_DX := azimuth_DX,
        azimuth_Home := azimuth_Home } }

def calculateParallacticAngle (latitude declination hourAngle : ℝ) : ℝ :=
  let sinH := Real.sin hourAngle
  let cosH := Real.cos hourAngle
  let sinLat := Real.sin latitude
  let cosLat := Real.cos latitude
  let sinDec := Real.sin declination
  let cosDec := Real.cos declination
  let numerator := sinH * cosLat
  let denominator := sinLat * cosDec - cosLat * sinDec * cosH
  Cmath.atan2 numerator denominator

def calculateSlantFactor (elevation : ℝ) : ℝ :=
  if elevation < 0 then
    1.0
  else
    let hmF2 := SystemConstants.IONOSPHERE_HEIGHT_KM
    IonospherePhysics.calculateMappingFunction elevation hmF2
      IonospherePhysics.defaultEarthRadius

def calculateMagneticAngle (B_inclination B_declination elevation azimuth : ℝ) : ℝ :=
  let prop_x := Real.cos elevation * Real.cos azimuth
  let prop_y := Real.cos elevation * Real.sin azimuth
  let prop_z := Real.sin elevation
  let B_x := Real.cos B_inclination * Real.cos B_declination
  let B_y := Real.cos B_inclination * Real.sin B_declination
  let B_z := -Real.sin B_inclination
  let dotProduct := prop_x * B_x + prop_y * B_y + prop_z * B_z
  Real.arccos (max (-1.0) (min 1.0 dotProduct))

def calculateFaradayRotation (s : FaradayRotation)
    (vTEC B_magnitude B_inclination B_declination elevation azimuth : ℝ) : ℝ :=
  let f_MHz := s.m_config.frequency_MHz
  let hmF2 := SystemConstants.IONOSPHERE_HEIGHT_KM
  let omega := IonospherePhysics.calculateFaradayRotationPrecise
    vTEC hmF2 B_magnitude B_inclination B_declination elevation azimuth f_MHz
  omega

def createJonesVector (psi chi : ℝ) : JonesVector :=
  let cosPsi := Real.cos psi
  let sinPsi := Real.sin psi
  let cosChi := Real.cos chi
  let sinChi := Real.sin chi
  ![⟨cosPsi * cosChi, -sinPsi * sinChi⟩, ⟨sinPsi * cosChi, cosPsi * sinChi⟩]

def createRotationMatrix (angle : ℝ) : Matrix2x2 :=
  let cosAngle := Real.cos angle
  let sinAngle := Real.sin angle
  ![![⟨cosAngle, 0.0⟩, ⟨-sinAngle, 0.0⟩], ![⟨sinAngle, 0.0⟩, ⟨cosAngle, 0.0⟩]]

def createMoonReflectionMatrix : Matrix2x2 :=
  ![![⟨1.0, 0.0⟩, ⟨0.0, 0.0⟩], ![⟨0.0, 0.0⟩, ⟨-1.0, 0.0⟩]]

def matrixVectorMultiply (mat : Matrix2x2) (vec : JonesVector) : JonesVector :=
  ![mat 0 0 * vec 0 + mat 0 1 * vec 1, mat 1 0 * vec 0 + mat 1 1 * vec 1]

def matrixMultiply (A B : Matrix2x2) : Matrix2x2 :=
  fun i j => A i 0 * B 0 j + A i 1 * B 1 j

def vectorDotProduct (a b : JonesVector) : ℂ :=
  (starRingEnd ℂ) (a 0) * b 0 + (starRingEnd ℂ) (a 1) * b 1

/-- The `try` block of `calculate`, entered after validation has passed. It ends
either at one of its exits (`Except.ok`, with the object as left there) or by
raising a `std::exception` (`Except.error`, with the text of `what()` and the
object as left at the throw). Nothing called in the block raises. -/
def calculateGuarded (s : FaradayRotation) :
    Except (String × FaradayRotation) FaradayRotation :=
  let s := calculateMoonElevation s
  if s.m_moonEphem.elevation_DX < 0 ∨ s.m_moonEphem.elevation_Home < 0 then
    Except.ok { s with m_lastResults := { s.m_lastResults with
      calculationSuccess := false,
      errorMessage := "Moon is below horizon at one or both stations" } }
  else
    let nu_DX := calculateParallacticAngle
      s.m_dxSite.latitude s.m_moonEphem.declination s.m_moonEphem.hourAngle_DX
    let nu_Home := calculateParallacticAngle
      s.m_homeSite.latitude s.m_moonEphem.declination s.m_moonEphem.hourAngle_Home
    let spatialRotation : ℝ :=
      if s.m_config.includeSpatialRotation then nu_DX + nu_Home else 0.0
    let faradayRotation_DX : ℝ :=
      if s.m_config.includeFaradayRotation then
        IonospherePhysics.calculateFaradayRotationPrecise
          s.m_ionoData.vTEC_DX s.m_ionoData.hmF2_DX
          s.m_ionoData.B_magnitude_DX s.m_ionoData.B_inclination_DX
          s.m_ionoData.B_declination_DX
          s.m_moonEphem.elevation_DX s.m_moonEphem.azimuth_DX
          s.m_config.frequency_MHz
      else 0.0
    let faradayRotation_Home : ℝ :=
      if s.m_config.includeFaradayRotation then
        IonospherePhysics.calculateFaradayRotationPrecise
          s.m_ionoData.vTEC_Home s.m_ionoData.hmF2_Home
          s.m_ionoData.B_magnitude_Home s.m_ionoData.B_inclination_Home
          s.m_ionoData.B_declination_Home
          s.m_moonEphem.elevation_Home s.m_moonEphem.azimuth_Home
          s.m_config.frequency_MHz
      else 0.0
    let totalRotation := spatialRotation + faradayRotation_DX + faradayRotation_Home
    let J_TX := createJonesVector s.m_dxSite.psi s.m_dxSite.chi
    let J_RX := createJonesVector s.m_homeSite.psi s.m_homeSite.chi
    let Phi_up := nu_DX + faradayRotation_DX
    let Phi_down := nu_Home + faradayRotation_Home
    let R_up := createRotationMatrix Phi_up
    let M_moon :=
      if s.m_config.includeMoonReflection then createMoonReflectionMatrix
      else createRotationMatrix 0.0
    let R_down := createRotationMatrix Phi_down
    let E1 := matrixVectorMultiply R_up J_TX
    let E2 := matrixVectorMultiply M_moon E1
    let E_final := matrixVectorMultiply R_down E2
    let innerProduct := vectorDotProduct J_RX E_final
    let PLF := Complex.normSq innerProduct
    let pathLength_km := calculatePathLength s
    Except.ok { s with m_lastResults := { s.m_lastResults with
      parallacticAngle_DX_deg := rad2deg nu_DX,
      parallacticAngle_Home_deg := rad2deg nu_Home,
      spatialRotation_deg := rad2deg spatialRotation,
      slantFactor_DX := calculateSlantFactor s.m_moonEphem.elevation_DX,
      slantFactor_Home := calculateSlantFactor s.m_moonEphem.elevation_Home,
      faradayRotation_DX_deg := rad2deg faradayRotation_DX,
      faradayRotation_Home_deg := rad2deg faradayRotation_Home,
      totalRotation_deg := rad2deg totalRotation,
      PLF := PLF,
      polarizationLoss_dB := 10 * Cmath.log10 PLF,
      polarizationEfficiency := PLF * 100.0,
      pathLength_km := pathLength_km,
      propagationDelay_ms :=
        (pathLength_km * 1000.0) / SystemConstants.SPEED_OF_LIGHT * 1000.0,
      calculationSuccess := true } }

/-- The member function `calculate()`: the returned record and the object after
the call. `now` is the value of `std::time(nullptr)`. -/
def calculate (fmt : ℝ → String) (now : ℤ) (s : FaradayRotation) :
    CalculationResults × FaradayRotation :=
  let s := { s with m_lastResults := CalculationResults.new }
  let s := { s with m_lastResults := { s.m_lastResults with calculationTime := now } }
  let (valid, errorMsg) := validateParameters fmt s
  if !valid then
    let s := { s with m_lastResults := { s.m_lastResults with
      calculationSuccess := false, errorMessage := errorMsg } }
    (s.m_lastResults, s)
  else
    match calculateGuarded s with
    | Except.ok s => (s.m_lastResults, s)
    | Except.error (what, s) =>
      let s := { s with m_lastResults := { s.m_lastResults with
        calculationSuccess := false,
        errorMessage := "Calculation error: " ++ what } }
      (s.m_lastResults, s)

/-! ## Vocabulary of the statements

Names for the quantities that the statements below speak about. They are not part
of the program; each is tied to `calculate` by a lemma. -/

/-- The horizon guard of `calculate`: the moon is below the horizon of a station
once the elevations have been resolved by `calculateMoonElevation`. -/
def belowHorizon (s : FaradayRotation) : Prop :=
  (calculateMoonElevation s).m_moonEphem.elevation_DX < 0 ∨
    (calculateMoonElevation s).m_moonEphem.elevation_Home < 0

/-- The parallactic angle of the DX station, in radians. -/
def nuDX (s : FaradayRotation) : ℝ :=
  calculateParallacticAngle s.m_dxSite.latitude s.m_moonEphem.declination
    s.m_moonEphem.hourAngle_DX

/-- The parallactic angle of the Home station, in radians. -/
def nuHome (s : FaradayRotation) : ℝ :=
  calculateParallacticAngle s.m_homeSite.latitude s.m_moonEphem.declination
    s.m_moonEphem.hourAngle_Home

/-- The Faraday rotation applied on the DX leg, in radians: zero when the feature
is switched off. -/
def omegaDX (s : FaradayRotation) : ℝ :=
  if s.m_config.includeFaradayRotation then
    IonospherePhysics.calculateFaradayRotationPrecise
      s.m_ionoData.vTEC_DX s.m_ionoData.hmF2_DX
      s.m_ionoData.B_magnitude_DX s.m_ionoData.B_inclination_DX
      s.m_ionoData.B_declination_DX
      (calculateMoonElevation s).m_moonEphem.elevation_DX
      (calculateMoonElevation s).m_moonEphem.azimuth_DX
      s.m_config.frequency_MHz
  else 0

/-- The Faraday rotation applied on the Home leg, in radians: zero when the
feature is switched off. -/
def omegaHome (s : FaradayRotation) : ℝ :=
  if s.m_config.includeFaradayRotation then
    IonospherePhysics.calculateFaradayRotationPrecise
      s.m_ionoData.vTEC_Home s.m_ionoData.hmF2_Home
      s.m_ionoData.B_magnitude_Home s.m_ionoData.B_inclination_Home
      s.m_ionoData.B_declination_Home
      (calculateMoonElevation s).m_moonEphem.elevation_Home
      (calculateMoonElevation s).m_moonEphem.azimuth_Home
      s.m_config.frequency_MHz
  else 0

/-- The matrix applied at the moon: the reflection when the feature is on, the
rotation by zero otherwise. -/
def moonMatrix (s : FaradayRotation) : Matrix2x2 :=
  if s.m_config.includeMoonReflection then createMoonReflectionMatrix
  else createRotationMatrix 0

/-- The field that reaches the Home antenna, propagated leg by leg. -/
def receivedField (s : FaradayRotation) : JonesVector :=
  matrixVectorMultiply (createRotationMatrix (nuHome s + omegaHome s))
    (matrixVectorMultiply (moonMatrix s)
      (matrixVectorMultiply (createRotationMatrix (nuDX s + omegaDX s))
        (createJonesVector s.m_dxSite.psi s.m_dxSite.chi)))

/-- The polarization loss factor of the link. -/
def linkPLF (s : FaradayRotation) : ℝ :=
  Complex.normSq (vectorDotProduct (createJonesVector s.m_homeSite.psi s.m_homeSite.chi)
    (receivedField s))

/-- The squared Euclidean norm of a Jones vector. -/
def jonesNormSq (v : JonesVector) : ℝ := Complex.normSq (v 0) + Complex.normSq (v 1)

end FaradayRotation

/-! ## MaidenheadGrid.h

Characters are those of the ASCII range, where `std::isalpha`, `std::isdigit`,
`std::toupper` and `std::tolower` are the functions of the same names on `Char`. -/

namespace Cpp

/-- The character at index `i` of a `std::string`: the terminating null at the end. -/
def charAt (s : String) (i : ℕ) : Char := s.data.getD i (Char.ofNat 0)

/-- The conversion `static_cast<int>` of a `double`: truncation toward zero. -/
def toInt (x : ℝ) : ℤ := if 0 ≤ x then ⌊x⌋ else ⌈x⌉

/-- The conversion `static_cast<char>` of an `int`: the low eight bits. -/
def toChar (n : ℤ) : Char := Char.ofNat (n % 256).toNat

/-- The element `data[i][j]` of a `std::vector<std::vector<double>>`, read inside its bounds. -/
def index2 (data : List (List ℝ)) (i j : ℤ) : ℝ := (data.getD i.toNat []).getD j.toNat 0

end Cpp

namespace MaidenheadGrid

/-- The converter from a locator to the centre of its cell. It raises
`std::invalid_argument` (`Except.error` with the text of the exception) or returns
the pair of the two output parameters `(latitude, longitude)`. -/
def gridToLatLon (grid : String) : Except String (ℝ × ℝ) :=
  if grid.length ≠ 4 ∧ grid.length ≠ 6 then
    Except.error "Grid locator must be 4 or 6 characters"
  else
    let gridUpper : String := String.mk (grid.data.map Char.toUpper)
    if !(Cpp.charAt gridUpper 0).isAlpha || !(Cpp.charAt gridUpper 1).isAlpha ||
        !(Cpp.charAt gridUpper 2).isDigit || !(Cpp.charAt gridUpper 3).isDigit then
      Except.error "Invalid grid locator format"
    else
      let field_lon : ℤ := ((Cpp.charAt gridUpper 0).toNat : ℤ) - ('A'.toNat : ℤ)
      let field_lat : ℤ := ((Cpp.charAt gridUpper 1).toNat : ℤ) - ('A'.toNat : ℤ)
      let square_lon : ℤ := ((Cpp.charAt gridUpper 2).toNat : ℤ) - ('0'.toNat : ℤ)
      let square_lat : ℤ := ((Cpp.charAt gridUpper 3).toNat : ℤ) - ('0'.toNat : ℤ)
      let longitude : ℝ := -180.0 + field_lon * 20.0 + square_lon * 2.0
      let latitude : ℝ := -90.0 + field_lat * 10.0 + square_lat * 1.0
      if grid.length = 6 then
        if !(Cpp.charAt grid 4).isAlpha || !(Cpp.charAt grid 5).isAlpha then
          Except.error "Invalid subsquare format"
        else
          let subsq_lon : Char := (Cpp.charAt grid 4).toLower
          let subsq_lat : Char := (Cpp.charAt grid 5).toLower
          if subsq_lon.toNat < 'a'.toNat ∨ subsq_lon.toNat > 'x'.toNat ∨
              subsq_lat.toNat < 'a'.toNat ∨ subsq_lat.toNat > 'x'.toNat then
            Except.error "Subsquare must be a-x"
          else
            let sub_lon : ℤ := (subsq_lon.toNat : ℤ) - ('a'.toNat : ℤ)
            let sub_lat : ℤ := (subsq_lat.toNat : ℤ) - ('a'.toNat : ℤ)
            let longitude := longitude + (sub_lon * (2.0 / 24.0) + (1.0 / 24.0))
            let latitude := latitude + (sub_lat * (1.0 / 24.0) + (1.0 / 48.0))
            Except.ok (latitude, longitude)
      else
        let longitude := longitude + 1.0
        let latitude := latitude + 0.5
        Except.ok (latitude, longitude)

/-- The converter from a point to its locator; the header gives `precision` the
default `6`. -/
def latLonToGrid (latitude longitude : ℝ) (precision : ℤ) : Except String String :=
  if latitude < -90.0 ∨ latitude > 90.0 then
    Except.error "Latitude must be between -90 and 90"
  else if longitude < -180.0 ∨ longitude > 180.0 then
    Except.error "Longitude must be between -180 and 180"
  else
    let grid := ""
    let lon := longitude + 180.0
    let lat := latitude + 90.0
    let field_lon : ℤ := Cpp.toInt (lon / 20.0)
    let field_lat : ℤ := Cpp.toInt (lat / 10.0)
    let grid := grid.push (Cpp.toChar (('A'.toNat : ℤ) + field_lon))
    let grid := grid.push (Cpp.toChar (('A'.toNat : ℤ) + field_lat))
    let lon := lon - field_lon * 20.0
    let lat := lat - field_lat * 10.0
    let square_lon : ℤ := Cpp.toInt (lon / 2.0)
    let square_lat : ℤ := Cpp.toInt (lat / 1.0)
    let grid := grid.push (Cpp.toChar (('0'.toNat : ℤ) + square_lon))
    let grid := grid.push (Cpp.toChar (('0'.toNat : ℤ) + square_lat))
    if precision ≥ 6 then
      let lon := lon - square_lon * 2.0
      let lat := lat - square_lat * 1.0
      let sub_lon : ℤ := Cpp.toInt (lon / (2.0 / 24.0))
      let sub_lat : ℤ := Cpp.toInt (lat / (1.0 / 24.0))
      let grid := grid.push (Cpp.toChar (('a'.toNat : ℤ) + sub_lon))
      let grid := grid.push (Cpp.toChar (('a'.toNat : ℤ) + sub_lat))
      Except.ok grid
    else
      Except.ok grid

/-- The great-circle distance in kilometres of two points given in degrees, by the
haversine formula on a sphere of radius 6371 km, in exact arithmetic. The source takes
`std::sqrt(1.0 - a)` without a clamp; in exact arithmetic `a ≤ 1`, where `Real.sqrt` is the
value of the call (see `Cmath.sqrtChecked` for an `a` that rounding takes above `1`). -/
def calculateDistanceLatLon (lat1 lon1 lat2 lon2 : ℝ) : ℝ :=
  let R : ℝ := 6371.0
  let PI : ℝ := Real.pi
  let lat1 := lat1 * PI / 180.0
  let lon1 := lon1 * PI / 180.0
  let lat2 := lat2 * PI / 180.0
  let lon2 := lon2 * PI / 180.0
  let dlat := lat2 - lat1
  let dlon := lon2 - lon1
  let a := Real.sin (dlat / 2.0) * Real.sin (dlat / 2.0) +
    Real.cos lat1 * Real.cos lat2 * Real.sin (dlon / 2.0) * Real.sin (dlon / 2.0)
  let c := 2.0 * Cmath.atan2 (√a) (√(1.0 - a))
  R * c

/-- The great-circle distance of the centres of two locators; it raises what
`gridToLatLon` raises. -/
def calculateDistance (grid1 grid2 : String) : Except String ℝ :=
  match gridToLatLon grid1 with
  | Except.error e => Except.error e
  | Except.ok (lat1, lon1) =>
    match gridToLatLon grid2 with
    | Except.error e => Except.error e
    | Except.ok (lat2, lon2) => Except.ok (calculateDistanceLatLon lat1 lon1 lat2 lon2)

end MaidenheadGrid

/-! ## FaradayRotation.cpp: the setters of the stations and the station distance -/

namespace FaradayRotation

/-- The setter `setDXStationByGrid`: it raises what `gridToLatLon` raises and then leaves
the calculator as it was, or stores the cell centre in radians with the locator. -/
def setDXStationByGrid (s : FaradayRotation) (grid : String) (psi chi : ℝ) :
    Except String FaradayRotation :=
  match MaidenheadGrid.gridToLatLon grid with
  | Except.error e => Except.error e
  | Except.ok (lat, lon) =>
    Except.ok { s with m_dxSite := { s.m_dxSite with
      latitude := deg2rad lat, longitude := deg2rad lon,
      psi := psi, chi := chi, gridLocator := grid } }

/-- The setter `setHomeStationByGrid`. -/
def setHomeStationByGrid (s : FaradayRotation) (grid : String) (psi chi : ℝ) :
    Except String FaradayRotation :=
  match MaidenheadGrid.gridToLatLon grid with
  | Except.error e => Except.error e
  | Except.ok (lat, lon) =>
    Except.ok { s with m_homeSite := { s.m_homeSite with
      latitude := deg2rad lat, longitude := deg2rad lon,
      psi := psi, chi := chi, gridLocator := grid } }

/-- The setter `setDXStation(latitude, longitude, psi, chi)`. It ends normally
(`Except.ok`) or by the exception that `latLonToGrid` raises (`Except.error`, with the
text of `what()` and the object as left at the throw). -/
def setDXStation (s : FaradayRotation) (latitude longitude psi chi : ℝ) :
    Except (String × FaradayRotation) FaradayRotation :=
  let s := { s with m_dxSite := { s.m_dxSite with latitude := latitude } }
  let s := { s with m_dxSite := { s.m_dxSite with longitude := longitude } }
  let s := { s with m_dxSite := { s.m_dxSite with psi := psi } }
  let s := { s with m_dxSite := { s.m_dxSite with chi := chi } }
  match MaidenheadGrid.latLonToGrid (rad2deg latitude) (rad2deg longitude) 6 with
  | Except.error e => Except.error (e, s)
  | Except.ok grid => Except.ok { s with m_dxSite := { s.m_dxSite with gridLocator := grid } }

/-- The setter `setHomeStation(latitude, longitude, psi, chi)`. -/
def setHomeStation (s : FaradayRotation) (latitude longitude psi chi : ℝ) :
    Except (String × FaradayRotation) FaradayRotation :=
  let s := { s with m_homeSite := { s.m_homeSite with latitude := latitude } }
  let s := { s with m_homeSite := { s.m_homeSite with longitude := longitude } }
  let s := { s with m_homeSite := { s.m_homeSite with psi := psi } }
  let s := { s with m_homeSite := { s.m_homeSite with chi := chi } }
  match MaidenheadGrid.latLonToGrid (rad2deg latitude) (rad2deg longitude) 6 with
  | Except.error e => Except.error (e, s)
  | Except.ok grid =>
    Except.ok { s with m_homeSite := { s.m_homeSite with gridLocator := grid } }

/-- The overload `setDXStation(const SiteParameters&)`. -/
def setDXStationSite (s : FaradayRotation) (site : SiteParameters) : FaradayRotation :=
  { s with m_dxSite := site }

/-- The overload `setHomeStation(const SiteParameters&)`. -/
def setHomeStationSite (s : FaradayRotation) (site : SiteParameters) : FaradayRotation :=
  { s with m_homeSite := site }

/-- The query `calculateStationDistance`. -/
def calculateStationDistance (s : FaradayRotation) : ℝ :=
  MaidenheadGrid.calculateDistanceLatLon
    (rad2deg s.m_dxSite.latitude) (rad2deg s.m_dxSite.longitude)
    (rad2deg s.m_homeSite.latitude) (rad2deg s.m_homeSite.longitude)

end FaradayRotation

/-! ## MoonCalendarReader.h, MoonCalendarReader.cpp -/

/-- The fields of `std::tm` that the calendar reader reads or writes. -/
structure Tm where
  tm_sec : ℤ
  tm_min : ℤ
  tm_hour : ℤ
  tm_mday : ℤ
  tm_mon : ℤ
  tm_year : ℤ

/-- The struct `MoonCalendarEntry`. -/
structure MoonCalendarEntry where
  date : Tm
  declination : ℝ
  pathloss : ℝ
  sunOffset : ℝ
  noise : ℝ

/-- The data members of the class `MoonCalendarReader`. -/
structure MoonCalendarReader where
  m_entries : List MoonCalendarEntry
  m_loaded : Bool

namespace MoonCalendarReader

/-- The constructor `MoonCalendarReader::MoonCalendarReader`. -/
def new : MoonCalendarReader :=
  { m_entries := [], m_loaded := false }

/-- The table `daysInMonth` of `dateToDayOfYear`. -/
def daysInMonth : List ℤ := [31, 28, 31, 30, 31, 30, 31, 31, 30, 31, 30, 31]

/-- The method `MoonCalendarReader::dateToDayOfYear`. The table is read at `m < tm_mon`, which is
inside the table for `tm_mon ≤ 12`; the `int` sums are those of calendar dates. -/
def dateToDayOfYear (date : Tm) : ℝ :=
  let dayOfYear : ℤ := date.tm_mday
  let dayOfYear : ℤ :=
    (List.range date.tm_mon.toNat).foldl (fun acc m => acc + daysInMonth.getD m 0) dayOfYear
  let year : ℤ := date.tm_year + 1900
  let isLeapYear : Bool :=
    (year.tmod 4 == 0 && year.tmod 100 != 0) || (year.tmod 400 == 0)
  let dayOfYear : ℤ := if isLeapYear && decide (date.tm_mon > 1) then dayOfYear + 1 else dayOfYear
  let fractionalDay : ℝ := (dayOfYear : ℝ)
  let fractionalDay := fractionalDay + date.tm_hour / 24.0
  let fractionalDay := fractionalDay + date.tm_min / 1440.0
  let fractionalDay := fractionalDay + date.tm_sec / 86400.0
  fractionalDay

/-- The method `MoonCalendarReader::linearInterpolate`. -/
def linearInterpolate (x x1 y1 x2 y2 : ℝ) : ℝ :=
  if x2 = x1 then y1 else y1 + (y2 - y1) * (x - x1) / (x2 - x1)

/-- The method `MoonCalendarReader::lagrangeInterpolate`. -/
def lagrangeInterpolate (x : ℝ) (xPoints yPoints : List ℝ) : ℝ :=
  if xPoints.length ≠ yPoints.length ∨ xPoints = [] then 0.0
  else
    let n := xPoints.length
    (List.range n).foldl (fun result i =>
      let term := (List.range n).foldl (fun term j =>
        if i ≠ j then term * ((x - xPoints.getD j 0) / (xPoints.getD i 0 - xPoints.getD j 0))
        else term) (yPoints.getD i 0)
      result + term) 0.0

/-- The loop of `MoonCalendarReader::getMoonDeclination` from index `i` on, where `rest` holds the
entries `m_entries[i]`, `m_entries[i + 1]`, ...; the value is the declination written. -/
def getMoonDeclinationFrom (r : MoonCalendarReader) (targetDay : ℝ) :
    List MoonCalendarEntry → ℕ → ℝ
  | [], _ => (r.m_entries.getLast?.map MoonCalendarEntry.declination).getD 0
  | entry :: rest, i =>
    let entryDay := dateToDayOfYear entry.date
    if |entryDay - targetDay| < 0.0001 then entry.declination
    else if entryDay > targetDay then
      if i = 0 then (r.m_entries.headD entry).declination
      else
        let startIdx := if i ≥ 2 then i - 2 else 0
        let endIdx := min (i + 2) r.m_entries.length
        let window := (r.m_entries.drop startIdx).take (endIdx - startIdx)
        let xPoints := window.map (fun e => dateToDayOfYear e.date)
        let yPoints := window.map MoonCalendarEntry.declination
        lagrangeInterpolate targetDay xPoints yPoints
    else getMoonDeclinationFrom r targetDay rest (i + 1)

/-- The method `MoonCalendarReader::getMoonDeclination`: `none` when it returns `false`, and the
declination written when it returns `true`. -/
def getMoonDeclination (r : MoonCalendarReader) (date : Tm) : Option ℝ :=
  if !r.m_loaded || r.m_entries.isEmpty then none
  else
    let targetDay := dateToDayOfYear date
    some (getMoonDeclinationFrom r targetDay r.m_entries 0)

end MoonCalendarReader

/-! ## IonexReader.h, IonexReader.cpp -/

/-- The grid fields of the struct `IonexHeader`. -/
structure IonexHeader where
  lat1 : ℝ
  lat2 : ℝ
  dlat : ℝ
  lon1 : ℝ
  lon2 : ℝ
  dlon : ℝ
  exponent : ℤ
  numLat : ℤ
  numLon : ℤ

/-- The struct `TecMap`. -/
structure TecMap where
  epoch : Tm
  data : List (List ℝ)

/-- The data members of the class `IonexReader`. The `std::map` `m_mapPositions` is the list
of its entries in the order of iteration, which is the increasing order of the keys. -/
structure IonexReader where
  m_filename : String
  m_isOpen : Bool
  m_header : IonexHeader
  m_mapPositions : List (ℤ × ℤ)

namespace IonexReader

/-- The method `IonexReader::tmToTime`, where `mktime` is the library function at a broken-down
time whose `tm_isdst` is `-1`. -/
def tmToTime (mktime : Tm → ℤ) (tm : Tm) : ℤ :=
  let temp := tm
  mktime temp

/-- The call `m_mapPositions.lower_bound(targetTime)` as a scan from `begin()`: the result is the
entry before the iterator, if there is one, and the entries from the iterator on. -/
def lowerBound (targetTime : ℤ) : Option (ℤ × ℤ) → List (ℤ × ℤ) → Option (ℤ × ℤ) × List (ℤ × ℤ)
  | prev, [] => (prev, [])
  | prev, entry :: rest =>
    if entry.1 < targetTime then lowerBound targetTime (some entry) rest
    else (prev, entry :: rest)

/-- The method `IonexReader::findClosestMaps`: `none` when it returns `false`, and the pair
`(t1, t2)` written when it returns `true`. -/
def findClosestMaps (r : IonexReader) (mktime : Tm → ℤ) (time : Tm) : Option (ℤ × ℤ) :=
  let targetTime := tmToTime mktime time
  match lowerBound targetTime none r.m_mapPositions with
  | (_, []) =>
    match r.m_mapPositions.getLast? with
    | none => none
    | some last => some (last.1, last.1)
  | (prev, entry :: _) =>
    if entry.1 = targetTime then some (entry.1, entry.1)
    else
      match prev with
      | none => some (entry.1, entry.1)
      | some before => some (before.1, entry.1)

/-- The method `IonexReader::bilinearInterpolate`. -/
def bilinearInterpolate (r : IonexReader) (data : List (List ℝ)) (lat lon : ℝ) : ℝ :=
  let latNorm := (lat - r.m_header.lat1) / r.m_header.dlat
  let lonNorm := (lon - r.m_header.lon1) / r.m_header.dlon
  let lat1Idx : ℤ := Cpp.toInt (⌊latNorm⌋ : ℤ)
  let lat2Idx : ℤ := lat1Idx + 1
  let lon1Idx : ℤ := Cpp.toInt (⌊lonNorm⌋ : ℤ)
  let lon2Idx : ℤ := lon1Idx + 1
  let lat1Idx := max 0 (min lat1Idx (r.m_header.numLat - 1))
  let lat2Idx := max 0 (min lat2Idx (r.m_header.numLat - 1))
  let lon1Idx := max 0 (min lon1Idx (r.m_header.numLon - 1))
  let lon2Idx := max 0 (min lon2Idx (r.m_header.numLon - 1))
  let v11 := Cpp.index2 data lat1Idx lon1Idx
  let v12 := Cpp.index2 data lat1Idx lon2Idx
  let v21 := Cpp.index2 data lat2Idx lon1Idx
  let v22 := Cpp.index2 data lat2Idx lon2Idx
  if v11 = 9999.0 ∨ v12 = 9999.0 ∨ v21 = 9999.0 ∨ v22 = 9999.0 then 9999.0
  else
    let latFrac := latNorm - lat1Idx
    let lonFrac := lonNorm - lon1Idx
    let v1 := v11 * (1.0 - lonFrac) + v12 * lonFrac
    let v2 := v21 * (1.0 - lonFrac) + v22 * lonFrac
    v1 * (1.0 - latFrac) + v2 * latFrac

/-- The method `IonexReader::indexToLat`. -/
def indexToLat (r : IonexReader) (idx : ℤ) : ℝ := r.m_header.lat1 + idx * r.m_header.dlat

/-- The method `IonexReader::indexToLon`. -/
def indexToLon (r : IonexReader) (idx : ℤ) : ℝ := r.m_header.lon1 + idx * r.m_header.dlon

/-- The value `m_mapPositions[t]` at a key of the map. -/
def positionAt (r : IonexReader) (t : ℤ) : ℤ :=
  ((r.m_mapPositions.find? (fun entry => entry.1 = t)).map Prod.snd).getD 0

/-- The method `IonexReader::getTecValueInterpolated`: `none` when it returns `false`, and the
value written to `vtec` when it returns `true`. `fileOpens` tells whether the file of the
reader opens, and `loadTecMap position` is the map that `loadTecMap` reads from it at a position,
`none` when that method returns `false`. -/
def getTecValueInterpolated (r : IonexReader) (mktime : Tm → ℤ) (fileOpens : Bool)
    (loadTecMap : ℤ → Option TecMap) (time : Tm) (lat lon : ℝ) : Option ℝ :=
  if !r.m_isOpen then none
  else
    let targetTime := tmToTime mktime time
    match findClosestMaps r mktime time with
    | none => none
    | some (t1, t2) =>
      if !fileOpens then none
      else
        match loadTecMap (positionAt r t1) with
        | none => none
        | some map1 =>
          let vtec1 := bilinearInterpolate r map1.data lat lon
          if vtec1 = 9999.0 then none
          else if t1 = t2 then some vtec1
          else
            match loadTecMap (positionAt r t2) with
            | none => none
            | some map2 =>
              let vtec2 := bilinearInterpolate r map2.data lat lon
              if vtec2 = 9999.0 then none
              else
                let ratio : ℝ := ((targetTime - t1 : ℤ) : ℝ) / ((t2 - t1 : ℤ) : ℝ)
                some (vtec1 + ratio * (vtec2 - vtec1))

end IonexReader

/-! ## WMMModel.h, WMMModel.cpp -/

namespace WMMConstants

/-- The constant `WMMConstants::EPOCH`. -/
def EPOCH : ℝ := 2025.0

/-- The constant `WMMConstants::MAX_DEGREE`. -/
def MAX_DEGREE : ℤ := 12

end WMMConstants

/-- The struct `GaussCoefficient`. -/
structure GaussCoefficient where
  n : ℤ
  m : ℤ
  gnm : ℝ
  hnm : ℝ
  dgnm : ℝ
  dhnm : ℝ

/-- The data members of the class `WMMModel`. -/
structure WMMModel where
  m_coefficients : List GaussCoefficient
  m_loaded : Bool

namespace WMMModel

/-- The constructor `WMMModel::WMMModel`. -/
def new : WMMModel :=
  { m_coefficients := [], m_loaded := false }

/-- The method `WMMModel::getIndex`. -/
def getIndex (n m : ℤ) : ℤ := (n * (n + 1)).tdiv 2 + m

/-- The method `WMMModel::loadCoefficientFile`: the result and the object after the call.
`file` is `none` when the file does not open, and otherwise the records read from its lines,
in order, the lines that are empty, start with `#` or do not parse being left out. -/
def loadCoefficientFile (w : WMMModel) (file : Option (List GaussCoefficient)) :
    Bool × WMMModel :=
  match file with
  | none => (false, w)
  | some lines =>
    let coefficients := lines.filter (fun coef => decide (coef.n ≤ WMMConstants.MAX_DEGREE))
    let w := { w with m_coefficients := coefficients }
    let w := { w with m_loaded := !w.m_coefficients.isEmpty }
    (w.m_loaded, w)

/-- The assignment `v[idx] = x` to an element of a `std::vector<double>`: `none` when `idx` is
outside the vector, where the behaviour of the source is undefined. -/
def assign (v : List ℝ) (idx : ℤ) (x : ℝ) : Option (List ℝ) :=
  if 0 ≤ idx ∧ idx < v.length then some (v.set idx.toNat x) else none

/-- The loop of `WMMModel::timeEvolveCoefficients` over the coefficients that remain. -/
def timeEvolveLoop (dt : ℝ) : List GaussCoefficient → List ℝ × List ℝ → Option (List ℝ × List ℝ)
  | [], gh => some gh
  | coef :: rest, (g, h) =>
    let idx := getIndex coef.n coef.m
    match assign g idx (coef.gnm + dt * coef.dgnm) with
    | none => none
    | some g =>
      match assign h idx (coef.hnm + dt * coef.dhnm) with
      | none => none
      | some h => timeEvolveLoop dt rest (g, h)

/-- The method `WMMModel::timeEvolveCoefficients` on two empty vectors, as `calculate` calls
it: the vectors `g` and `h` after the call, and `none` when a write falls outside them. -/
def timeEvolveCoefficients (w : WMMModel) (decimal_year : ℝ) : Option (List ℝ × List ℝ) :=
  let dt := decimal_year - WMMConstants.EPOCH
  let maxIndex : ℤ := ((WMMConstants.MAX_DEGREE + 1) * (WMMConstants.MAX_DEGREE + 2)).tdiv 2
  let g : List ℝ := List.replicate maxIndex.toNat 0.0
  let h : List ℝ := List.replicate maxIndex.toNat 0.0
  timeEvolveLoop dt w.m_coefficients (g, h)

end WMMModel

/-! ## NOAAGlotecReader.cpp -/

namespace NOAAGlotecReader

/-- The method `NOAAGlotecReader::roundToNearest5Minutes`. -/
def roundToNearest5Minutes (time : Tm) (roundDown : Bool) : Tm :=
  let rounded := time
  let minutes := time.tm_min
  let lastDigit := minutes.tmod 10
  let rounded :=
    if roundDown then
      if lastDigit ≥ 5 then
        { rounded with tm_min := (minutes.tdiv 10) * 10 + 5 }
      else
        let rounded := { rounded with tm_min := (minutes.tdiv 10) * 10 }
        if rounded.tm_min < 0 then
          let rounded := { rounded with tm_min := 55 }
          let rounded := { rounded with tm_hour := rounded.tm_hour - 1 }
          if rounded.tm_hour < 0 then
            let rounded := { rounded with tm_hour := 23 }
            { rounded with tm_mday := rounded.tm_mday - 1 }
          else rounded
        else rounded
    else
      if lastDigit ≤ 5 then
        { rounded with tm_min := (minutes.tdiv 10) * 10 + 5 }
      else
        let rounded := { rounded with tm_min := ((minutes.tdiv 10) + 1) * 10 + 5 }
        if rounded.tm_min ≥ 60 then
          let rounded := { rounded with tm_min := 5 }
          let rounded := { rounded with tm_hour := rounded.tm_hour + 1 }
          if rounded.tm_hour ≥ 24 then
            let rounded := { rounded with tm_hour := 0 }
            { rounded with tm_mday := rounded.tm_mday + 1 }
          else rounded
        else rounded
  { rounded with tm_sec := 0 }

end NOAAGlotecReader

open FaradayRotation

/-! ## Reference states and scenarios

Concrete calculators at which the statements are evaluated, and the end-to-end
scenario of the specification. -/

/-- A calculator as the default constructor leaves it, except that the frequency
is zero: it fails validation. -/
def zeroFrequencyCalculator : FaradayRotation :=
  { FaradayRotation.new with
    m_config := { SystemConfiguration.new with frequency_MHz := 0.0 } }

/-- A calculator whose caller supplied the elevations: exactly zero at the DX
station and one radian at the Home station. One field is non-zero, so
`calculateMoonElevation` keeps both. -/
def horizonCalculator : FaradayRotation :=
  { FaradayRotation.new with
    m_moonEphem := { MoonEphemeris.new with elevation_DX := 0.0, elevation_Home := 1.0 } }

/-- Matched linear antennas (`psi = chi = 0` at both stations) with the three
features switched off. Both stations are on the equator, the moon declination is
zero, the DX hour angle is one radian and the Home hour angle is zero; the
elevation fields are unset. -/
def matchedLinearFeaturesOff : FaradayRotation :=
  { FaradayRotation.new with
    m_config := { SystemConfiguration.new with
      includeFaradayRotation := false,
      includeSpatialRotation := false,
      includeMoonReflection := false },
    m_moonEphem := { MoonEphemeris.new with hourAngle_DX := 1.0 } }

/-- The state with both elevation fields unset, so that `calculateMoonElevation`
computes the elevations and azimuths from latitude, declination and hour angle. -/
def clearElevations (s : FaradayRotation) : FaradayRotation :=
  { s with m_moonEphem := { s.m_moonEphem with elevation_DX := 0.0, elevation_Home := 0.0 } }

/-- The end-to-end scenario: 144 MHz, all features on, valid site latitudes,
`psi = chi = 0` at both antennas, vTEC 20 TECU, hmF2 350 km, field magnitude
5e-5 T, inclination 60 degrees and declination 0 at both stations, distance
384400 km, and the moon at elevation 45 degrees and azimuth 180 degrees at both
stations. The last four fields say that this elevation and azimuth are the ones
the program itself computes from the latitudes, the declination and the hour
angles. -/
structure EndToEndScenario (s : FaradayRotation) : Prop where
  frequency : s.m_config.frequency_MHz = 144
  faradayOn : s.m_config.includeFaradayRotation = true
  spatialOn : s.m_config.includeSpatialRotation = true
  reflectionOn : s.m_config.includeMoonReflection = true
  latitude_DX : |s.m_dxSite.latitude| ≤ Real.pi / 2
  latitude_Home : |s.m_homeSite.latitude| ≤ Real.pi / 2
  psi_DX : s.m_dxSite.psi = 0
  chi_DX : s.m_dxSite.chi = 0
  psi_Home : s.m_homeSite.psi = 0
  chi_Home : s.m_homeSite.chi = 0
  vTEC_DX : s.m_ionoData.vTEC_DX = 20
  vTEC_Home : s.m_ionoData.vTEC_Home = 20
  hmF2_DX : s.m_ionoData.hmF2_DX = 350
  hmF2_Home : s.m_ionoData.hmF2_Home = 350
  B_magnitude_DX : s.m_ionoData.B_magnitude_DX = 5e-5
  B_magnitude_Home : s.m_ionoData.B_magnitude_Home = 5e-5
  B_inclination_DX : s.m_ionoData.B_inclination_DX = deg2rad 60
  B_inclination_Home : s.m_ionoData.B_inclination_Home = deg2rad 60
  B_declination_DX : s.m_ionoData.B_declination_DX = 0
  B_declination_Home : s.m_ionoData.B_declination_Home = 0
  distance : s.m_moonEphem.distance_km = 384400
  elevation_DX : (calculateMoonElevation s).m_moonEphem.elevation_DX = deg2rad 45
  elevation_Home : (calculateMoonElevation s).m_moonEphem.elevation_Home = deg2rad 45
  azimuth_DX : (calculateMoonElevation s).m_moonEphem.azimuth_DX = deg2rad 180
  azimuth_Home : (calculateMoonElevation s).m_moonEphem.azimuth_Home = deg2rad 180
  consistent_elevation_DX :
    (calculateMoonElevation (clearElevations s)).m_moonEphem.elevation_DX = deg2rad 45
  consistent_elevation_Home :
    (calculateMoonElevation (clearElevations s)).m_moonEphem.elevation_Home = deg2rad 45
  consistent_azimuth_DX :
    (calculateMoonElevation (clearElevations s)).m_moonEphem.azimuth_DX = deg2rad 180
  consistent_azimuth_Home :
    (calculateMoonElevation (clearElevations s)).m_moonEphem.azimuth_Home = deg2rad 180

/-- An instance of the end-to-end scenario: both stations at latitude -45
degrees, moon declination and both hour angles zero, elevation fields unset. -/
def endToEndState : FaradayRotation :=
  { FaradayRotation.new with
    m_dxSite := { SiteParameters.new with latitude := deg2rad (-45.0) },
    m_homeSite := { SiteParameters.new with latitude := deg2rad (-45.0) },
    m_ionoData := { IonosphereData.new with
      B_inclination_DX := deg2rad 60.0, B_inclination_Home := deg2rad 60.0 } }

/-- The six-character locator whose field, square and sub-square indices are
`a b`, `c d` and `e f`, longitude index before latitude index. -/
def cell6 (a b c d e f : ℤ) : String :=
  String.mk [Cpp.toChar (65 + a), Cpp.toChar (65 + b), Cpp.toChar (48 + c),
    Cpp.toChar (48 + d), Cpp.toChar (97 + e), Cpp.toChar (97 + f)]

/-- The four-character locator whose field and square indices are `a b` and `c d`. -/
def cell4 (a b c d : ℤ) : String :=
  String.mk [Cpp.toChar (65 + a), Cpp.toChar (65 + b), Cpp.toChar (48 + c),
    Cpp.toChar (48 + d)]

/-- Chronological order of two date-times, by year, month, day, hour, minute and second:
the first is earlier than the second. -/
def Tm.before (a b : Tm) : Prop :=
  a.tm_year < b.tm_year ∨ (a.tm_year = b.tm_year ∧ (a.tm_mon < b.tm_mon ∨
    (a.tm_mon = b.tm_mon ∧ (a.tm_mday < b.tm_mday ∨ (a.tm_mday = b.tm_mday ∧
      (a.tm_hour < b.tm_hour ∨ (a.tm_hour = b.tm_hour ∧ (a.tm_min < b.tm_min ∨
        (a.tm_min = b.tm_min ∧ a.tm_sec < b.tm_sec)))))))))

/-- The date `month`-`day` of the year `year` at 00:00:00. -/
def Tm.midnight (year month day : ℤ) : Tm :=
  { tm_sec := 0, tm_min := 0, tm_hour := 0, tm_mday := day, tm_mon := month - 1,
    tm_year := year - 1900 }

/-- A calendar entry for 1 January with declination 1, as `loadCalendarFile` stores it. -/
def januaryFirst : MoonCalendarEntry :=
  { date := Tm.midnight 2026 1 1, declination := 1, pathloss := 0, sunOffset := 0, noise := 0 }

/-- A calendar entry for 2 January with declination 2, as `loadCalendarFile` stores it. -/
def januarySecond : MoonCalendarEntry :=
  { date := Tm.midnight 2026 1 2, declination := 2, pathloss := 0, sunOffset := 0, noise := 0 }

/-- A loaded calendar of the two entries 1 January and 2 January. -/
def januaryCalendar : MoonCalendarReader :=
  { m_entries := [januaryFirst, januarySecond], m_loaded := true }

/-- A call of one of the setters of the calculator other than `setMoonEphemeris`. -/
inductive SetterCall where
  | setDXStation (latitude longitude psi chi : ℝ)
  | setHomeStation (latitude longitude psi chi : ℝ)
  | setDXStationByGrid (grid : String) (psi chi : ℝ)
  | setHomeStationByGrid (grid : String) (psi chi : ℝ)
  | setDXStationSite (site : SiteParameters)
  | setHomeStationSite (site : SiteParameters)
  | setIonosphereData (iono : IonosphereData)
  | setConfiguration (config : SystemConfiguration)

/-- The calculator after a setter call, whether the call returned or raised. -/
def SetterCall.run (s : FaradayRotation) : SetterCall → FaradayRotation
  | SetterCall.setDXStation latitude longitude psi chi =>
    match FaradayRotation.setDXStation s latitude longitude psi chi with
    | Except.ok s => s
    | Except.error (_, s) => s
  | SetterCall.setHomeStation latitude longitude psi chi =>
    match FaradayRotation.setHomeStation s latitude longitude psi chi with
    | Except.ok s => s
    | Except.error (_, s) => s
  | SetterCall.setDXStationByGrid grid psi chi =>
    match FaradayRotation.setDXStationByGrid s grid psi chi with
    | Except.ok s => s
    | Except.error _ => s
  | SetterCall.setHomeStationByGrid grid psi chi =>
    match FaradayRotation.setHomeStationByGrid s grid psi chi with
    | Except.ok s => s
    | Except.error _ => s
  | SetterCall.setDXStationSite site => FaradayRotation.setDXStationSite s site
  | SetterCall.setHomeStationSite site => FaradayRotation.setHomeStationSite s site
  | SetterCall.setIonosphereData iono => FaradayRotation.setIonosphereData s iono
  | SetterCall.setConfiguration config => FaradayRotation.setConfiguration s config

/-- The time of day and day of the month of a broken-down time, in minutes. -/
def Tm.minuteOfMonth (t : Tm) : ℤ := t.tm_mday * 1440 + t.tm_hour * 60 + t.tm_min

/-- The local `latNorm` of `bilinearInterpolate`: the latitude in units of rows of the grid. -/
def IonexReader.latNorm (r : IonexReader) (lat : ℝ) : ℝ := (lat - r.m_header.lat1) / r.m_header.dlat

/-- The local `lonNorm` of `bilinearInterpolate`: the longitude in units of columns. -/
def IonexReader.lonNorm (r : IonexReader) (lon : ℝ) : ℝ := (lon - r.m_header.lon1) / r.m_header.dlon

/-- A calculator as the default constructor leaves it, except that the elevation of the
moon at the Home station is supplied: 1 radian, with the elevation at the DX station `0`. -/
def lowMoonCalculator : FaradayRotation :=
  { FaradayRotation.new with
    m_moonEphem := { MoonEphemeris.new with elevation_Home := 1.0 } }

/-- A record with degree 12 and order 13, as a line `12 13 0 0 0 0` of the file gives it. -/
def orderThirteen : GaussCoefficient :=
  { n := 12, m := 13, gnm := 0, hnm := 0, dgnm := 0, dhnm := 0 }

/-- A time at minute 6 of an hour. -/
def sixPastNoon : Tm :=
  { tm_sec := 30, tm_min := 6, tm_hour := 12, tm_mday := 1, tm_mon := 0, tm_year := 126 }

/-- A reader over a grid of two rows and two columns with unit steps from the origin. -/
def unitGridReader : IonexReader :=
  { m_filename := "",
    m_isOpen := true,
    m_header :=
      { lat1 := 0, lat2 := 1, dlat := 1,
        lon1 := 0, lon2 := 1, dlon := 1,
        exponent := 0, numLat := 2, numLon := 2 },
    m_mapPositions := [(0, 0), (3600, 100)] }

/-- A map over the grid of `unitGridReader`. -/
def unitGridData : List (List ℝ) := [[1, 2], [3, 4]]

theorem string_append_eq_empty (a b : String) : a ++ b = "" ↔ a = "" ∧ b = "" := by
  simp [String.ext_iff]

/-! ### Validation -/

theorem validateParameters_lastResults (fmt : ℝ → String) (s : FaradayRotation)
    (r : CalculationResults) :
    validateParameters fmt { s with m_lastResults := r } = validateParameters fmt s := rfl

theorem validateParameters_snd (fmt : ℝ → String) (s : FaradayRotation) :
    (validateParameters fmt s).2 =
      (if 0 < s.m_config.frequency_MHz then ""
        else "Invalid frequency: " ++ fmt s.m_config.frequency_MHz ++ " MHz. ") ++
      (if |s.m_dxSite.latitude| ≤ SystemConstants.PI / 2 then ""
        else "DX latitude out of range. ") ++
      (if |s.m_homeSite.latitude| ≤ SystemConstants.PI / 2 then ""
        else "Home latitude out of range. ") ++
      (if 0 ≤ s.m_ionoData.vTEC_DX ∧ 0 ≤ s.m_ionoData.vTEC_Home then ""
        else "vTEC values must be non-negative. ") ++
      (if 0 < s.m_ionoData.B_magnitude_DX ∧ 0 < s.m_ionoData.B_magnitude_Home then ""
        else "Magnetic field magnitude must be positive. ") := by
  have e1 : (s.m_config.frequency_MHz ≤ 0) = ¬ (0 < s.m_config.frequency_MHz) := by simp
  have e2 : (|s.m_dxSite.latitude| > SystemConstants.PI / 2.0) =
      ¬ (|s.m_dxSite.latitude| ≤ SystemConstants.PI / 2) := by norm_num
  have e3 : (|s.m_homeSite.latitude| > SystemConstants.PI / 2.0) =
      ¬ (|s.m_homeSite.latitude| ≤ SystemConstants.PI / 2) := by norm_num
  have e4 : (s.m_ionoData.vTEC_DX < 0 ∨ s.m_ionoData.vTEC_Home < 0) =
      ¬ (0 ≤ s.m_ionoData.vTEC_DX ∧ 0 ≤ s.m_ionoData.vTEC_Home) := by
    rw [not_and_or, not_le, not_le]
  have e5 : (s.m_ionoData.B_magnitude_DX ≤ 0 ∨ s.m_ionoData.B_magnitude_Home ≤ 0) =
      ¬ (0 < s.m_ionoData.B_magnitude_DX ∧ 0 < s.m_ionoData.B_magnitude_Home) := by
    rw [not_and_or, not_lt, not_lt]
  simp only [validateParameters, e1, e2, e3, e4, e5]
  split_ifs <;> simp [String.append_assoc]

theorem validateParameters_fst (fmt : ℝ → String) (s : FaradayRotation) :
    (validateParameters fmt s).1 = true ↔ (validateParameters fmt s).2 = "" := by
  simp [validateParameters]

theorem validateParameters_snd_empty (fmt : ℝ → String) (s : FaradayRotation) :
    (validateParameters fmt s).2 = "" ↔
     (0 < s.m_config.frequency_MHz ∧
      |s.m_dxSite.latitude| ≤ SystemConstants.PI / 2 ∧
      |s.m_homeSite.latitude| ≤ SystemConstants.PI / 2 ∧
      0 ≤ s.m_ionoData.vTEC_DX ∧ 0 ≤ s.m_ionoData.vTEC_Home ∧
      0 < s.m_ionoData.B_magnitude_DX ∧ 0 < s.m_ionoData.B_magnitude_Home) := by
  rw [validateParameters_snd]
  simp only [string_append_eq_empty, ite_eq_left_iff]
  simp [String.ext_iff]
  tauto

theorem validateParameters_iff (fmt : ℝ → String) (s : FaradayRotation) :
    (validateParameters fmt s).1 = true ↔
     (0 < s.m_config.frequency_MHz ∧
      |s.m_dxSite.latitude| ≤ SystemConstants.PI / 2 ∧
      |s.m_homeSite.latitude| ≤ SystemConstants.PI / 2 ∧
      0 ≤ s.m_ionoData.vTEC_DX ∧ 0 ≤ s.m_ionoData.vTEC_Home ∧
      0 < s.m_ionoData.B_magnitude_DX ∧ 0 < s.m_ionoData.B_magnitude_Home) := by
  rw [validateParameters_fst, validateParameters_snd_empty]

/-! ### The moon elevation cache -/

theorem calculateMoonElevation_lastResults (s : FaradayRotation) (r : CalculationResults) :
    calculateMoonElevation { s with m_lastResults := r } =
      { calculateMoonElevation s with m_lastResults := r } := by
  unfold calculateMoonElevation
  split <;> rfl

theorem calculateMoonElevation_frame (s : FaradayRotation) :
    (calculateMoonElevation s).m_config = s.m_config ∧
    (calculateMoonElevation s).m_dxSite = s.m_dxSite ∧
    (calculateMoonElevation s).m_homeSite = s.m_homeSite ∧
    (calculateMoonElevation s).m_ionoData = s.m_ionoData ∧
    (calculateMoonElevation s).m_lastResults = s.m_lastResults ∧
    (calculateMoonElevation s).m_moonEphem.declination = s.m_moonEphem.declination ∧
    (calculateMoonElevation s).m_moonEphem.distance_km = s.m_moonEphem.distance_km ∧
    (calculateMoonElevation s).m_moonEphem.hourAngle_DX = s.m_moonEphem.hourAngle_DX ∧
    (calculateMoonElevation s).m_moonEphem.hourAngle_Home = s.m_moonEphem.hourAngle_Home := by
  unfold calculateMoonElevation
  split <;> simp

/-! ### The three exits of `calculate` -/

theorem calculate_of_invalid (fmt : ℝ → String) (now : ℤ) (s : FaradayRotation)
    (hv : (validateParameters fmt s).1 = false) :
    calculate fmt now s =
      ({ CalculationResults.new with
          calculationTime := now, calculationSuccess := false,
          errorMessage := (validateParameters fmt s).2 },
       { s with m_lastResults := { CalculationResults.new with
          calculationTime := now, calculationSuccess := false,
          errorMessage := (validateParameters fmt s).2 } }) := by
  simp [calculate, validateParameters_lastResults, hv]

theorem calculate_of_below (fmt : ℝ → String) (now : ℤ) (s : FaradayRotation)
    (hv : (validateParameters fmt s).1 = true) (hb : belowHorizon s) :
    calculate fmt now s =
      ({ CalculationResults.new with
          calculationTime := now, calculationSuccess := false,
          errorMessage := "Moon is below horizon at one or both stations" },
       { calculateMoonElevation s with m_lastResults := { CalculationResults.new with
          calculationTime := now, calculationSuccess := false,
          errorMessage := "Moon is below horizon at one or both stations" } }) := by
  unfold belowHorizon at hb
  simp [calculate, validateParameters_lastResults, hv, calculateGuarded,
    calculateMoonElevation_lastResults, hb]

theorem calculate_of_pass (fmt : ℝ → String) (now : ℤ) (s : FaradayRotation)
    (hv : (validateParameters fmt s).1 = true) (hb : ¬ belowHorizon s) :
    (calculate fmt now s).1 =
      { CalculationResults.new with
          calculationTime := now,
          parallacticAngle_DX_deg := rad2deg (nuDX s),
          parallacticAngle_Home_deg := rad2deg (nuHome s),
          spatialRotation_deg :=
            rad2deg (if s.m_config.includeSpatialRotation then nuDX s + nuHome s else 0),
          slantFactor_DX :=
            calculateSlantFactor (calculateMoonElevation s).m_moonEphem.elevation_DX,
          slantFactor_Home :=
            calculateSlantFactor (calculateMoonElevation s).m_moonEphem.elevation_Home,
          faradayRotation_DX_deg := rad2deg (omegaDX s),
          faradayRotation_Home_deg := rad2deg (omegaHome s),
          totalRotation_deg :=
            rad2deg ((if s.m_config.includeSpatialRotation then nuDX s + nuHome s else 0) +
              omegaDX s + omegaHome s),
          PLF := linkPLF s,
          polarizationLoss_dB := 10 * Cmath.log10 (linkPLF s),
          polarizationEfficiency := linkPLF s * 100,
          pathLength_km := 2 * s.m_moonEphem.distance_km,
          propagationDelay_ms :=
            (2 * s.m_moonEphem.distance_km * 1000) / 299792458 * 1000,
          calculationSuccess := true } := by
  obtain ⟨f1, f2, f3, f4, _, f6, f7, f8, f9⟩ := calculateMoonElevation_frame s
  unfold belowHorizon at hb
  simp only [calculate, validateParameters_lastResults, hv, calculateGuarded,
    calculateMoonElevation_lastResults, hb]
  have z0 : (0.0 : ℝ) = 0 := by norm_num
  have z1 : (1000.0 : ℝ) = 1000 := by norm_num
  have z2 : (2.0 : ℝ) = 2 := by norm_num
  have z3 : (299792458.0 : ℝ) = 299792458 := by norm_num
  have z4 : (100.0 : ℝ) = 100 := by norm_num
  simp [f1, f2, f3, f4, f6, f7, f8, f9, linkPLF, receivedField, nuDX, nuHome, omegaDX,
    omegaHome, moonMatrix, calculatePathLength, SystemConstants.SPEED_OF_LIGHT, z0, z1, z2, z3,
    z4]

theorem calculate_snd_of_valid (fmt : ℝ → String) (now : ℤ) (s : FaradayRotation)
    (hv : (validateParameters fmt s).1 = true) :
    (calculate fmt now s).2 =
      { calculateMoonElevation s with m_lastResults := (calculate fmt now s).1 } := by
  by_cases hb : belowHorizon s
  · rw [calculate_of_below fmt now s hv hb]
  · unfold belowHorizon at hb
    simp only [calculate, validateParameters_lastResults, hv, calculateGuarded,
      calculateMoonElevation_lastResults, hb]
    simp

theorem calculate_success_iff (fmt : ℝ → String) (now : ℤ) (s : FaradayRotation) :
    (calculate fmt now s).1.calculationSuccess = true ↔
      (validateParameters fmt s).1 = true ∧ ¬ belowHorizon s := by
  by_cases hv : (validateParameters fmt s).1 = true
  · by_cases hb : belowHorizon s
    · simp [calculate_of_below fmt now s hv hb, hv, hb]
    · simp [calculate_of_pass fmt now s hv hb, hv, hb]
  · have hv' : (validateParameters fmt s).1 = false := by simpa using hv
    simp [calculate_of_invalid fmt now s hv', hv']

/-! ### Jones calculus -/

theorem jonesNormSq_createJonesVector (psi chi : ℝ) :
    jonesNormSq (createJonesVector psi chi) = 1 := by
  simp only [jonesNormSq, createJonesVector, Complex.normSq_apply, Matrix.cons_val_zero,
    Matrix.cons_val_one, Matrix.head_cons]
  linear_combination (Real.sin_sq_add_cos_sq psi) * (Real.sin chi ^ 2 + Real.cos chi ^ 2) +
    Real.sin_sq_add_cos_sq chi

theorem jonesNormSq_rotation (angle : ℝ) (v : JonesVector) :
    jonesNormSq (matrixVectorMultiply (createRotationMatrix angle) v) = jonesNormSq v := by
  simp only [jonesNormSq, matrixVectorMultiply, createRotationMatrix, Complex.normSq_apply,
    Matrix.cons_val_zero, Matrix.cons_val_one, Matrix.head_cons, Complex.add_re, Complex.add_im,
    Complex.mul_re, Complex.mul_im]
  norm_num
  linear_combination ((v 0).re ^ 2 + (v 0).im ^ 2 + (v 1).re ^ 2 + (v 1).im ^ 2) *
    (Real.sin_sq_add_cos_sq angle)

theorem jonesNormSq_reflection (v : JonesVector) :
    jonesNormSq (matrixVectorMultiply createMoonReflectionMatrix v) = jonesNormSq v := by
  simp only [jonesNormSq, matrixVectorMultiply, createMoonReflectionMatrix,
    Complex.normSq_apply, Matrix.cons_val_zero, Matrix.cons_val_one, Matrix.head_cons,
    Complex.add_re, Complex.add_im, Complex.mul_re, Complex.mul_im]
  norm_num

theorem normSq_vectorDotProduct_le (a b : JonesVector) :
    Complex.normSq (vectorDotProduct a b) ≤ jonesNormSq a * jonesNormSq b := by
  simp only [jonesNormSq, vectorDotProduct, Complex.normSq_apply, Complex.add_re,
    Complex.add_im, Complex.mul_re, Complex.mul_im, Complex.conj_re, Complex.conj_im]
  nlinarith [
    sq_nonneg ((a 0).re * (b 1).re - (a 1).re * (b 0).re +
      ((a 1).im * (b 0).im - (a 0).im * (b 1).im)),
    sq_nonneg ((a 0).re * (b 1).im - (a 1).re * (b 0).im +
      ((a 0).im * (b 1).re - (a 1).im * (b 0).re)),
    sq_nonneg ((a 0).re * (b 1).re - (a 1).re * (b 0).re -
      ((a 1).im * (b 0).im - (a 0).im * (b 1).im)),
    sq_nonneg ((a 0).re * (b 1).im - (a 1).re * (b 0).im -
      ((a 0).im * (b 1).re - (a 1).im * (b 0).re))]

theorem matrixVectorMultiply_matrixMultiply (A B : Matrix2x2) (v : JonesVector) :
    matrixVectorMultiply (matrixMultiply A B) v =
      matrixVectorMultiply A (matrixVectorMultiply B v) := by
  funext i
  fin_cases i <;> simp [matrixVectorMultiply, matrixMultiply] <;> ring

theorem deg2rad_rad2deg (x : ℝ) : deg2rad (rad2deg x) = x := by
  unfold deg2rad rad2deg SystemConstants.PI
  field_simp

theorem createRotationMatrix_zero : createRotationMatrix 0 = ![![1, 0], ![0, 1]] := by
  funext i j
  fin_cases i <;> fin_cases j <;> simp [createRotationMatrix, Complex.ext_iff] <;> norm_num

theorem createMoonReflectionMatrix_eq : createMoonReflectionMatrix = ![![1, 0], ![0, -1]] := by
  funext i j
  fin_cases i <;> fin_cases j <;> simp [createMoonReflectionMatrix, Complex.ext_iff] <;>
    norm_num

theorem jonesNormSq_receivedField (s : FaradayRotation) : jonesNormSq (receivedField s) = 1 := by
  unfold receivedField moonMatrix
  rw [jonesNormSq_rotation]
  split
  · rw [jonesNormSq_reflection, jonesNormSq_rotation, jonesNormSq_createJonesVector]
  · rw [jonesNormSq_rotation, jonesNormSq_rotation, jonesNormSq_createJonesVector]

theorem linkPLF_nonneg (s : FaradayRotation) : 0 ≤ linkPLF s := Complex.normSq_nonneg _

theorem linkPLF_le_one (s : FaradayRotation) : linkPLF s ≤ 1 := by
  have h := normSq_vectorDotProduct_le
    (createJonesVector s.m_homeSite.psi s.m_homeSite.chi) (receivedField s)
  rw [jonesNormSq_createJonesVector, jonesNormSq_receivedField] at h
  simpa [linkPLF] using h

theorem ten_mul_log10_nonpos (x : ℝ) (h0 : 0 ≤ x) (h1 : x ≤ 1) : 10 * Cmath.log10 x ≤ 0 := by
  unfold Cmath.log10
  split
  · rw [EReal.mul_bot_of_pos (by norm_num)]
    exact bot_le
  · have h : Real.logb 10 x ≤ 0 := Real.logb_nonpos (by norm_num) h0 h1
    have : (10 : EReal) * ((Real.logb 10 x : ℝ) : EReal) = ((10 * Real.logb 10 x : ℝ) : EReal) := by
      rw [EReal.coe_mul]; rfl
    rw [this, EReal.coe_nonpos]
    linarith

theorem linkPLF_eq_matrix_form (s : FaradayRotation) :
    linkPLF s =
      Complex.normSq (vectorDotProduct
        (createJonesVector s.m_homeSite.psi s.m_homeSite.chi)
        (matrixVectorMultiply
          (matrixMultiply
            (matrixMultiply (createRotationMatrix (nuHome s + omegaHome s))
              (if s.m_config.includeMoonReflection then ![![1, 0], ![0, -1]]
                else ![![1, 0], ![0, 1]]))
            (createRotationMatrix (nuDX s + omegaDX s)))
          (createJonesVector s.m_dxSite.psi s.m_dxSite.chi))) := by
  unfold linkPLF receivedField moonMatrix
  rw [matrixVectorMultiply_matrixMultiply, matrixVectorMultiply_matrixMultiply,
    createRotationMatrix_zero, createMoonReflectionMatrix_eq]

/-! ### The default calculator -/

theorem new_valid (fmt : ℝ → String) :
    (validateParameters fmt FaradayRotation.new).1 = true := by
  rw [validateParameters_iff]
  simp only [FaradayRotation.new, SystemConfiguration.new, SiteParameters.new,
    IonosphereData.new, SystemConstants.PI]
  have := Real.pi_pos
  norm_num
  positivity

theorem new_resolved :
    (calculateMoonElevation FaradayRotation.new).m_moonEphem.elevation_DX = Real.pi / 2 ∧
    (calculateMoonElevation FaradayRotation.new).m_moonEphem.elevation_Home = Real.pi / 2 := by
  have z0 : (0.0 : ℝ) = 0 := by norm_num
  simp [calculateMoonElevation, FaradayRotation.new, MoonEphemeris.new, SiteParameters.new, z0]

theorem new_above : ¬ belowHorizon FaradayRotation.new := by
  unfold belowHorizon
  rw [new_resolved.1, new_resolved.2]
  have := Real.pi_pos
  simp only [or_self, not_lt]
  positivity

theorem new_success (fmt : ℝ → String) (now : ℤ) :
    (calculate fmt now FaradayRotation.new).1.calculationSuccess = true :=
  (calculate_success_iff fmt now _).2 ⟨new_valid fmt, new_above⟩

/-! ### The calculator with zero frequency -/

theorem zeroFrequency_invalid (fmt : ℝ → String) :
    (validateParameters fmt zeroFrequencyCalculator).1 = false := by
  rw [← Bool.not_eq_true, validateParameters_iff]
  rintro ⟨h, -⟩
  norm_num [zeroFrequencyCalculator] at h

/-! ### The calculator with the moon on the horizon -/

theorem horizonCalculator_valid (fmt : ℝ → String) :
    (validateParameters fmt horizonCalculator).1 = true := by
  rw [validateParameters_iff]
  simp only [horizonCalculator, FaradayRotation.new, SystemConfiguration.new,
    SiteParameters.new, IonosphereData.new, SystemConstants.PI]
  have := Real.pi_pos
  norm_num
  positivity

theorem horizonCalculator_resolved :
    (calculateMoonElevation horizonCalculator).m_moonEphem.elevation_DX = 0 ∧
    (calculateMoonElevation horizonCalculator).m_moonEphem.elevation_Home = 1 := by
  have z0 : (0.0 : ℝ) = 0 := by norm_num
  have z1 : (1.0 : ℝ) = 1 := by norm_num
  simp [calculateMoonElevation, horizonCalculator, FaradayRotation.new, MoonEphemeris.new,
    z0, z1]

/-! ### The library angle function -/

theorem atan2_zero_left (x : ℝ) : Cmath.atan2 0 x = 0 ∨ Cmath.atan2 0 x = Real.pi := by
  unfold Cmath.atan2
  have h : (⟨x, 0⟩ : ℂ) = (x : ℂ) := by apply Complex.ext <;> simp
  rw [h]
  rcases le_or_lt 0 x with hx | hx
  · exact Or.inl (Complex.arg_ofReal_of_nonneg hx)
  · exact Or.inr (Complex.arg_ofReal_of_neg hx)

theorem atan2_eq_pi (y x : ℝ) (h : Cmath.atan2 y x = Real.pi) : y = 0 ∧ x < 0 := by
  unfold Cmath.atan2 at h
  rw [Complex.arg_eq_pi_iff] at h
  exact ⟨h.2, h.1⟩

theorem atan2_zero_zero : Cmath.atan2 0 0 = 0 := by
  unfold Cmath.atan2
  have h : (⟨0, 0⟩ : ℂ) = 0 := rfl
  rw [h, Complex.arg_zero]

theorem atan2_pos_zero (y : ℝ) (hy : 0 < y) : Cmath.atan2 y 0 = Real.pi / 2 := by
  unfold Cmath.atan2
  rw [Complex.arg_eq_pi_div_two_iff]
  exact ⟨rfl, hy⟩

theorem atan2_zero_neg (x : ℝ) (hx : x < 0) : Cmath.atan2 0 x = Real.pi := by
  unfold Cmath.atan2
  rw [Complex.arg_eq_pi_iff]
  exact ⟨hx, rfl⟩

/-! ### Linear antennas -/

theorem linkPLF_linear_reflection (s : FaradayRotation)
    (hD : s.m_dxSite.chi = 0) (hH : s.m_homeSite.chi = 0)
    (hM : s.m_config.includeMoonReflection = true) :
    linkPLF s = Real.cos (s.m_homeSite.psi + s.m_dxSite.psi +
      (nuDX s + omegaDX s) - (nuHome s + omegaHome s)) ^ 2 := by
  unfold linkPLF receivedField moonMatrix
  generalize nuDX s + omegaDX s = u
  generalize nuHome s + omegaHome s = d
  have z0 : (0.0 : ℝ) = 0 := by norm_num
  have z1 : (1.0 : ℝ) = 1 := by norm_num
  simp only [hM, if_true, hD, hH, createJonesVector,
    createRotationMatrix, createMoonReflectionMatrix, matrixVectorMultiply, vectorDotProduct,
    Complex.normSq_apply, Matrix.cons_val_zero, Matrix.cons_val_one, Matrix.head_cons,
    Complex.add_re, Complex.add_im, Complex.mul_re, Complex.mul_im, Complex.conj_re,
    Complex.conj_im, Real.sin_zero, Real.cos_zero, z0, z1,
    Real.cos_sub, Real.cos_add, Real.sin_add]
  ring

theorem linkPLF_linear_direct (s : FaradayRotation)
    (hD : s.m_dxSite.chi = 0) (hH : s.m_homeSite.chi = 0)
    (hM : s.m_config.includeMoonReflection = false) :
    linkPLF s = Real.cos (s.m_homeSite.psi - s.m_dxSite.psi -
      (nuDX s + omegaDX s) - (nuHome s + omegaHome s)) ^ 2 := by
  unfold linkPLF receivedField moonMatrix
  generalize nuDX s + omegaDX s = u
  generalize nuHome s + omegaHome s = d
  have z0 : (0.0 : ℝ) = 0 := by norm_num
  simp only [hM, hD, hH, createJonesVector,
    createRotationMatrix, matrixVectorMultiply, vectorDotProduct,
    Complex.normSq_apply, Matrix.cons_val_zero, Matrix.cons_val_one, Matrix.head_cons,
    Complex.add_re, Complex.add_im, Complex.mul_re, Complex.mul_im, Complex.conj_re,
    Complex.conj_im, Real.sin_zero, Real.cos_zero, z0,
    Real.cos_sub, Real.sin_sub]
  norm_num
  ring

/-! ### Matched linear antennas with the features off -/

theorem matchedLinearFeaturesOff_valid (fmt : ℝ → String) :
    (validateParameters fmt matchedLinearFeaturesOff).1 = true := by
  rw [validateParameters_iff]
  simp only [matchedLinearFeaturesOff, FaradayRotation.new, SystemConfiguration.new,
    SiteParameters.new, IonosphereData.new, SystemConstants.PI]
  have := Real.pi_pos
  norm_num
  positivity

theorem matchedLinearFeaturesOff_resolved :
    (calculateMoonElevation matchedLinearFeaturesOff).m_moonEphem.elevation_DX =
      Real.arcsin (Real.cos 1) ∧
    (calculateMoonElevation matchedLinearFeaturesOff).m_moonEphem.elevation_Home =
      Real.pi / 2 := by
  have z0 : (0.0 : ℝ) = 0 := by norm_num
  have z1 : (1.0 : ℝ) = 1 := by norm_num
  simp [calculateMoonElevation, matchedLinearFeaturesOff, FaradayRotation.new,
    MoonEphemeris.new, SiteParameters.new, z0, z1]

theorem cos_one_nonneg : 0 ≤ Real.cos 1 := by
  apply Real.cos_nonneg_of_mem_Icc
  have := Real.pi_gt_three
  constructor <;> linarith

theorem matchedLinearFeaturesOff_above : ¬ belowHorizon matchedLinearFeaturesOff := by
  unfold belowHorizon
  rw [matchedLinearFeaturesOff_resolved.1, matchedLinearFeaturesOff_resolved.2, not_or,
    not_lt, not_lt]
  have := Real.pi_pos
  exact ⟨Real.arcsin_nonneg.2 cos_one_nonneg, by positivity⟩

theorem matchedLinearFeaturesOff_angles :
    nuDX matchedLinearFeaturesOff = Real.pi / 2 ∧ nuHome matchedLinearFeaturesOff = 0 ∧
    omegaDX matchedLinearFeaturesOff = 0 ∧ omegaHome matchedLinearFeaturesOff = 0 := by
  have z0 : (0.0 : ℝ) = 0 := by norm_num
  have z1 : (1.0 : ℝ) = 1 := by norm_num
  have hs : 0 < Real.sin 1 :=
    Real.sin_pos_of_pos_of_lt_pi (by norm_num) (by have := Real.pi_gt_three; linarith)
  refine ⟨?_, ?_, ?_, ?_⟩
  · simp only [nuDX, calculateParallacticAngle, matchedLinearFeaturesOff, FaradayRotation.new,
      MoonEphemeris.new, SiteParameters.new, z0, z1, Real.sin_zero, Real.cos_zero]
    norm_num
    exact atan2_pos_zero _ hs
  · simp only [nuHome, calculateParallacticAngle, matchedLinearFeaturesOff,
      FaradayRotation.new, MoonEphemeris.new, SiteParameters.new, z0, Real.sin_zero,
      Real.cos_zero]
    norm_num
    exact atan2_zero_zero
  · simp [omegaDX, matchedLinearFeaturesOff, FaradayRotation.new, SystemConfiguration.new]
  · simp [omegaHome, matchedLinearFeaturesOff, FaradayRotation.new, SystemConfiguration.new]

theorem matchedLinearFeaturesOff_PLF : linkPLF matchedLinearFeaturesOff = 0 := by
  have c1 : matchedLinearFeaturesOff.m_dxSite.chi = 0 := by
    norm_num [matchedLinearFeaturesOff, FaradayRotation.new, SiteParameters.new]
  have c2 : matchedLinearFeaturesOff.m_homeSite.chi = 0 := by
    norm_num [matchedLinearFeaturesOff, FaradayRotation.new, SiteParameters.new]
  rw [linkPLF_linear_direct _ c1 c2 rfl]
  obtain ⟨h1, h2, h3, h4⟩ := matchedLinearFeaturesOff_angles
  rw [h1, h2, h3, h4]
  simp [matchedLinearFeaturesOff, FaradayRotation.new, SiteParameters.new]

/-! ### The end-to-end scenario -/

theorem calculateMoonElevation_unset (s : FaradayRotation)
    (h1 : s.m_moonEphem.elevation_DX = 0) (h2 : s.m_moonEphem.elevation_Home = 0) :
    (calculateMoonElevation s).m_moonEphem.elevation_DX =
      Real.arcsin (Real.sin s.m_dxSite.latitude * Real.sin s.m_moonEphem.declination +
        Real.cos s.m_dxSite.latitude * Real.cos s.m_moonEphem.declination *
          Real.cos s.m_moonEphem.hourAngle_DX) ∧
    (calculateMoonElevation s).m_moonEphem.elevation_Home =
      Real.arcsin (Real.sin s.m_homeSite.latitude * Real.sin s.m_moonEphem.declination +
        Real.cos s.m_homeSite.latitude * Real.cos s.m_moonEphem.declination *
          Real.cos s.m_moonEphem.hourAngle_Home) ∧
    (calculateMoonElevation s).m_moonEphem.azimuth_DX =
      Cmath.atan2 (Real.sin s.m_moonEphem.hourAngle_DX)
        (Real.cos s.m_moonEphem.hourAngle_DX * Real.sin s.m_dxSite.latitude -
          Real.tan s.m_moonEphem.declination * Real.cos s.m_dxSite.latitude) ∧
    (calculateMoonElevation s).m_moonEphem.azimuth_Home =
      Cmath.atan2 (Real.sin s.m_moonEphem.hourAngle_Home)
        (Real.cos s.m_moonEphem.hourAngle_Home * Real.sin s.m_homeSite.latitude -
          Real.tan s.m_moonEphem.declination * Real.cos s.m_homeSite.latitude) := by
  have z0 : (0.0 : ℝ) = 0 := by norm_num
  simp [calculateMoonElevation, h1, h2, z0]

theorem deg2rad_180 : deg2rad 180 = Real.pi := by
  unfold deg2rad SystemConstants.PI
  norm_num

theorem calculateMoonElevation_clearElevations (s : FaradayRotation) :
    (calculateMoonElevation (clearElevations s)).m_moonEphem.azimuth_DX =
      Cmath.atan2 (Real.sin s.m_moonEphem.hourAngle_DX)
        (Real.cos s.m_moonEphem.hourAngle_DX * Real.sin s.m_dxSite.latitude -
          Real.tan s.m_moonEphem.declination * Real.cos s.m_dxSite.latitude) ∧
    (calculateMoonElevation (clearElevations s)).m_moonEphem.azimuth_Home =
      Cmath.atan2 (Real.sin s.m_moonEphem.hourAngle_Home)
        (Real.cos s.m_moonEphem.hourAngle_Home * Real.sin s.m_homeSite.latitude -
          Real.tan s.m_moonEphem.declination * Real.cos s.m_homeSite.latitude) := by
  have z0 : (0.0 : ℝ) = 0 := by norm_num
  simp [calculateMoonElevation, clearElevations, z0]

theorem endToEnd_angles (s : FaradayRotation) (h : EndToEndScenario s) :
    (nuDX s = 0 ∨ nuDX s = Real.pi) ∧ (nuHome s = 0 ∨ nuHome s = Real.pi) ∧
    omegaDX s = omegaHome s := by
  have hD := h.consistent_azimuth_DX
  have hH := h.consistent_azimuth_Home
  rw [(calculateMoonElevation_clearElevations s).1, deg2rad_180] at hD
  rw [(calculateMoonElevation_clearElevations s).2, deg2rad_180] at hH
  have sD := (atan2_eq_pi _ _ hD).1
  have sH := (atan2_eq_pi _ _ hH).1
  refine ⟨?_, ?_, ?_⟩
  · simp only [nuDX, calculateParallacticAngle, sD, zero_mul]
    exact atan2_zero_left _
  · simp only [nuHome, calculateParallacticAngle, sH, zero_mul]
    exact atan2_zero_left _
  · simp only [omegaDX, omegaHome, h.vTEC_DX, h.vTEC_Home, h.hmF2_DX, h.hmF2_Home,
      h.B_magnitude_DX, h.B_magnitude_Home, h.B_inclination_DX, h.B_inclination_Home,
      h.B_declination_DX, h.B_declination_Home, h.elevation_DX, h.elevation_Home,
      h.azimuth_DX, h.azimuth_Home]

theorem endToEnd_pass (fmt : ℝ → String) (s : FaradayRotation) (h : EndToEndScenario s) :
    (validateParameters fmt s).1 = true ∧ ¬ belowHorizon s := by
  constructor
  · rw [validateParameters_iff]
    simp only [h.frequency, h.vTEC_DX, h.vTEC_Home, h.B_magnitude_DX, h.B_magnitude_Home,
      SystemConstants.PI]
    refine ⟨by norm_num, h.latitude_DX, h.latitude_Home, by norm_num, by norm_num,
      by norm_num, by norm_num⟩
  · unfold belowHorizon
    rw [h.elevation_DX, h.elevation_Home, not_or, not_lt]
    have : 0 ≤ deg2rad 45 := by
      unfold deg2rad SystemConstants.PI
      have := Real.pi_pos
      positivity
    exact ⟨this, this⟩

theorem endToEnd_PLF (s : FaradayRotation) (h : EndToEndScenario s) : linkPLF s = 1 := by
  rw [linkPLF_linear_reflection s h.chi_DX h.chi_Home h.reflectionOn]
  obtain ⟨hD, hH, hO⟩ := endToEnd_angles s h
  rw [h.psi_DX, h.psi_Home, hO]
  rcases hD with hD | hD <;> rcases hH with hH | hH <;> rw [hD, hH] <;> ring_nf <;> simp

theorem deg2rad_45 : deg2rad 45 = Real.pi / 4 := by
  unfold deg2rad SystemConstants.PI
  ring

theorem arcsin_cos_pi_div_four : Real.arcsin (Real.cos (Real.pi / 4)) = Real.pi / 4 := by
  rw [Real.cos_pi_div_four, ← Real.sin_pi_div_four]
  have := Real.pi_pos
  exact Real.arcsin_sin (by linarith) (by linarith)

theorem endToEndState_latitude :
    endToEndState.m_dxSite.latitude = -(Real.pi / 4) ∧
    endToEndState.m_homeSite.latitude = -(Real.pi / 4) := by
  constructor <;>
  · show deg2rad (-45.0) = -(Real.pi / 4)
    unfold deg2rad SystemConstants.PI
    ring

theorem endToEndState_moon :
    endToEndState.m_moonEphem.elevation_DX = 0 ∧ endToEndState.m_moonEphem.elevation_Home = 0 ∧
    endToEndState.m_moonEphem.declination = 0 ∧ endToEndState.m_moonEphem.hourAngle_DX = 0 ∧
    endToEndState.m_moonEphem.hourAngle_Home = 0 := by
  norm_num [endToEndState, FaradayRotation.new, MoonEphemeris.new]

theorem endToEndState_resolved :
    (calculateMoonElevation endToEndState).m_moonEphem.elevation_DX = deg2rad 45 ∧
    (calculateMoonElevation endToEndState).m_moonEphem.elevation_Home = deg2rad 45 ∧
    (calculateMoonElevation endToEndState).m_moonEphem.azimuth_DX = deg2rad 180 ∧
    (calculateMoonElevation endToEndState).m_moonEphem.azimuth_Home = deg2rad 180 := by
  obtain ⟨m1, m2, m3, m4, m5⟩ := endToEndState_moon
  obtain ⟨e1, e2, e3, e4⟩ := calculateMoonElevation_unset endToEndState m1 m2
  rw [e1, e2, e3, e4, m3, m4, m5, endToEndState_latitude.1, endToEndState_latitude.2,
    deg2rad_45, deg2rad_180]
  have hneg : Real.cos 0 * Real.sin (-(Real.pi / 4)) - Real.tan 0 * Real.cos (-(Real.pi / 4)) < 0 := by
    rw [Real.cos_zero, Real.tan_zero, Real.sin_neg, Real.sin_pi_div_four]
    have : 0 < √2 := by positivity
    linarith
  simp only [Real.sin_zero, Real.cos_zero, Real.cos_neg, mul_zero, zero_add, mul_one] at *
  exact ⟨arcsin_cos_pi_div_four, arcsin_cos_pi_div_four, atan2_zero_neg _ hneg,
    atan2_zero_neg _ hneg⟩

theorem clearElevations_endToEndState :
    calculateMoonElevation (clearElevations endToEndState) =
      calculateMoonElevation endToEndState := by
  have z0 : (0.0 : ℝ) = 0 := by norm_num
  simp [calculateMoonElevation, clearElevations, endToEndState, FaradayRotation.new,
    MoonEphemeris.new, z0]

theorem endToEndState_scenario : EndToEndScenario endToEndState := by
  obtain ⟨r1, r2, r3, r4⟩ := endToEndState_resolved
  have hl : |-(Real.pi / 4)| ≤ Real.pi / 2 := by
    have := Real.pi_pos
    rw [abs_neg, abs_of_pos (by positivity)]
    linarith
  refine
    { frequency := ?_, faradayOn := rfl, spatialOn := rfl, reflectionOn := rfl,
      latitude_DX := ?_, latitude_Home := ?_,
      psi_DX := ?_, chi_DX := ?_, psi_Home := ?_, chi_Home := ?_,
      vTEC_DX := ?_, vTEC_Home := ?_, hmF2_DX := ?_, hmF2_Home := ?_,
      B_magnitude_DX := ?_, B_magnitude_Home := ?_,
      B_inclination_DX := ?_, B_inclination_Home := ?_,
      B_declination_DX := ?_, B_declination_Home := ?_,
      distance := ?_,
      elevation_DX := r1, elevation_Home := r2, azimuth_DX := r3, azimuth_Home := r4,
      consistent_elevation_DX := ?_, consistent_elevation_Home := ?_,
      consistent_azimuth_DX := ?_, consistent_azimuth_Home := ?_ }
  all_goals first
    | (rw [clearElevations_endToEndState]; assumption)
    | (rw [endToEndState_latitude.1]; exact hl)
    | (rw [endToEndState_latitude.2]; exact hl)
    | norm_num [endToEndState, FaradayRotation.new, SystemConfiguration.new,
        SiteParameters.new, IonosphereData.new, MoonEphemeris.new]

/-! ### What `calculate` leaves unchanged -/

theorem calculateMoonElevation_moon_frame (s : FaradayRotation) :
    (calculateMoonElevation s).m_moonEphem.rightAscension = s.m_moonEphem.rightAscension ∧
    (calculateMoonElevation s).m_moonEphem.observationTime = s.m_moonEphem.observationTime ∧
    (calculateMoonElevation s).m_moonEphem.julianDate = s.m_moonEphem.julianDate ∧
    (calculateMoonElevation s).m_moonEphem.ephemerisSource = s.m_moonEphem.ephemerisSource := by
  unfold calculateMoonElevation
  split <;> simp

theorem calculateMoonElevation_of_set (s : FaradayRotation)
    (h : s.m_moonEphem.elevation_DX ≠ 0 ∨ s.m_moonEphem.elevation_Home ≠ 0) :
    calculateMoonElevation s = s := by
  have z0 : (0.0 : ℝ) = 0 := by norm_num
  unfold calculateMoonElevation
  rw [z0, if_pos h]

theorem calculate_snd_of_invalid (fmt : ℝ → String) (now : ℤ) (s : FaradayRotation)
    (hv : (validateParameters fmt s).1 = false) :
    (calculate fmt now s).2 = { s with m_lastResults := (calculate fmt now s).1 } := by
  rw [calculate_of_invalid fmt now s hv]

/-! ### The Faraday rotation formula -/

theorem calculateFaradayRotationPrecise_eq
    (vTEC hmF2 B I D el az f : ℝ) :
    IonospherePhysics.calculateFaradayRotationPrecise vTEC hmF2 B I D el az f =
      (0.23647 / f ^ 2) *
        (vTEC * IonospherePhysics.calculateMappingFunction el hmF2 6371) *
        (1e9 * IonospherePhysics.calculateMagneticFieldProjection B I D el az) := by
  have z : IonospherePhysics.defaultEarthRadius = 6371 := by
    unfold IonospherePhysics.defaultEarthRadius
    norm_num
  simp only [IonospherePhysics.calculateFaradayRotationPrecise,
    IonospherePhysics.calculateSlantTEC, z]
  ring

theorem rad2deg_zero : rad2deg 0 = 0 := by
  unfold rad2deg
  simp

/-! ### The slant factor -/

theorem calculateSlantFactor_of_neg (e : ℝ) (h : e < 0) : calculateSlantFactor e = 1 := by
  unfold calculateSlantFactor
  rw [if_pos h]
  norm_num

theorem calculateSlantFactor_of_nonneg (e : ℝ) (h : 0 ≤ e) :
    calculateSlantFactor e =
      1 / Real.cos (Real.arcsin (max (-1) (min 1 (6371 * Real.cos e / (6371 + 350))))) := by
  have hn : ¬ e < 0 := not_lt.2 h
  simp only [calculateSlantFactor, IonospherePhysics.calculateMappingFunction, if_neg hn,
    SystemConstants.IONOSPHERE_HEIGHT_KM, IonospherePhysics.defaultEarthRadius]
  norm_num

theorem calculateSlantFactor_of_mem (e : ℝ) (h0 : 0 ≤ e) (h1 : e ≤ Real.pi / 2) :
    calculateSlantFactor e = 1 / √(1 - (6371 * Real.cos e / 6721) ^ 2) := by
  rw [calculateSlantFactor_of_nonneg e h0]
  have hc0 : 0 ≤ Real.cos e := Real.cos_nonneg_of_mem_Icc ⟨by linarith, h1⟩
  have hc1 : Real.cos e ≤ 1 := Real.cos_le_one e
  have hx0 : 0 ≤ 6371 * Real.cos e / 6721 := by positivity
  have hx1 : 6371 * Real.cos e / 6721 ≤ 1 := by
    rw [div_le_one (by norm_num)]
    linarith
  have e1 : (6371 : ℝ) + 350 = 6721 := by norm_num
  rw [e1, min_eq_right hx1, max_eq_right (by linarith), Real.cos_arcsin]

/-! ### The magnetic field projection -/

theorem calculateMagneticFieldProjection_eq (B I D e a : ℝ) :
    IonospherePhysics.calculateMagneticFieldProjection B I D e a =
      B * (Real.cos e * Real.cos a * (Real.cos I * Real.cos D) +
        Real.cos e * Real.sin a * (Real.cos I * Real.sin D) +
        Real.sin e * -Real.sin I) := rfl

theorem unit_dot_abs_le_one (I D e a : ℝ) :
    |Real.cos e * Real.cos a * (Real.cos I * Real.cos D) +
        Real.cos e * Real.sin a * (Real.cos I * Real.sin D) +
        Real.sin e * -Real.sin I| ≤ 1 := by
  have hp : (Real.cos e * Real.cos a) ^ 2 + (Real.cos e * Real.sin a) ^ 2 +
      Real.sin e ^ 2 = 1 := by
    linear_combination Real.cos e ^ 2 * Real.sin_sq_add_cos_sq a + Real.sin_sq_add_cos_sq e
  have hb : (Real.cos I * Real.cos D) ^ 2 + (Real.cos I * Real.sin D) ^ 2 +
      (-Real.sin I) ^ 2 = 1 := by
    linear_combination Real.cos I ^ 2 * Real.sin_sq_add_cos_sq D + Real.sin_sq_add_cos_sq I
  rw [abs_le]
  constructor <;>
  nlinarith [sq_nonneg (Real.cos e * Real.cos a - Real.cos I * Real.cos D),
    sq_nonneg (Real.cos e * Real.sin a - Real.cos I * Real.sin D),
    sq_nonneg (Real.sin e - -Real.sin I),
    sq_nonneg (Real.cos e * Real.cos a + Real.cos I * Real.cos D),
    sq_nonneg (Real.cos e * Real.sin a + Real.cos I * Real.sin D),
    sq_nonneg (Real.sin e + -Real.sin I)]

/-! ### The inner product of a vector with itself -/

theorem vectorDotProduct_self (v : JonesVector) :
    vectorDotProduct v v = ((jonesNormSq v : ℝ) : ℂ) := by
  unfold vectorDotProduct jonesNormSq
  rw [← Complex.normSq_eq_conj_mul_self, ← Complex.normSq_eq_conj_mul_self]
  push_cast
  ring

/-! ### The record that `calculate` returns -/

theorem rad2deg_add (a b : ℝ) : rad2deg (a + b) = rad2deg a + rad2deg b := by
  unfold rad2deg
  ring

theorem calculate_lastResults (fmt : ℝ → String) (now : ℤ) (s : FaradayRotation)
    (r : CalculationResults) :
    calculate fmt now { s with m_lastResults := r } = calculate fmt now s := rfl

theorem calculate_time (fmt : ℝ → String) (now now' t : ℤ) (s : FaradayRotation) :
    { (calculate fmt now s).1 with calculationTime := t } =
      { (calculate fmt now' s).1 with calculationTime := t } := by
  by_cases hv : (validateParameters fmt s).1 = true
  · by_cases hb : belowHorizon s
    · rw [calculate_of_below fmt now s hv hb, calculate_of_below fmt now' s hv hb]
    · rw [calculate_of_pass fmt now s hv hb, calculate_of_pass fmt now' s hv hb]
  · have hv' : (validateParameters fmt s).1 = false := by simpa using hv
    rw [calculate_of_invalid fmt now s hv', calculate_of_invalid fmt now' s hv']

theorem calculate_getLastResults (fmt : ℝ → String) (now : ℤ) (s : FaradayRotation) :
    getLastResults (calculate fmt now s).2 = (calculate fmt now s).1 := by
  unfold getLastResults
  by_cases hv : (validateParameters fmt s).1 = true
  · rw [calculate_snd_of_valid fmt now s hv]
  · have hv' : (validateParameters fmt s).1 = false := by simpa using hv
    rw [calculate_snd_of_invalid fmt now s hv']

/-! ### Antennas of any ellipticity -/

theorem int_of_range (a : ℤ) (k : ℕ) (h0 : 0 ≤ a) (h1 : a < k) :
    ∃ n : Fin k, a = (n.val : ℤ) := by
  lift a to ℕ using h0
  exact ⟨⟨a, by exact_mod_cast h1⟩, rfl⟩

theorem toChar_upper (a : ℤ) (h0 : 0 ≤ a) (h1 : a ≤ 25) :
    (Cpp.toChar (65 + a)).toUpper.isAlpha = true ∧
    ((Cpp.toChar (65 + a)).toUpper.toNat : ℤ) = 65 + a := by
  obtain ⟨n, rfl⟩ := int_of_range a 26 h0 (by omega)
  revert n
  decide

theorem toChar_digit (a : ℤ) (h0 : 0 ≤ a) (h1 : a ≤ 9) :
    (Cpp.toChar (48 + a)).toUpper.isDigit = true ∧
    ((Cpp.toChar (48 + a)).toUpper.toNat : ℤ) = 48 + a := by
  obtain ⟨n, rfl⟩ := int_of_range a 10 h0 (by omega)
  revert n
  decide

theorem toChar_lower (a : ℤ) (h0 : 0 ≤ a) (h1 : a ≤ 23) :
    (Cpp.toChar (97 + a)).isAlpha = true ∧
    ((Cpp.toChar (97 + a)).toLower.toNat : ℤ) = 97 + a := by
  obtain ⟨n, rfl⟩ := int_of_range a 24 h0 (by omega)
  revert n
  decide

theorem toChar_toNat (c : Char) (h : c.toNat < 256) : Cpp.toChar (c.toNat : ℤ) = c := by
  unfold Cpp.toChar
  have : ((c.toNat : ℤ) % 256).toNat = c.toNat := by omega
  rw [this, Char.ofNat_toNat]

theorem toInt_of_nonneg (x : ℝ) (h : 0 ≤ x) : Cpp.toInt x = ⌊x⌋ := by
  unfold Cpp.toInt
  rw [if_pos h]

theorem canonical_char (c : Char) (lo hi : ℤ) (h1 : lo ≤ (c.toNat : ℤ)) (h2 : (c.toNat : ℤ) ≤ hi)
    (hhi : hi < 256) :
    Cpp.toChar (lo + ((c.toNat : ℤ) - lo)) = c ∧
    0 ≤ (c.toNat : ℤ) - lo ∧ (c.toNat : ℤ) - lo ≤ hi - lo := by
  have e : lo + ((c.toNat : ℤ) - lo) = (c.toNat : ℤ) := by ring
  rw [e]
  exact ⟨toChar_toNat c (by omega), by omega, by omega⟩

theorem push_six (c0 c1 c2 c3 c4 c5 : Char) :
    ((((("".push c0).push c1).push c2).push c3).push c4).push c5 =
      String.mk [c0, c1, c2, c3, c4, c5] := rfl

theorem push_four (c0 c1 c2 c3 : Char) :
    ((("".push c0).push c1).push c2).push c3 = String.mk [c0, c1, c2, c3] := rfl

/-! ### The locator of a cell and the cell of a point -/

theorem gridToLatLon_cell6 (a b c d e f : ℤ)
    (ha : 0 ≤ a ∧ a ≤ 25) (hb : 0 ≤ b ∧ b ≤ 25) (hc : 0 ≤ c ∧ c ≤ 9) (hd : 0 ≤ d ∧ d ≤ 9)
    (he : 0 ≤ e ∧ e ≤ 23) (hf : 0 ≤ f ∧ f ≤ 23) :
    MaidenheadGrid.gridToLatLon (cell6 a b c d e f) =
      Except.ok (-90 + (b : ℝ) * 10 + (d : ℝ) + ((f : ℝ) / 24 + 1 / 48),
        -180 + (a : ℝ) * 20 + (c : ℝ) * 2 + ((e : ℝ) / 12 + 1 / 24)) := by
  obtain ⟨a1, a2⟩ := toChar_upper a ha.1 ha.2
  obtain ⟨b1, b2⟩ := toChar_upper b hb.1 hb.2
  obtain ⟨c1, c2⟩ := toChar_digit c hc.1 hc.2
  obtain ⟨d1, d2⟩ := toChar_digit d hd.1 hd.2
  obtain ⟨e1, e2⟩ := toChar_lower e he.1 he.2
  obtain ⟨f1, f2⟩ := toChar_lower f hf.1 hf.2
  have e3 : 97 ≤ (Cpp.toChar (97 + e)).toLower.toNat ∧
      (Cpp.toChar (97 + e)).toLower.toNat ≤ 120 := by omega
  have f3 : 97 ≤ (Cpp.toChar (97 + f)).toLower.toNat ∧
      (Cpp.toChar (97 + f)).toLower.toNat ≤ 120 := by omega
  have hA : ('A'.toNat : ℤ) = 65 := rfl
  have h0 : ('0'.toNat : ℤ) = 48 := rfl
  have hl : ('a'.toNat : ℤ) = 97 := rfl
  have hl' : 'a'.toNat = 97 := rfl
  have hx' : 'x'.toNat = 120 := rfl
  simp only [MaidenheadGrid.gridToLatLon, cell6, Cpp.charAt, String.length, List.length_cons,
    List.length_nil, List.map, List.getD_cons_zero, List.getD_cons_succ, a1, a2, b1, b2, c1, c2,
    d1, d2, e1, e2, f1, f2, hA, h0, hl, hl', hx']
  norm_num
  rw [if_neg (by omega)]
  congr 2 <;> ring

theorem gridToLatLon_cell4 (a b c d : ℤ)
    (ha : 0 ≤ a ∧ a ≤ 25) (hb : 0 ≤ b ∧ b ≤ 25) (hc : 0 ≤ c ∧ c ≤ 9) (hd : 0 ≤ d ∧ d ≤ 9) :
    MaidenheadGrid.gridToLatLon (cell4 a b c d) =
      Except.ok (-90 + (b : ℝ) * 10 + (d : ℝ) + 1 / 2, -180 + (a : ℝ) * 20 + (c : ℝ) * 2 + 1) := by
  obtain ⟨a1, a2⟩ := toChar_upper a ha.1 ha.2
  obtain ⟨b1, b2⟩ := toChar_upper b hb.1 hb.2
  obtain ⟨c1, c2⟩ := toChar_digit c hc.1 hc.2
  obtain ⟨d1, d2⟩ := toChar_digit d hd.1 hd.2
  have hA : ('A'.toNat : ℤ) = 65 := rfl
  have h0 : ('0'.toNat : ℤ) = 48 := rfl
  simp only [MaidenheadGrid.gridToLatLon, cell4, Cpp.charAt, String.length, List.length_cons,
    List.length_nil, List.map, List.getD_cons_zero, List.getD_cons_succ, a1, a2, b1, b2, c1, c2,
    d1, d2, hA, h0]
  norm_num

theorem latLonToGrid_of_cell (lat lon : ℝ) (a b c d e f : ℤ) (r t : ℝ)
    (ha : 0 ≤ a) (hb : 0 ≤ b) (hc : 0 ≤ c) (hd : 0 ≤ d) (he : 0 ≤ e) (hf : 0 ≤ f)
    (hlon : lon + 180 = a * 20 + c * 2 + e / 12 + r) (hr : 0 ≤ r ∧ r < 1 / 12)
    (hc2 : (c : ℝ) * 2 + e / 12 + r < 20) (he2 : (e : ℝ) / 12 + r < 2)
    (hlat : lat + 90 = b * 10 + d + f / 24 + t) (ht : 0 ≤ t ∧ t < 1 / 24)
    (hd2 : (d : ℝ) + f / 24 + t < 10) (hf2 : (f : ℝ) / 24 + t < 1)
    (hlatr : -90 ≤ lat ∧ lat ≤ 90) (hlonr : -180 ≤ lon ∧ lon ≤ 180) :
    MaidenheadGrid.latLonToGrid lat lon 6 = Except.ok (cell6 a b c d e f) ∧
    MaidenheadGrid.latLonToGrid lat lon 4 = Except.ok (cell4 a b c d) := by
  have ha' : (0 : ℝ) ≤ a := by exact_mod_cast ha
  have hb' : (0 : ℝ) ≤ b := by exact_mod_cast hb
  have hc' : (0 : ℝ) ≤ c := by exact_mod_cast hc
  have hd' : (0 : ℝ) ≤ d := by exact_mod_cast hd
  have he' : (0 : ℝ) ≤ e := by exact_mod_cast he
  have hf' : (0 : ℝ) ≤ f := by exact_mod_cast hf
  have n1 : ¬ (lat < -90 ∨ lat > 90) := by
    rw [not_or, not_lt, not_lt]; exact hlatr
  have n2 : ¬ (lon < -180 ∨ lon > 180) := by
    rw [not_or, not_lt, not_lt]; exact hlonr
  have k1 : Cpp.toInt ((lon + 180) / 20) = a := by
    rw [toInt_of_nonneg _ (by rw [hlon]; exact div_nonneg (by linarith [hr.1]) (by norm_num)),
      Int.floor_eq_iff, hlon]
    constructor <;> linarith [hr.1]
  have k2 : Cpp.toInt ((lat + 90) / 10) = b := by
    rw [toInt_of_nonneg _ (by rw [hlat]; exact div_nonneg (by linarith [ht.1]) (by norm_num)),
      Int.floor_eq_iff, hlat]
    constructor <;> linarith [ht.1]
  have k3 : Cpp.toInt ((lon + 180 - a * 20) / 2) = c := by
    have : lon + 180 - a * 20 = c * 2 + e / 12 + r := by linarith
    rw [this, toInt_of_nonneg _ (div_nonneg (by linarith [hr.1, ht.1]) (by norm_num)),
      Int.floor_eq_iff]
    constructor <;> linarith [hr.1, ht.1]
  have k4 : Cpp.toInt ((lat + 90 - b * 10) / 1) = d := by
    have : lat + 90 - b * 10 = d + f / 24 + t := by linarith
    rw [this, toInt_of_nonneg _ (div_nonneg (by linarith [hr.1, ht.1]) (by norm_num)),
      Int.floor_eq_iff]
    constructor <;> linarith [hr.1, ht.1]
  have k5 : Cpp.toInt ((lon + 180 - a * 20 - c * 2) / (2 / 24)) = e := by
    have : lon + 180 - a * 20 - c * 2 = e / 12 + r := by linarith
    rw [this, toInt_of_nonneg _ (div_nonneg (by linarith [hr.1, ht.1]) (by norm_num)),
      Int.floor_eq_iff]
    constructor
    · rw [le_div_iff₀ (by norm_num)]; linarith [hr.1, ht.1]
    · rw [div_lt_iff₀ (by norm_num)]; linarith [hr.2, ht.2]
  have k6 : Cpp.toInt ((lat + 90 - b * 10 - d * 1) / (1 / 24)) = f := by
    have : lat + 90 - b * 10 - d * 1 = f / 24 + t := by linarith
    rw [this, toInt_of_nonneg _ (div_nonneg (by linarith [hr.1, ht.1]) (by norm_num)),
      Int.floor_eq_iff]
    constructor
    · rw [le_div_iff₀ (by norm_num)]; linarith [hr.1, ht.1]
    · rw [div_lt_iff₀ (by norm_num)]; linarith [hr.2, ht.2]
  have z1 : (90.0 : ℝ) = 90 := by norm_num
  have z2 : (180.0 : ℝ) = 180 := by norm_num
  have z3 : (20.0 : ℝ) = 20 := by norm_num
  have z4 : (10.0 : ℝ) = 10 := by norm_num
  have z5 : (2.0 : ℝ) = 2 := by norm_num
  have z6 : (1.0 : ℝ) = 1 := by norm_num
  have z7 : (24.0 : ℝ) = 24 := by norm_num
  have hA : ('A'.toNat : ℤ) = 65 := rfl
  have h0 : ('0'.toNat : ℤ) = 48 := rfl
  have hl : ('a'.toNat : ℤ) = 97 := rfl
  constructor
  · simp only [MaidenheadGrid.latLonToGrid, z1, z2, z3, z4, z5, z6, z7, n1, n2, if_false, k1, k2, k3, k4, k5,
      k6, hA, h0, hl, push_six, cell6]
    simp
  · simp only [MaidenheadGrid.latLonToGrid, z1, z2, z3, z4, z5, z6, z7, n1, n2, if_false, k1, k2, k3, k4,
      hA, h0, hl, push_four, cell4]
    simp

theorem cell_split (x F : ℝ) (hF : 0 < F) (hx : 0 ≤ x) :
    ∃ a : ℤ, 0 ≤ a ∧ 0 ≤ x - a * F ∧ x - a * F < F := by
  have h1 := Int.floor_le (x / F)
  have h2 := Int.lt_floor_add_one (x / F)
  rw [le_div_iff₀ hF] at h1
  rw [div_lt_iff₀ hF] at h2
  exact ⟨⌊x / F⌋, Int.floor_nonneg.2 (div_nonneg hx hF.le), by linarith, by linarith⟩

theorem int_le_of_cast_lt (a n : ℤ) (h : (a : ℝ) < n + 1) : a ≤ n := by
  have : a < n + 1 := by exact_mod_cast h
  omega

theorem latLonToGrid_decode (lat lon : ℝ)
    (hlat : -90 ≤ lat ∧ lat ≤ 90) (hlon : -180 ≤ lon ∧ lon ≤ 180) :
    ∃ g lat' lon', MaidenheadGrid.latLonToGrid lat lon 6 = Except.ok g ∧
      MaidenheadGrid.gridToLatLon g = Except.ok (lat', lon') ∧
      |lat' - lat| ≤ 1 / 48 ∧ |lon' - lon| ≤ 1 / 24 := by
  obtain ⟨a, a0, x1, x2⟩ := cell_split (lon + 180) 20 (by norm_num) (by linarith [hlon.1])
  obtain ⟨c, c0, x3, x4⟩ := cell_split (lon + 180 - a * 20) 2 (by norm_num) x1
  obtain ⟨e, e0, x5, x6⟩ := cell_split (lon + 180 - a * 20 - c * 2) (1 / 12) (by norm_num) x3
  obtain ⟨b, b0, y1, y2⟩ := cell_split (lat + 90) 10 (by norm_num) (by linarith [hlat.1])
  obtain ⟨d, d0, y3, y4⟩ := cell_split (lat + 90 - b * 10) 1 (by norm_num) y1
  obtain ⟨f, f0, y5, y6⟩ := cell_split (lat + 90 - b * 10 - d * 1) (1 / 24) (by norm_num) y3
  have a25 : a ≤ 25 := int_le_of_cast_lt a 25 (by push_cast; linarith [hlon.2])
  have b25 : b ≤ 25 := int_le_of_cast_lt b 25 (by push_cast; linarith [hlat.2])
  have c9 : c ≤ 9 := int_le_of_cast_lt c 9 (by push_cast; linarith)
  have d9 : d ≤ 9 := int_le_of_cast_lt d 9 (by push_cast; linarith)
  have e23 : e ≤ 23 := int_le_of_cast_lt e 23 (by push_cast; linarith)
  have f23 : f ≤ 23 := int_le_of_cast_lt f 23 (by push_cast; linarith)
  have key := (latLonToGrid_of_cell lat lon a b c d e f
    (lon + 180 - a * 20 - c * 2 - e * (1 / 12)) (lat + 90 - b * 10 - d * 1 - f * (1 / 24))
    a0 b0 c0 d0 e0 f0 (by linarith) ⟨x5, x6⟩ (by linarith) (by linarith)
    (by linarith) ⟨y5, y6⟩ (by linarith) (by linarith) hlat hlon).1
  refine ⟨_, _, _, key, gridToLatLon_cell6 a b c d e f ⟨a0, a25⟩ ⟨b0, b25⟩ ⟨c0, c9⟩ ⟨d0, d9⟩
    ⟨e0, e23⟩ ⟨f0, f23⟩, ?_, ?_⟩
  · rw [abs_le]
    constructor <;> linarith
  · rw [abs_le]
    constructor <;> linarith

theorem latLonToGrid_error_iff (lat lon : ℝ) (precision : ℤ) :
    (∃ e, MaidenheadGrid.latLonToGrid lat lon precision = Except.error e) ↔
      (lat < -90 ∨ lat > 90 ∨ lon < -180 ∨ lon > 180) := by
  have z1 : (90.0 : ℝ) = 90 := by norm_num
  have z2 : (180.0 : ℝ) = 180 := by norm_num
  simp only [MaidenheadGrid.latLonToGrid, z1, z2]
  by_cases h1 : lat < -90 ∨ lat > 90
  · simp only [h1, if_true]
    exact ⟨fun _ => by tauto, fun _ => ⟨_, rfl⟩⟩
  · by_cases h2 : lon < -180 ∨ lon > 180
    · simp only [h1, h2, if_true, if_false]
      exact ⟨fun _ => by tauto, fun _ => ⟨_, rfl⟩⟩
    · simp only [h1, h2, if_false]
      constructor
      · rintro ⟨e, he⟩
        split at he <;> exact absurd he (by simp)
      · intro h
        tauto

theorem roundtrip_aux (a b c d e f : ℤ)
    (ha : 0 ≤ a ∧ a ≤ 17) (hb : 0 ≤ b ∧ b ≤ 17) (hc : 0 ≤ c ∧ c ≤ 9) (hd : 0 ≤ d ∧ d ≤ 9)
    (he : 0 ≤ e ∧ e ≤ 23) (hf : 0 ≤ f ∧ f ≤ 23) :
    (∃ lat lon, MaidenheadGrid.gridToLatLon (cell6 a b c d e f) = Except.ok (lat, lon) ∧
      MaidenheadGrid.latLonToGrid lat lon 6 = Except.ok (cell6 a b c d e f)) ∧
    (∃ lat lon, MaidenheadGrid.gridToLatLon (cell4 a b c d) = Except.ok (lat, lon) ∧
      MaidenheadGrid.latLonToGrid lat lon 4 = Except.ok (cell4 a b c d)) := by
  have a' : (a : ℝ) ≤ 17 := by exact_mod_cast ha.2
  have b' : (b : ℝ) ≤ 17 := by exact_mod_cast hb.2
  have c' : (c : ℝ) ≤ 9 := by exact_mod_cast hc.2
  have d' : (d : ℝ) ≤ 9 := by exact_mod_cast hd.2
  have e' : (e : ℝ) ≤ 23 := by exact_mod_cast he.2
  have f' : (f : ℝ) ≤ 23 := by exact_mod_cast hf.2
  have a0 : (0 : ℝ) ≤ a := by exact_mod_cast ha.1
  have b0 : (0 : ℝ) ≤ b := by exact_mod_cast hb.1
  have c0 : (0 : ℝ) ≤ c := by exact_mod_cast hc.1
  have d0 : (0 : ℝ) ≤ d := by exact_mod_cast hd.1
  have e0 : (0 : ℝ) ≤ e := by exact_mod_cast he.1
  have f0 : (0 : ℝ) ≤ f := by exact_mod_cast hf.1
  constructor
  · refine ⟨_, _, gridToLatLon_cell6 a b c d e f ⟨ha.1, by omega⟩ ⟨hb.1, by omega⟩ hc hd he hf,
      ?_⟩
    exact (latLonToGrid_of_cell _ _ a b c d e f (1 / 24) (1 / 48) ha.1 hb.1 hc.1 hd.1 he.1 hf.1
      (by ring) ⟨by norm_num, by norm_num⟩ (by linarith) (by linarith)
      (by ring) ⟨by norm_num, by norm_num⟩ (by linarith) (by linarith)
      ⟨by linarith, by linarith⟩ ⟨by linarith, by linarith⟩).1
  · refine ⟨_, _, gridToLatLon_cell4 a b c d ⟨ha.1, by omega⟩ ⟨hb.1, by omega⟩ hc hd, ?_⟩
    exact (latLonToGrid_of_cell _ _ a b c d 12 12 0 0 ha.1 hb.1 hc.1 hd.1 (by norm_num)
      (by norm_num)
      (by push_cast; ring) ⟨by norm_num, by norm_num⟩ (by push_cast; linarith)
      (by push_cast; linarith)
      (by push_cast; ring) ⟨by norm_num, by norm_num⟩ (by push_cast; linarith)
      (by push_cast; linarith)
      ⟨by linarith, by linarith⟩ ⟨by linarith, by linarith⟩).2

theorem gridToLatLon_ZZ99 : MaidenheadGrid.gridToLatLon "ZZ99" = Except.ok (169.5, 339) := by
  simp [MaidenheadGrid.gridToLatLon, Cpp.charAt, String.length]
  norm_num [Char.toNat, Char.isAlpha, Char.isDigit, Char.toUpper, Char.isUpper, Char.isLower]

/-! ### The haversine formula -/

theorem haversine_eq (p1 l1 p2 l2 : ℝ) :
    Real.sin ((p2 - p1) / 2) * Real.sin ((p2 - p1) / 2) +
      Real.cos p1 * Real.cos p2 * Real.sin ((l2 - l1) / 2) * Real.sin ((l2 - l1) / 2) =
    (1 - (Real.cos p1 * Real.cos l1 * (Real.cos (-p2) * Real.cos l2) +
        Real.cos p1 * Real.sin l1 * (Real.cos (-p2) * Real.sin l2) +
        Real.sin p1 * -Real.sin (-p2))) / 2 := by
  have h1 := Real.sin_sq_eq_half_sub ((p2 - p1) / 2)
  have h2 := Real.sin_sq_eq_half_sub ((l2 - l1) / 2)
  rw [sq, mul_div_cancel₀ _ (two_ne_zero)] at h1 h2
  rw [mul_assoc (Real.cos p1 * Real.cos p2), h1, h2, Real.cos_sub, Real.cos_sub,
    Real.cos_neg, Real.sin_neg]
  ring

theorem haversine_mem (p1 l1 p2 l2 : ℝ) :
    0 ≤ Real.sin ((p2 - p1) / 2) * Real.sin ((p2 - p1) / 2) +
      Real.cos p1 * Real.cos p2 * Real.sin ((l2 - l1) / 2) * Real.sin ((l2 - l1) / 2) ∧
    Real.sin ((p2 - p1) / 2) * Real.sin ((p2 - p1) / 2) +
      Real.cos p1 * Real.cos p2 * Real.sin ((l2 - l1) / 2) * Real.sin ((l2 - l1) / 2) ≤ 1 := by
  rw [haversine_eq]
  have h := abs_le.1 (unit_dot_abs_le_one (-p2) l2 p1 l1)
  constructor <;> linarith

theorem atan2_sqrt_mem (a : ℝ) :
    0 ≤ Cmath.atan2 (√a) (√(1 - a)) ∧ Cmath.atan2 (√a) (√(1 - a)) ≤ Real.pi / 2 := by
  unfold Cmath.atan2
  constructor
  · rw [Complex.arg_nonneg_iff]
    exact Real.sqrt_nonneg a
  · rw [Complex.arg_le_pi_div_two_iff]
    exact Or.inl (Real.sqrt_nonneg _)

theorem calculateDistanceLatLon_self (lat lon : ℝ) :
    MaidenheadGrid.calculateDistanceLatLon lat lon lat lon = 0 := by
  have z1 : (1.0 : ℝ) = 1 := by norm_num
  have h : (⟨1, 0⟩ : ℂ).arg = 0 := by
    have h1 : (⟨1, 0⟩ : ℂ) = 1 := rfl
    rw [h1, Complex.arg_one]
  simp [MaidenheadGrid.calculateDistanceLatLon, z1, Cmath.atan2, h]

/-! ### The moon calendar -/

open MoonCalendarReader

theorem dateToDayOfYear_midnight (d : Tm) (h : d.tm_hour = 0 ∧ d.tm_min = 0 ∧ d.tm_sec = 0) :
    ∃ n : ℤ, MoonCalendarReader.dateToDayOfYear d = (n : ℝ) := by
  obtain ⟨h1, h2, h3⟩ := h
  simp only [MoonCalendarReader.dateToDayOfYear, h1, h2, h3, Int.cast_zero, zero_div, add_zero]
  exact ⟨_, rfl⟩

theorem dateToDayOfYear_gap (a b : Tm) (ha : a.tm_hour = 0 ∧ a.tm_min = 0 ∧ a.tm_sec = 0)
    (hb : b.tm_hour = 0 ∧ b.tm_min = 0 ∧ b.tm_sec = 0)
    (h : MoonCalendarReader.dateToDayOfYear a < MoonCalendarReader.dateToDayOfYear b) :
    MoonCalendarReader.dateToDayOfYear a + 1 ≤ MoonCalendarReader.dateToDayOfYear b := by
  obtain ⟨n, hn⟩ := dateToDayOfYear_midnight a ha
  obtain ⟨m, hm⟩ := dateToDayOfYear_midnight b hb
  rw [hn, hm] at h ⊢
  have : n < m := by exact_mod_cast h
  have : n + 1 ≤ m := by omega
  exact_mod_cast this

theorem getMoonDeclinationFrom_skip (r : MoonCalendarReader) (t : ℝ) (x : MoonCalendarEntry)
    (rest : List MoonCalendarEntry) (i : ℕ) (h : MoonCalendarReader.dateToDayOfYear x.date + 1 ≤ t) :
    MoonCalendarReader.getMoonDeclinationFrom r t (x :: rest) i = MoonCalendarReader.getMoonDeclinationFrom r t rest (i + 1) := by
  have h1 : ¬ |MoonCalendarReader.dateToDayOfYear x.date - t| < 0.0001 := by
    rw [abs_lt]
    intro hh
    norm_num at hh
    linarith [hh.1]
  have h2 : ¬ MoonCalendarReader.dateToDayOfYear x.date > t := by
    intro hh
    linarith
  simp only [MoonCalendarReader.getMoonDeclinationFrom, h1, h2, if_false]

theorem getMoonDeclinationFrom_exact (r : MoonCalendarReader) (t : ℝ) (e : MoonCalendarEntry)
    (he : MoonCalendarReader.dateToDayOfYear e.date = t) :
    ∀ (l : List MoonCalendarEntry) (i : ℕ),
      (∀ x ∈ l, x.date.tm_hour = 0 ∧ x.date.tm_min = 0 ∧ x.date.tm_sec = 0) →
      l.Pairwise (fun a b => MoonCalendarReader.dateToDayOfYear a.date < MoonCalendarReader.dateToDayOfYear b.date) →
      e ∈ l → MoonCalendarReader.getMoonDeclinationFrom r t l i = e.declination := by
  intro l
  induction l with
  | nil => intro i _ _ hm; exact absurd hm (List.not_mem_nil e)
  | cons x rest ih =>
    intro i hmid hord hm
    rcases List.mem_cons.mp hm with hx | hx
    · subst hx
      have h1 : |MoonCalendarReader.dateToDayOfYear e.date - t| < 0.0001 := by
        rw [he, sub_self, abs_zero]
        norm_num
      simp only [MoonCalendarReader.getMoonDeclinationFrom, h1, if_true]
    · have hlt := List.rel_of_pairwise_cons hord hx
      have hgap := dateToDayOfYear_gap x.date e.date (hmid x (List.mem_cons_self x rest))
        (hmid e hm) hlt
      rw [getMoonDeclinationFrom_skip r t x rest i (by linarith)]
      exact ih (i + 1) (fun y hy => hmid y (List.mem_cons_of_mem x hy))
        (List.Pairwise.of_cons hord) hx

theorem getMoonDeclinationFrom_before (r : MoonCalendarReader) (t : ℝ) (e : MoonCalendarEntry)
    (rest : List MoonCalendarEntry) (hr : r.m_entries = e :: rest)
    (h : t < MoonCalendarReader.dateToDayOfYear e.date) :
    MoonCalendarReader.getMoonDeclinationFrom r t r.m_entries 0 = e.declination := by
  rw [hr]
  simp only [MoonCalendarReader.getMoonDeclinationFrom, hr, List.headD_cons, gt_iff_lt, h, if_true]
  split <;> rfl

theorem getMoonDeclinationFrom_after (r : MoonCalendarReader) (t : ℝ) (e : MoonCalendarEntry)
    (hlast : r.m_entries.getLast? = some e) (h : MoonCalendarReader.dateToDayOfYear e.date < t) :
    ∀ (l : List MoonCalendarEntry) (i : ℕ),
      (∀ x ∈ l, x.date.tm_hour = 0 ∧ x.date.tm_min = 0 ∧ x.date.tm_sec = 0) →
      l.Pairwise (fun a b => MoonCalendarReader.dateToDayOfYear a.date < MoonCalendarReader.dateToDayOfYear b.date) →
      (l = [] ∨ l.getLast? = some e) → MoonCalendarReader.getMoonDeclinationFrom r t l i = e.declination := by
  intro l
  induction l with
  | nil =>
    intro i _ _ _
    simp only [MoonCalendarReader.getMoonDeclinationFrom, hlast, Option.map_some', Option.getD_some]
  | cons x rest ih =>
    intro i hmid hord hl
    rcases hl with hl | hl
    · exact absurd hl (List.cons_ne_nil x rest)
    · rcases rest with _ | ⟨y, rest'⟩
      · have hx : x = e := by simpa using hl
        subst hx
        have h2 : ¬ MoonCalendarReader.dateToDayOfYear x.date > t := by
          intro hh
          linarith
        simp only [MoonCalendarReader.getMoonDeclinationFrom, h2, if_false, hlast, Option.map_some',
          Option.getD_some]
        split <;> rfl
      · have hl' : (y :: rest').getLast? = some e := by
          rw [List.getLast?_cons_cons] at hl
          exact hl
        have hmem : e ∈ y :: rest' := List.mem_of_getLast?_eq_some hl'
        have hlt := List.rel_of_pairwise_cons hord hmem
        have hgap := dateToDayOfYear_gap x.date e.date (hmid x (List.mem_cons_self x _))
          (hmid e (List.mem_cons_of_mem x hmem)) hlt
        rw [getMoonDeclinationFrom_skip r t x _ i (by linarith)]
        exact ih (i + 1) (fun z hz => hmid z (List.mem_cons_of_mem x hz))
          (List.Pairwise.of_cons hord) (Or.inr hl')

theorem getMoonDeclination_none_iff (r : MoonCalendarReader) (date : Tm) :
    MoonCalendarReader.getMoonDeclination r date = none ↔ (r.m_loaded = false ∨ r.m_entries = []) := by
  unfold MoonCalendarReader.getMoonDeclination
  cases hl : r.m_loaded <;> cases he : r.m_entries <;> simp

theorem getMoonDeclination_of_loaded (r : MoonCalendarReader) (date : Tm)
    (hl : r.m_loaded = true) (hne : r.m_entries ≠ []) :
    MoonCalendarReader.getMoonDeclination r date =
      some (MoonCalendarReader.getMoonDeclinationFrom r (MoonCalendarReader.dateToDayOfYear date) r.m_entries 0) := by
  unfold MoonCalendarReader.getMoonDeclination
  cases he : r.m_entries with
  | nil => exact absurd he hne
  | cons x rest => simp [hl]

theorem dateToDayOfYear_jan1 (y : ℤ) : MoonCalendarReader.dateToDayOfYear (Tm.midnight y 1 1) = 1 := by
  simp [MoonCalendarReader.dateToDayOfYear, Tm.midnight]

theorem dateToDayOfYear_jan2 (y : ℤ) : MoonCalendarReader.dateToDayOfYear (Tm.midnight y 1 2) = 2 := by
  simp [MoonCalendarReader.dateToDayOfYear, Tm.midnight]

theorem dateToDayOfYear_dec31_2025 : MoonCalendarReader.dateToDayOfYear (Tm.midnight 2025 12 31) = 365 := by
  simp [MoonCalendarReader.dateToDayOfYear, Tm.midnight, MoonCalendarReader.daysInMonth, List.range, List.range.loop]
  decide

/-! ### The mapping function -/

theorem sinChi_abs_lt_one (e h R : ℝ) (hR : 0 < R) (hh : 0 < h) :
    |R * Real.cos e / (R + h)| ≤ R / (R + h) ∧ R / (R + h) < 1 := by
  have hp : 0 < R + h := by linarith
  constructor
  · rw [abs_div, abs_mul, abs_of_pos hR, abs_of_pos hp]
    apply div_le_div_of_nonneg_right _ hp.le
    have := Real.abs_cos_le_one e
    nlinarith
  · rw [div_lt_one hp]
    linarith

theorem clamp_sinChi (e h R : ℝ) (hR : 0 < R) (hh : 0 < h) :
    max (-1) (min 1 (R * Real.cos e / (R + h))) = R * Real.cos e / (R + h) := by
  obtain ⟨h1, h2⟩ := sinChi_abs_lt_one e h R hR hh
  have h3 := abs_le.1 (h1.trans h2.le)
  rw [min_eq_right h3.2, max_eq_right h3.1]

theorem shell_sqrt (h R : ℝ) (hR : 0 < R) (hh : 0 < h) :
    √(1 - (R / (R + h)) ^ 2) = √(h * (2 * R + h)) / (R + h) := by
  have hp : 0 < R + h := by linarith
  have e : 1 - (R / (R + h)) ^ 2 = h * (2 * R + h) / (R + h) ^ 2 := by
    field_simp
    ring
  rw [e, Real.sqrt_div (by positivity), Real.sqrt_sq hp.le]

theorem cos_chi_bounds (e h R : ℝ) (hR : 0 < R) (hh : 0 < h) :
    √(h * (2 * R + h)) / (R + h) ≤ Real.cos (Real.arcsin (R * Real.cos e / (R + h))) ∧
    Real.cos (Real.arcsin (R * Real.cos e / (R + h))) ≤ 1 ∧
    0 < √(h * (2 * R + h)) / (R + h) := by
  obtain ⟨h1, h2⟩ := sinChi_abs_lt_one e h R hR hh
  have hp : 0 < R + h := by linarith
  refine ⟨?_, Real.cos_le_one _, by positivity⟩
  rw [Real.cos_arcsin, ← shell_sqrt h R hR hh]
  apply Real.sqrt_le_sqrt
  have h4 : (R * Real.cos e / (R + h)) ^ 2 ≤ (R / (R + h)) ^ 2 := by
    rw [← sq_abs (R * Real.cos e / (R + h))]
    exact pow_le_pow_left₀ (abs_nonneg _) h1 2
  linarith

theorem calculateMappingFunction_of_nonneg (e h R : ℝ) (hR : 0 < R) (hh : 0 < h)
    (he : 0 ≤ e) :
    IonospherePhysics.calculateMappingFunction e h R =
      1 / Real.cos (Real.arcsin (R * Real.cos e / (R + h))) := by
  have z1 : (1.0 : ℝ) = 1 := by norm_num
  simp only [IonospherePhysics.calculateMappingFunction, if_neg (not_lt.2 he), z1,
    clamp_sinChi e h R hR hh]

theorem calculateMappingFunction_of_neg (e h R : ℝ) (he : e < 0) :
    IonospherePhysics.calculateMappingFunction e h R = 1 := by
  have z1 : (1.0 : ℝ) = 1 := by norm_num
  simp only [IonospherePhysics.calculateMappingFunction, if_pos he, z1]

theorem shell_bound_ge_one (h R : ℝ) (hR : 0 < R) (hh : 0 < h) :
    1 ≤ (R + h) / √(h * (2 * R + h)) := by
  have hp : 0 < R + h := by linarith
  have hs : 0 < √(h * (2 * R + h)) := Real.sqrt_pos.2 (by positivity)
  rw [le_div_iff₀ hs, one_mul]
  rw [show R + h = √((R + h) ^ 2) from (Real.sqrt_sq hp.le).symm]
  apply Real.sqrt_le_sqrt
  nlinarith

theorem shell_bound_default :
    |(6371 + 350 : ℝ) / √(350 * (2 * 6371 + 350)) - 3.14| ≤ 0.01 := by
  have e : (350 : ℝ) * (2 * 6371 + 350) = 4582200 := by norm_num
  have h1 : (2140 : ℝ) ≤ √4582200 := by
    rw [show (2140 : ℝ) = √(2140 ^ 2) from (Real.sqrt_sq (by norm_num)).symm]
    exact Real.sqrt_le_sqrt (by norm_num)
  have h2 : √4582200 ≤ (2141 : ℝ) := by
    rw [show (2141 : ℝ) = √(2141 ^ 2) from (Real.sqrt_sq (by norm_num)).symm]
    exact Real.sqrt_le_sqrt (by norm_num)
  have hs : (0 : ℝ) < √4582200 := by linarith
  rw [e, abs_le]
  constructor
  · rw [le_sub_iff_add_le, le_div_iff₀ hs]
    norm_num
    linarith
  · rw [sub_le_iff_le_add, div_le_iff₀ hs]
    norm_num
    linarith

theorem calculateMappingFunction_nonneg (e h R : ℝ) :
    0 ≤ IonospherePhysics.calculateMappingFunction e h R := by
  have z1 : (1.0 : ℝ) = 1 := by norm_num
  unfold IonospherePhysics.calculateMappingFunction
  split
  · norm_num
  · simp only [z1, Real.cos_arcsin]
    positivity

theorem calculateSlantFactor_eq_mapping (el : ℝ) :
    calculateSlantFactor el = IonospherePhysics.calculateMappingFunction el 350 6371 := by
  have z1 : (350.0 : ℝ) = 350 := by norm_num
  have z2 : (6371.0 : ℝ) = 6371 := by norm_num
  unfold calculateSlantFactor
  by_cases h : el < 0
  · simp [h, IonospherePhysics.calculateMappingFunction]
  · simp [h, SystemConstants.IONOSPHERE_HEIGHT_KM, IonospherePhysics.defaultEarthRadius, z1, z2]

theorem calculateSlantFactor_zero_ne_one : calculateSlantFactor 0 ≠ 1 := by
  rw [calculateSlantFactor_of_mem 0 le_rfl (by positivity), Real.cos_zero]
  intro h
  have h1 : √(1 - (6371 * 1 / 6721 : ℝ) ^ 2) = 1 := by
    have h0 := congrArg (fun x => 1 / x) h
    simp only [one_div, inv_inv, inv_one] at h0
    exact h0
  have h2 := Real.sqrt_eq_one.1 h1
  norm_num at h2

theorem calculateMagneticFieldProjection_abs_le (B I D e a : ℝ) (hB : 0 ≤ B) :
    |IonospherePhysics.calculateMagneticFieldProjection B I D e a| ≤ B := by
  rw [calculateMagneticFieldProjection_eq, abs_mul, abs_of_nonneg hB]
  have := unit_dot_abs_le_one I D e a
  nlinarith

/-! ### The slant factors of the record and the cached moon state -/

theorem calculate_slantFactor (fmt : ℝ → String) (now : ℤ) (s : FaradayRotation) :
    (calculate fmt now s).1.slantFactor_DX =
      (if (calculate fmt now s).1.calculationSuccess = true then
        calculateSlantFactor (calculateMoonElevation s).m_moonEphem.elevation_DX else 1) ∧
    (calculate fmt now s).1.slantFactor_Home =
      (if (calculate fmt now s).1.calculationSuccess = true then
        calculateSlantFactor (calculateMoonElevation s).m_moonEphem.elevation_Home else 1) := by
  have z1 : (1.0 : ℝ) = 1 := by norm_num
  by_cases hv : (validateParameters fmt s).1 = true
  · by_cases hb : belowHorizon s
    · rw [calculate_of_below fmt now s hv hb]
      simp [CalculationResults.new, z1]
    · rw [calculate_of_pass fmt now s hv hb]
      simp
  · have hv' : (validateParameters fmt s).1 = false := by simpa using hv
    rw [calculate_of_invalid fmt now s hv']
    simp [CalculationResults.new, z1]

theorem calculate_moonEphem_of_set (fmt : ℝ → String) (now : ℤ) (s : FaradayRotation)
    (h : s.m_moonEphem.elevation_DX ≠ 0 ∨ s.m_moonEphem.elevation_Home ≠ 0) :
    (calculate fmt now s).2.m_moonEphem = s.m_moonEphem := by
  by_cases hv : (validateParameters fmt s).1 = true
  · rw [calculate_snd_of_valid fmt now s hv]
    show (calculateMoonElevation s).m_moonEphem = s.m_moonEphem
    rw [calculateMoonElevation_of_set s h]
  · have hv' : (validateParameters fmt s).1 = false := by simpa using hv
    rw [calculate_snd_of_invalid fmt now s hv']

theorem SetterCall.run_moonEphem (s : FaradayRotation) (c : SetterCall) :
    (c.run s).m_moonEphem = s.m_moonEphem := by
  cases c with
  | setDXStation latitude longitude psi chi =>
    simp only [SetterCall.run, FaradayRotation.setDXStation]
    generalize MaidenheadGrid.latLonToGrid _ _ _ = g
    cases g <;> rfl
  | setHomeStation latitude longitude psi chi =>
    simp only [SetterCall.run, FaradayRotation.setHomeStation]
    generalize MaidenheadGrid.latLonToGrid _ _ _ = g
    cases g <;> rfl
  | setDXStationByGrid grid psi chi =>
    simp only [SetterCall.run, FaradayRotation.setDXStationByGrid]
    generalize MaidenheadGrid.gridToLatLon _ = g
    cases g <;> rfl
  | setHomeStationByGrid grid psi chi =>
    simp only [SetterCall.run, FaradayRotation.setHomeStationByGrid]
    generalize MaidenheadGrid.gridToLatLon _ = g
    cases g <;> rfl
  | setDXStationSite site => rfl
  | setHomeStationSite site => rfl
  | setIonosphereData iono => rfl
  | setConfiguration config => rfl

theorem foldl_run_moonEphem (calls : List SetterCall) :
    ∀ s : FaradayRotation, (calls.foldl SetterCall.run s).m_moonEphem = s.m_moonEphem := by
  induction calls with
  | nil => intro s; rfl
  | cons c rest ih =>
    intro s
    rw [List.foldl_cons, ih, SetterCall.run_moonEphem]

theorem lowMoonCalculator_set :
    lowMoonCalculator.m_moonEphem.elevation_DX ≠ 0 ∨
      lowMoonCalculator.m_moonEphem.elevation_Home ≠ 0 := by
  right
  norm_num [lowMoonCalculator]

theorem lowMoonCalculator_success (fmt : ℝ → String) (now : ℤ) :
    (calculate fmt now lowMoonCalculator).1.calculationSuccess = true := by
  rw [calculate_success_iff]
  constructor
  · exact new_valid fmt
  · unfold belowHorizon
    rw [calculateMoonElevation_of_set _ lowMoonCalculator_set]
    norm_num [lowMoonCalculator, MoonEphemeris.new]

theorem calculateMoonElevation_ionoData (s : FaradayRotation) (iono : IonosphereData) :
    (calculateMoonElevation { s with m_ionoData := iono }).m_moonEphem =
      (calculateMoonElevation s).m_moonEphem := by
  simp only [calculateMoonElevation]
  split_ifs <;> rfl

theorem calculate_success_hmF2 (fmt : ℝ → String) (now : ℤ) (s : FaradayRotation)
    (hD hH : ℝ) :
    (calculate fmt now { s with m_ionoData :=
      { s.m_ionoData with hmF2_DX := hD, hmF2_Home := hH } }).1.calculationSuccess =
      (calculate fmt now s).1.calculationSuccess := by
  rw [Bool.eq_iff_iff, calculate_success_iff, calculate_success_iff, validateParameters_iff,
    validateParameters_iff]
  unfold belowHorizon
  rw [calculateMoonElevation_ionoData]

/-! ### The setters by coordinates -/

theorem setDXStation_error_iff (s : FaradayRotation) (latitude longitude psi chi : ℝ) :
    (∃ e, setDXStation s latitude longitude psi chi = Except.error e) ↔
      (rad2deg latitude < -90 ∨ rad2deg latitude > 90 ∨
        rad2deg longitude < -180 ∨ rad2deg longitude > 180) := by
  rw [← latLonToGrid_error_iff (rad2deg latitude) (rad2deg longitude) 6]
  unfold setDXStation
  cases MaidenheadGrid.latLonToGrid (rad2deg latitude) (rad2deg longitude) 6 <;> simp

theorem setHomeStation_error_iff (s : FaradayRotation) (latitude longitude psi chi : ℝ) :
    (∃ e, setHomeStation s latitude longitude psi chi = Except.error e) ↔
      (rad2deg latitude < -90 ∨ rad2deg latitude > 90 ∨
        rad2deg longitude < -180 ∨ rad2deg longitude > 180) := by
  rw [← latLonToGrid_error_iff (rad2deg latitude) (rad2deg longitude) 6]
  unfold setHomeStation
  cases MaidenheadGrid.latLonToGrid (rad2deg latitude) (rad2deg longitude) 6 <;> simp

theorem rad2deg_two_gt : rad2deg 2 > 90 := by
  unfold rad2deg SystemConstants.PI
  have h1 := Real.pi_pos
  have h2 := Real.pi_lt_four
  rw [gt_iff_lt, lt_div_iff₀ h1]
  norm_num
  linarith

theorem latLonToGrid_rad2deg_two (lon : ℝ) (precision : ℤ) :
    MaidenheadGrid.latLonToGrid (rad2deg 2) lon precision =
      Except.error "Latitude must be between -90 and 90" := by
  have h := rad2deg_two_gt
  have z1 : (90.0 : ℝ) = 90 := by norm_num
  simp only [MaidenheadGrid.latLonToGrid, z1]
  rw [if_pos (Or.inr h)]

/-! ### Bilinear interpolation -/

theorem toInt_intCast (n : ℤ) : Cpp.toInt (n : ℝ) = n := by
  unfold Cpp.toInt
  split <;> simp

theorem clamp_floor (x : ℝ) (n : ℤ) (h0 : 0 ≤ x) (h1 : x ≤ (n : ℝ) - 1) :
    max 0 (min ⌊x⌋ (n - 1)) = ⌊x⌋ ∧
    max 0 (min (⌊x⌋ + 1) (n - 1)) = min (⌊x⌋ + 1) (n - 1) ∧
    0 ≤ min (⌊x⌋ + 1) (n - 1) := by
  have f0 : 0 ≤ ⌊x⌋ := Int.floor_nonneg.2 h0
  have f1 : ⌊x⌋ ≤ n - 1 := by
    have : (⌊x⌋ : ℝ) ≤ ((n - 1 : ℤ) : ℝ) := by
      push_cast
      exact (Int.floor_le x).trans h1
    exact_mod_cast this
  have f2 : 0 ≤ min (⌊x⌋ + 1) (n - 1) := le_min (by omega) (by omega)
  exact ⟨by rw [min_eq_left f1, max_eq_right f0], max_eq_right f2, f2⟩

theorem convex_between (x y t : ℝ) (h0 : 0 ≤ t) (h1 : t ≤ 1) :
    min x y ≤ x * (1 - t) + y * t ∧ x * (1 - t) + y * t ≤ max x y := by
  have hx1 := min_le_left x y
  have hx2 := min_le_right x y
  have hy1 := le_max_left x y
  have hy2 := le_max_right x y
  constructor <;> nlinarith

theorem bilinear_between (v11 v12 v21 v22 a b : ℝ) (a0 : 0 ≤ a) (a1 : a ≤ 1) (b0 : 0 ≤ b)
    (b1 : b ≤ 1) :
    min (min v11 v12) (min v21 v22) ≤
        (v11 * (1 - b) + v12 * b) * (1 - a) + (v21 * (1 - b) + v22 * b) * a ∧
      (v11 * (1 - b) + v12 * b) * (1 - a) + (v21 * (1 - b) + v22 * b) * a ≤
        max (max v11 v12) (max v21 v22) := by
  obtain ⟨c1, d1⟩ := convex_between v11 v12 b b0 b1
  obtain ⟨c2, d2⟩ := convex_between v21 v22 b b0 b1
  obtain ⟨c3, d3⟩ := convex_between (v11 * (1 - b) + v12 * b) (v21 * (1 - b) + v22 * b) a a0 a1
  exact ⟨(min_le_min c1 c2).trans c3, d3.trans (max_le_max d1 d2)⟩

theorem bilinearInterpolate_eq (r : IonexReader) (data : List (List ℝ)) (lat lon : ℝ)
    (hlat : 0 ≤ r.latNorm lat ∧ r.latNorm lat ≤ (r.m_header.numLat : ℝ) - 1)
    (hlon : 0 ≤ r.lonNorm lon ∧ r.lonNorm lon ≤ (r.m_header.numLon : ℝ) - 1)
    (hv : Cpp.index2 data ⌊r.latNorm lat⌋ ⌊r.lonNorm lon⌋ ≠ 9999 ∧
      Cpp.index2 data ⌊r.latNorm lat⌋ (min (⌊r.lonNorm lon⌋ + 1) (r.m_header.numLon - 1))
        ≠ 9999 ∧
      Cpp.index2 data (min (⌊r.latNorm lat⌋ + 1) (r.m_header.numLat - 1)) ⌊r.lonNorm lon⌋
        ≠ 9999 ∧
      Cpp.index2 data (min (⌊r.latNorm lat⌋ + 1) (r.m_header.numLat - 1))
        (min (⌊r.lonNorm lon⌋ + 1) (r.m_header.numLon - 1)) ≠ 9999) :
    r.bilinearInterpolate data lat lon =
      (Cpp.index2 data ⌊r.latNorm lat⌋ ⌊r.lonNorm lon⌋ * (1 - Int.fract (r.lonNorm lon)) +
        Cpp.index2 data ⌊r.latNorm lat⌋
          (min (⌊r.lonNorm lon⌋ + 1) (r.m_header.numLon - 1)) * Int.fract (r.lonNorm lon)) *
        (1 - Int.fract (r.latNorm lat)) +
      (Cpp.index2 data (min (⌊r.latNorm lat⌋ + 1) (r.m_header.numLat - 1)) ⌊r.lonNorm lon⌋ *
          (1 - Int.fract (r.lonNorm lon)) +
        Cpp.index2 data (min (⌊r.latNorm lat⌋ + 1) (r.m_header.numLat - 1))
          (min (⌊r.lonNorm lon⌋ + 1) (r.m_header.numLon - 1)) * Int.fract (r.lonNorm lon)) *
        Int.fract (r.latNorm lat) := by
  obtain ⟨a1, a2, _⟩ := clamp_floor (r.latNorm lat) r.m_header.numLat hlat.1 hlat.2
  obtain ⟨b1, b2, _⟩ := clamp_floor (r.lonNorm lon) r.m_header.numLon hlon.1 hlon.2
  have z1 : (1.0 : ℝ) = 1 := by norm_num
  have z2 : (9999.0 : ℝ) = 9999 := by norm_num
  unfold IonexReader.latNorm at a1 a2
  unfold IonexReader.lonNorm at b1 b2
  simp only [IonexReader.bilinearInterpolate, toInt_intCast, a1, a2, b1, b2, z1, z2]
  unfold IonexReader.latNorm IonexReader.lonNorm at hv ⊢
  rw [if_neg (by tauto)]
  simp only [Int.fract]

theorem latNorm_indexToLat (r : IonexReader) (i : ℤ) (h : r.m_header.dlat ≠ 0) :
    r.latNorm (r.indexToLat i) = i := by
  unfold IonexReader.latNorm IonexReader.indexToLat
  field_simp

theorem lonNorm_indexToLon (r : IonexReader) (j : ℤ) (h : r.m_header.dlon ≠ 0) :
    r.lonNorm (r.indexToLon j) = j := by
  unfold IonexReader.lonNorm IonexReader.indexToLon
  field_simp

theorem unitGrid_norm :
    unitGridReader.latNorm 0 = 0 ∧ unitGridReader.lonNorm 0 = 0 := by
  simp [IonexReader.latNorm, IonexReader.lonNorm, unitGridReader]

/-! ### The index of the maps -/

theorem lowerBound_spec (target : ℤ) :
    ∀ (l : List (ℤ × ℤ)) (prev : Option (ℤ × ℤ)),
      ∃ pre : List (ℤ × ℤ),
        l = pre ++ (IonexReader.lowerBound target prev l).2 ∧
        (∀ p ∈ pre, p.1 < target) ∧
        (∀ x ∈ (IonexReader.lowerBound target prev l).2.head?, target ≤ x.1) ∧
        (IonexReader.lowerBound target prev l).1 = (pre.getLast?).or prev := by
  intro l
  induction l with
  | nil =>
    intro prev
    exact ⟨[], rfl, by simp, by simp [IonexReader.lowerBound], by
      simp [IonexReader.lowerBound]⟩
  | cons x xs ih =>
    intro prev
    by_cases hx : x.1 < target
    · obtain ⟨pre, h1, h2, h3, h4⟩ := ih (some x)
      have e : IonexReader.lowerBound target prev (x :: xs) =
          IonexReader.lowerBound target (some x) xs := by
        simp only [IonexReader.lowerBound, if_pos hx]
      rw [e]
      refine ⟨x :: pre, ?_, ?_, h3, ?_⟩
      · rw [List.cons_append, ← h1]
      · intro p hp
        rcases List.mem_cons.1 hp with rfl | hp
        · exact hx
        · exact h2 p hp
      · rw [h4]
        cases pre with
        | nil => rfl
        | cons y ys =>
          rw [List.getLast?_cons_cons, List.getLast?_eq_getLast _ (List.cons_ne_nil y ys)]
          rfl
    · have e : IonexReader.lowerBound target prev (x :: xs) = (prev, x :: xs) := by
        simp only [IonexReader.lowerBound, if_neg hx]
      rw [e]
      exact ⟨[], rfl, by simp, by simpa using hx, by simp⟩

theorem findClosestMaps_cases (r : IonexReader) (mktime : Tm → ℤ) (time : Tm)
    (hs : r.m_mapPositions.Pairwise (fun a b => a.1 < b.1)) :
    (∃ last, r.m_mapPositions.getLast? = some last ∧ (∀ p ∈ r.m_mapPositions, p.1 < mktime time) ∧
        r.findClosestMaps mktime time = some (last.1, last.1)) ∨
    (r.m_mapPositions = [] ∧ r.findClosestMaps mktime time = none) ∨
    (∃ x ∈ r.m_mapPositions, x.1 = mktime time ∧
        r.findClosestMaps mktime time = some (x.1, x.1)) ∨
    (∃ x, r.m_mapPositions.head? = some x ∧ mktime time < x.1 ∧
        r.findClosestMaps mktime time = some (x.1, x.1)) ∨
    (∃ b ∈ r.m_mapPositions, ∃ x ∈ r.m_mapPositions, b.1 < mktime time ∧ mktime time < x.1 ∧
        (∀ p ∈ r.m_mapPositions, p.1 ≤ b.1 ∨ x.1 ≤ p.1) ∧
        r.findClosestMaps mktime time = some (b.1, x.1)) := by
  obtain ⟨pre, h1, h2, h3, h4⟩ := lowerBound_spec (mktime time) r.m_mapPositions none
  simp only [IonexReader.findClosestMaps, IonexReader.tmToTime]
  generalize IonexReader.lowerBound (mktime time) none r.m_mapPositions = res at h1 h2 h3 h4 ⊢
  obtain ⟨prev, it⟩ := res
  simp only at h1 h3 h4
  cases it with
  | nil =>
    rw [List.append_nil] at h1
    cases hl : r.m_mapPositions.getLast? with
    | none =>
      right; left
      exact ⟨List.getLast?_eq_none_iff.1 hl, by simp [hl]⟩
    | some last =>
      left
      refine ⟨last, rfl, ?_, by simp [hl]⟩
      rw [h1]
      exact h2
  | cons x xs =>
    have hx : mktime time ≤ x.1 := h3 x (by simp)
    have hxm : x ∈ r.m_mapPositions := by
      rw [h1]
      simp
    by_cases he : x.1 = mktime time
    · right; right; left
      exact ⟨x, hxm, he, by simp [he]⟩
    · have hlt : mktime time < x.1 := lt_of_le_of_ne hx (Ne.symm he)
      cases hp : pre.getLast? with
      | none =>
        have hpre : pre = [] := List.getLast?_eq_none_iff.1 hp
        rw [hp] at h4
        simp only [Option.or] at h4
        right; right; right; left
        refine ⟨x, ?_, hlt, ?_⟩
        · rw [h1, hpre]
          rfl
        · simp [he, h4]
      | some b =>
        rw [hp] at h4
        simp only [Option.or] at h4
        obtain ⟨ys, hys⟩ := List.getLast?_eq_some_iff.1 hp
        have hbm : b ∈ pre := by
          rw [hys]
          simp
        right; right; right; right
        refine ⟨b, ?_, x, hxm, h2 b hbm, hlt, ?_, ?_⟩
        · rw [h1]
          exact List.mem_append_left _ hbm
        · intro p hpm
          rw [h1, hys] at hs hpm
          rw [List.pairwise_append] at hs
          obtain ⟨s1, s2, s3⟩ := hs
          rcases List.mem_append.1 hpm with hp1 | hp2
          · left
            rw [List.pairwise_append] at s1
            rcases List.mem_append.1 hp1 with hq | hq
            · exact (s1.2.2 p hq b (by simp)).le
            · have : p = b := by simpa using hq
              rw [this]
          · right
            rcases List.mem_cons.1 hp2 with rfl | hq
            · exact le_rfl
            · exact (List.rel_of_pairwise_cons s2 hq).le
        · simp [he, h4]

theorem head_le_of_sorted (l : List (ℤ × ℤ)) (hs : l.Pairwise (fun a b => a.1 < b.1))
    (x : ℤ × ℤ) (hx : l.head? = some x) : x ∈ l ∧ ∀ p ∈ l, x.1 ≤ p.1 := by
  cases l with
  | nil => simp at hx
  | cons y ys =>
    have e : y = x := by simpa using hx
    subst e
    refine ⟨by simp, fun p hp => ?_⟩
    rcases List.mem_cons.1 hp with rfl | hq
    · exact le_rfl
    · exact (List.rel_of_pairwise_cons hs hq).le

theorem le_last_of_sorted (l : List (ℤ × ℤ)) (hs : l.Pairwise (fun a b => a.1 < b.1))
    (x : ℤ × ℤ) (hx : l.getLast? = some x) : x ∈ l ∧ ∀ p ∈ l, p.1 ≤ x.1 := by
  obtain ⟨ys, hys⟩ := List.getLast?_eq_some_iff.1 hx
  rw [hys] at hs ⊢
  rw [List.pairwise_append] at hs
  refine ⟨by simp, fun p hp => ?_⟩
  rcases List.mem_append.1 hp with hq | hq
  · exact (hs.2.2 p hq x (by simp)).le
  · have : p = x := by simpa using hq
    rw [this]

theorem time_ratio_between (t1 t2 target : ℤ) (v1 v2 : ℝ) (h1 : t1 < target)
    (h2 : target < t2) :
    min v1 v2 ≤ v1 + ((target - t1 : ℤ) : ℝ) / ((t2 - t1 : ℤ) : ℝ) * (v2 - v1) ∧
    v1 + ((target - t1 : ℤ) : ℝ) / ((t2 - t1 : ℤ) : ℝ) * (v2 - v1) ≤ max v1 v2 := by
  have d : (0 : ℝ) < ((t2 - t1 : ℤ) : ℝ) := by exact_mod_cast (by omega : 0 < t2 - t1)
  have n0 : (0 : ℝ) ≤ ((target - t1 : ℤ) : ℝ) := by exact_mod_cast (by omega : 0 ≤ target - t1)
  have n1 : ((target - t1 : ℤ) : ℝ) ≤ ((t2 - t1 : ℤ) : ℝ) := by
    exact_mod_cast (by omega : target - t1 ≤ t2 - t1)
  have r0 : 0 ≤ ((target - t1 : ℤ) : ℝ) / ((t2 - t1 : ℤ) : ℝ) := div_nonneg n0 d.le
  have r1 : ((target - t1 : ℤ) : ℝ) / ((t2 - t1 : ℤ) : ℝ) ≤ 1 := (div_le_one d).2 n1
  have e : v1 + ((target - t1 : ℤ) : ℝ) / ((t2 - t1 : ℤ) : ℝ) * (v2 - v1) =
      v1 * (1 - ((target - t1 : ℤ) : ℝ) / ((t2 - t1 : ℤ) : ℝ)) +
        v2 * (((target - t1 : ℤ) : ℝ) / ((t2 - t1 : ℤ) : ℝ)) := by ring
  rw [e]
  have hx1 := min_le_left v1 v2
  have hx2 := min_le_right v1 v2
  have hy1 := le_max_left v1 v2
  have hy2 := le_max_right v1 v2
  constructor <;> nlinarith

theorem getTecValueInterpolated_of_maps (r : IonexReader) (mktime : Tm → ℤ)
    (loadTecMap : ℤ → Option TecMap) (time : Tm) (lat lon : ℝ) (t1 t2 : ℤ) (map1 map2 : TecMap)
    (hf : r.findClosestMaps mktime time = some (t1, t2)) (ho : r.m_isOpen = true)
    (h1 : loadTecMap (r.positionAt t1) = some map1)
    (h2 : loadTecMap (r.positionAt t2) = some map2)
    (v1 : r.bilinearInterpolate map1.data lat lon ≠ 9999)
    (v2 : r.bilinearInterpolate map2.data lat lon ≠ 9999) :
    (t1 = t2 → r.getTecValueInterpolated mktime true loadTecMap time lat lon =
      some (r.bilinearInterpolate map1.data lat lon)) ∧
    (t1 ≠ t2 → r.getTecValueInterpolated mktime true loadTecMap time lat lon =
      some (r.bilinearInterpolate map1.data lat lon +
        ((IonexReader.tmToTime mktime time - t1 : ℤ) : ℝ) / ((t2 - t1 : ℤ) : ℝ) *
          (r.bilinearInterpolate map2.data lat lon -
            r.bilinearInterpolate map1.data lat lon))) := by
  have z : (9999.0 : ℝ) = 9999 := by norm_num
  constructor
  · intro h
    subst h
    simp [IonexReader.getTecValueInterpolated, hf, ho, h1, z, v1]
  · intro h
    simp [IonexReader.getTecValueInterpolated, hf, ho, h1, h2, z, v1, v2, h]

/-! ### The index of a Gauss coefficient -/

theorem getIndex_eq (n m : ℤ) (hn : 0 ≤ n) : WMMModel.getIndex n m = n * (n + 1) / 2 + m := by
  unfold WMMModel.getIndex
  rw [Int.tdiv_eq_ediv (by positivity) (by norm_num)]

theorem getIndex_mem (n m : ℤ) (h0 : 0 ≤ m) (h1 : m ≤ n) (h2 : n ≤ 12) :
    0 ≤ WMMModel.getIndex n m ∧ WMMModel.getIndex n m < 91 := by
  have hn : 0 ≤ n := h0.trans h1
  rw [getIndex_eq n m hn]
  interval_cases n <;> omega

/-! ### Rounding to five minutes -/

theorem tdiv_tmod_ten (m : ℤ) (h : 0 ≤ m) : m.tdiv 10 = m / 10 ∧ m.tmod 10 = m % 10 :=
  ⟨Int.tdiv_eq_ediv h (by norm_num), Int.tmod_eq_emod h (by norm_num)⟩

theorem roundDown_spec (time : Tm) (h0 : 0 ≤ time.tm_min) :
    (NOAAGlotecReader.roundToNearest5Minutes time true).tm_sec = 0 ∧
    (NOAAGlotecReader.roundToNearest5Minutes time true).tm_min % 5 = 0 ∧
    (NOAAGlotecReader.roundToNearest5Minutes time true).tm_min ≤ time.tm_min ∧
    time.tm_min < (NOAAGlotecReader.roundToNearest5Minutes time true).tm_min + 5 ∧
    (NOAAGlotecReader.roundToNearest5Minutes time true).tm_hour = time.tm_hour ∧
    (NOAAGlotecReader.roundToNearest5Minutes time true).tm_mday = time.tm_mday ∧
    (NOAAGlotecReader.roundToNearest5Minutes time true).tm_mon = time.tm_mon ∧
    (NOAAGlotecReader.roundToNearest5Minutes time true).tm_year = time.tm_year := by
  obtain ⟨d, m⟩ := tdiv_tmod_ten time.tm_min h0
  simp only [NOAAGlotecReader.roundToNearest5Minutes, d, m, if_true]
  by_cases h5 : time.tm_min % 10 ≥ 5
  · simp only [h5, if_true]
    refine ⟨trivial, ?_, ?_, ?_, trivial, trivial, trivial, trivial⟩ <;> omega
  · have hn : ¬ (time.tm_min / 10 * 10 < 0) := by omega
    simp only [h5, if_false, hn]
    refine ⟨trivial, ?_, ?_, ?_, trivial, trivial, trivial, trivial⟩ <;> omega

theorem roundUp_spec (time : Tm) (h0 : 0 ≤ time.tm_min) (h1 : time.tm_min ≤ 59)
    (h2 : 0 ≤ time.tm_hour) (h3 : time.tm_hour ≤ 23) :
    (NOAAGlotecReader.roundToNearest5Minutes time false).tm_sec = 0 ∧
    (NOAAGlotecReader.roundToNearest5Minutes time false).tm_min % 10 = 5 ∧
    0 ≤ (NOAAGlotecReader.roundToNearest5Minutes time false).tm_min ∧
    (NOAAGlotecReader.roundToNearest5Minutes time false).tm_min ≤ 59 ∧
    0 ≤ (NOAAGlotecReader.roundToNearest5Minutes time false).tm_hour ∧
    (NOAAGlotecReader.roundToNearest5Minutes time false).tm_hour ≤ 23 ∧
    time.minuteOfMonth ≤ (NOAAGlotecReader.roundToNearest5Minutes time false).minuteOfMonth ∧
    (NOAAGlotecReader.roundToNearest5Minutes time false).minuteOfMonth ≤
      time.minuteOfMonth + 9 := by
  obtain ⟨d, m⟩ := tdiv_tmod_ten time.tm_min h0
  simp only [NOAAGlotecReader.roundToNearest5Minutes, d, m, Bool.false_eq_true, if_false,
    Tm.minuteOfMonth]
  by_cases h5 : time.tm_min % 10 ≤ 5
  · simp only [h5, if_true]
    refine ⟨trivial, ?_, ?_, ?_, h2, h3, ?_, ?_⟩ <;> omega
  · simp only [h5, if_false]
    by_cases h6 : (time.tm_min / 10 + 1) * 10 + 5 ≥ 60
    · simp only [h6, if_true]
      by_cases h7 : time.tm_hour + 1 ≥ 24
      · simp only [h7, if_true]
        refine ⟨trivial, ?_, ?_, ?_, ?_, ?_, ?_, ?_⟩ <;> omega
      · simp only [h7, if_false]
        refine ⟨trivial, ?_, ?_, ?_, ?_, ?_, ?_, ?_⟩ <;> omega
    · simp only [h6, if_false]
      refine ⟨trivial, ?_, ?_, ?_, h2, h3, ?_, ?_⟩ <;> omega

/-! ### The library calls at the edge of their domains -/

theorem calculateFaradayRotationPreciseChecked_of_ne (vTEC hmF2 B I D el az f : ℝ)
    (hf : f ≠ 0) :
    IonospherePhysics.calculateFaradayRotationPreciseChecked vTEC hmF2 B I D el az f =
      some (IonospherePhysics.calculateFaradayRotationPrecise vTEC hmF2 B I D el az f) := by
  have h : f * f ≠ 0 := mul_ne_zero hf hf
  simp only [IonospherePhysics.calculateFaradayRotationPreciseChecked, Cmath.divChecked,
    if_neg h, IonospherePhysics.calculateFaradayRotationPrecise]

theorem calculateFaradayRotationPreciseChecked_zero (vTEC hmF2 B I D el az : ℝ) :
    IonospherePhysics.calculateFaradayRotationPreciseChecked vTEC hmF2 B I D el az 0 = none := by
  simp [IonospherePhysics.calculateFaradayRotationPreciseChecked, Cmath.divChecked]

theorem calculateFaradayRotationPrecise_zero_vTEC (hmF2 B I D el az f : ℝ) :
    IonospherePhysics.calculateFaradayRotationPrecise 0 hmF2 B I D el az f = 0 := by
  simp [IonospherePhysics.calculateFaradayRotationPrecise, IonospherePhysics.calculateSlantTEC]

/-- In exact arithmetic every successful `calculate` reports `0 ≤ PLF ≤ 1`, a loss
`10 * log10 PLF` that is at most `0`, and an efficiency between `0` and `100`. The elevation
that enters is the `Real.arcsin` of `calculateMoonElevation`, so that this says nothing of a
call whose `std::asin` argument rounding takes outside `[-1, 1]`. -/
theorem calculate_PLF_bounds (fmt : ℝ → String) (now : ℤ) (s : FaradayRotation)
    (h : (calculate fmt now s).1.calculationSuccess = true) :
    0 ≤ (calculate fmt now s).1.PLF ∧ (calculate fmt now s).1.PLF ≤ 1 ∧
    (calculate fmt now s).1.polarizationLoss_dB =
      10 * Cmath.log10 (calculate fmt now s).1.PLF ∧
    (calculate fmt now s).1.polarizationLoss_dB ≤ 0 ∧
    0 ≤ (calculate fmt now s).1.polarizationEfficiency ∧
    (calculate fmt now s).1.polarizationEfficiency ≤ 100 := by
  obtain ⟨hv, hb⟩ := (calculate_success_iff fmt now s).1 h
  rw [calculate_of_pass fmt now s hv hb]
  have h0 := linkPLF_nonneg s
  have h1 := linkPLF_le_one s
  refine ⟨h0, h1, rfl, ten_mul_log10_nonpos _ h0 h1, ?_, ?_⟩
  · show 0 ≤ linkPLF s * 100
    positivity
  · show linkPLF s * 100 ≤ 100
    linarith

/-- In exact arithmetic the great-circle distance of a valid locator from itself is `0`, and
the distance of two points is symmetric and lies in `[0, π * 6371]` km. The haversine term is
then in `[0, 1]`, so that this says nothing of a call whose term rounding takes above `1`. -/
theorem calculateDistance_metric (lat1 lon1 lat2 lon2 : ℝ) :
    (∀ g lat lon, MaidenheadGrid.gridToLatLon g = Except.ok (lat, lon) →
      MaidenheadGrid.calculateDistance g g = Except.ok 0) ∧
    MaidenheadGrid.calculateDistanceLatLon lat1 lon1 lat2 lon2 =
      MaidenheadGrid.calculateDistanceLatLon lat2 lon2 lat1 lon1 ∧
    0 ≤ MaidenheadGrid.calculateDistanceLatLon lat1 lon1 lat2 lon2 ∧
    MaidenheadGrid.calculateDistanceLatLon lat1 lon1 lat2 lon2 ≤ Real.pi * 6371 := by
  refine ⟨?_, ?_, ?_, ?_⟩
  · intro g lat lon hg
    simp only [MaidenheadGrid.calculateDistance, hg, calculateDistanceLatLon_self]
  · simp only [MaidenheadGrid.calculateDistanceLatLon]
    have e1 : ∀ x y : ℝ, Real.sin ((x - y) / 2.0) * Real.sin ((x - y) / 2.0) =
        Real.sin ((y - x) / 2.0) * Real.sin ((y - x) / 2.0) := by
      intro x y
      have : (x - y) / 2.0 = -((y - x) / 2.0) := by ring
      rw [this, Real.sin_neg]
      ring
    rw [e1 (lat2 * Real.pi / 180.0), mul_assoc, mul_assoc, e1 (lon2 * Real.pi / 180.0)]
    ring_nf
  · have z1 : (1.0 : ℝ) = 1 := by norm_num
    have z2 : (2.0 : ℝ) = 2 := by norm_num
    simp only [MaidenheadGrid.calculateDistanceLatLon, z1, z2]
    have h := (atan2_sqrt_mem (Real.sin ((lat2 * Real.pi / 180.0 - lat1 * Real.pi / 180.0) / 2) *
      Real.sin ((lat2 * Real.pi / 180.0 - lat1 * Real.pi / 180.0) / 2) +
      Real.cos (lat1 * Real.pi / 180.0) * Real.cos (lat2 * Real.pi / 180.0) *
        Real.sin ((lon2 * Real.pi / 180.0 - lon1 * Real.pi / 180.0) / 2) *
        Real.sin ((lon2 * Real.pi / 180.0 - lon1 * Real.pi / 180.0) / 2))).1
    positivity
  · have z1 : (1.0 : ℝ) = 1 := by norm_num
    have z2 : (2.0 : ℝ) = 2 := by norm_num
    simp only [MaidenheadGrid.calculateDistanceLatLon, z1, z2]
    have h := (atan2_sqrt_mem (Real.sin ((lat2 * Real.pi / 180.0 - lat1 * Real.pi / 180.0) / 2) *
      Real.sin ((lat2 * Real.pi / 180.0 - lat1 * Real.pi / 180.0) / 2) +
      Real.cos (lat1 * Real.pi / 180.0) * Real.cos (lat2 * Real.pi / 180.0) *
        Real.sin ((lon2 * Real.pi / 180.0 - lon1 * Real.pi / 180.0) / 2) *
        Real.sin ((lon2 * Real.pi / 180.0 - lon1 * Real.pi / 180.0) / 2))).2
    norm_num
    linarith

/-! ## Claims -/

/-- C1. For a state that passes validation and the horizon guard, `calculate`
reports `PLF = |<J_RX, R(Phi_down) * M * R(Phi_up) * J_TX>|^2`, the product being
the matrix product, `Phi_up` and `Phi_down` the sum of the reported parallactic
angle and the reported Faraday rotation of the DX and of the Home leg, `M` the
matrix `diag(1, -1)` when the reflection is included and the identity otherwise,
and the inner product conjugating its first argument. The loss is
`10 * log10 PLF` and the efficiency `100 * PLF`. -/
theorem calculate_PLF_is_jones_projection (fmt : ℝ → String) (now : ℤ) (s : FaradayRotation)
    (hv : (validateParameters fmt s).1 = true)
    (hb : ¬ ((calculateMoonElevation s).m_moonEphem.elevation_DX < 0 ∨
      (calculateMoonElevation s).m_moonEphem.elevation_Home < 0)) :
    (calculate fmt now s).1.PLF =
      Complex.normSq (vectorDotProduct
        (createJonesVector s.m_homeSite.psi s.m_homeSite.chi)
        (matrixVectorMultiply
          (matrixMultiply
            (matrixMultiply
              (createRotationMatrix
                (deg2rad (calculate fmt now s).1.parallacticAngle_Home_deg +
                  deg2rad (calculate fmt now s).1.faradayRotation_Home_deg))
              (if s.m_config.includeMoonReflection then ![![1, 0], ![0, -1]]
                else ![![1, 0], ![0, 1]]))
            (createRotationMatrix
              (deg2rad (calculate fmt now s).1.parallacticAngle_DX_deg +
                deg2rad (calculate fmt now s).1.faradayRotation_DX_deg)))
          (createJonesVector s.m_dxSite.psi s.m_dxSite.chi))) ∧
    (calculate fmt now s).1.polarizationLoss_dB =
      10 * Cmath.log10 (calculate fmt now s).1.PLF ∧
    (calculate fmt now s).1.polarizationEfficiency = 100 * (calculate fmt now s).1.PLF := by
  rw [calculate_of_pass fmt now s hv hb]
  simp only [deg2rad_rad2deg]
  exact ⟨linkPLF_eq_matrix_form s, trivial, mul_comm _ _⟩

/-- C1 at the default calculator, which passes both guards. -/
theorem calculate_PLF_is_jones_projection_witness :
    (validateParameters (fun _ => "") FaradayRotation.new).1 = true ∧
    ¬ ((calculateMoonElevation FaradayRotation.new).m_moonEphem.elevation_DX < 0 ∨
      (calculateMoonElevation FaradayRotation.new).m_moonEphem.elevation_Home < 0) ∧
    (calculate (fun _ => "") 0 FaradayRotation.new).1.polarizationLoss_dB =
      10 * Cmath.log10 (calculate (fun _ => "") 0 FaradayRotation.new).1.PLF ∧
    (calculate (fun _ => "") 0 FaradayRotation.new).1.polarizationEfficiency =
      100 * (calculate (fun _ => "") 0 FaradayRotation.new).1.PLF :=
  ⟨new_valid _, new_above,
    (calculate_PLF_is_jones_projection (fun _ => "") 0 FaradayRotation.new
      (new_valid _) new_above).2⟩

/-- C3, evaluated at `matchedLinearFeaturesOff`. The two antennas share
`psi = 0`, both are linear (`chi = 0`), the three features are off, validation
and the horizon guard pass and `calculate` succeeds; yet the reported `PLF` is
`0`, not `1`, and the reported loss is minus infinity, not `0`: the parallactic
angle of the DX leg (a quarter turn here) still rotates the wave although
`includeSpatialRotation` is off. -/
theorem matched_linear_features_off_PLF :
    matchedLinearFeaturesOff.m_dxSite.psi = matchedLinearFeaturesOff.m_homeSite.psi ∧
    matchedLinearFeaturesOff.m_dxSite.chi = 0 ∧
    matchedLinearFeaturesOff.m_homeSite.chi = 0 ∧
    matchedLinearFeaturesOff.m_config.includeFaradayRotation = false ∧
    matchedLinearFeaturesOff.m_config.includeSpatialRotation = false ∧
    matchedLinearFeaturesOff.m_config.includeMoonReflection = false ∧
    (calculate (fun _ => "") 0 matchedLinearFeaturesOff).1.calculationSuccess = true ∧
    (calculate (fun _ => "") 0 matchedLinearFeaturesOff).1.spatialRotation_deg = 0 ∧
    (calculate (fun _ => "") 0 matchedLinearFeaturesOff).1.parallacticAngle_DX_deg = 90 ∧
    (calculate (fun _ => "") 0 matchedLinearFeaturesOff).1.PLF = 0 ∧
    (calculate (fun _ => "") 0 matchedLinearFeaturesOff).1.PLF ≠ 1 ∧
    (calculate (fun _ => "") 0 matchedLinearFeaturesOff).1.polarizationLoss_dB = ⊥ := by
  have hv := matchedLinearFeaturesOff_valid (fun _ => "")
  have hb := matchedLinearFeaturesOff_above
  have hs := (calculate_success_iff (fun _ => "") 0 _).2 ⟨hv, hb⟩
  have c1 : matchedLinearFeaturesOff.m_dxSite.chi = 0 := by
    norm_num [matchedLinearFeaturesOff, FaradayRotation.new, SiteParameters.new]
  have c2 : matchedLinearFeaturesOff.m_homeSite.chi = 0 := by
    norm_num [matchedLinearFeaturesOff, FaradayRotation.new, SiteParameters.new]
  refine ⟨rfl, c1, c2, rfl, rfl, rfl, hs, ?_⟩
  rw [calculate_of_pass _ 0 _ hv hb]
  simp only [matchedLinearFeaturesOff_PLF, matchedLinearFeaturesOff_angles.1]
  refine ⟨?_, ?_, trivial, by norm_num, ?_⟩
  · simp [matchedLinearFeaturesOff, rad2deg]
  · unfold rad2deg SystemConstants.PI
    field_simp
    ring
  · simp [Cmath.log10, EReal.mul_bot_of_pos]

/-- C4 as amended. In the end-to-end scenario `calculate` succeeds and the
reported `PLF` equals `1`: it is strictly greater than `0` but not strictly less
than `1`. -/
theorem endToEnd_PLF_eq_one (fmt : ℝ → String) (now : ℤ) (s : FaradayRotation)
    (h : EndToEndScenario s) :
    (calculate fmt now s).1.calculationSuccess = true ∧ (calculate fmt now s).1.PLF = 1 := by
  obtain ⟨hv, hb⟩ := endToEnd_pass fmt s h
  refine ⟨(calculate_success_iff fmt now s).2 ⟨hv, hb⟩, ?_⟩
  rw [calculate_of_pass fmt now s hv hb]
  exact endToEnd_PLF s h

/-- C4 as amended, at `endToEndState`. -/
theorem endToEnd_PLF_eq_one_witness :
    EndToEndScenario endToEndState ∧
    (calculate (fun _ => "") 0 endToEndState).1.calculationSuccess = true ∧
    (calculate (fun _ => "") 0 endToEndState).1.PLF = 1 :=
  ⟨endToEndState_scenario,
    endToEnd_PLF_eq_one (fun _ => "") 0 endToEndState endToEndState_scenario⟩

/-- C4 as stated fails at `endToEndState`: the state is an instance of the
end-to-end scenario, and the `PLF` that `calculate` reports there is not strictly
between `0` and `1`. -/
theorem endToEnd_PLF_not_below_one :
    EndToEndScenario endToEndState ∧
    ¬ ((calculate (fun _ => "") 0 endToEndState).1.calculationSuccess = true ∧
      0 < (calculate (fun _ => "") 0 endToEndState).1.PLF ∧
      (calculate (fun _ => "") 0 endToEndState).1.PLF < 1) := by
  obtain ⟨hv, hb⟩ := endToEnd_pass (fun _ => "") endToEndState endToEndState_scenario
  refine ⟨endToEndState_scenario, ?_⟩
  rw [calculate_of_pass _ 0 _ hv hb]
  rintro ⟨-, -, hlt⟩
  have h1 : linkPLF endToEndState < 1 := hlt
  rw [endToEnd_PLF endToEndState endToEndState_scenario] at h1
  exact lt_irrefl _ h1

/-- C5 as amended. With Earth-Moon distance 384400 km a successful `calculate`
reports a propagation delay of 2564.44 ms, to within 0.01 ms. -/
theorem calculate_delay_at_384400 (fmt : ℝ → String) (now : ℤ) (s : FaradayRotation)
    (h : (calculate fmt now s).1.calculationSuccess = true)
    (hd : s.m_moonEphem.distance_km = 384400) :
    |(calculate fmt now s).1.propagationDelay_ms - 2564.44| ≤ 0.01 := by
  obtain ⟨hv, hb⟩ := (calculate_success_iff fmt now s).1 h
  rw [calculate_of_pass fmt now s hv hb]
  show |2 * s.m_moonEphem.distance_km * 1000 / 299792458 * 1000 - 2564.44| ≤ 0.01
  rw [hd, abs_le]
  constructor <;> norm_num

/-- C5 as amended, at the default calculator. -/
theorem calculate_delay_at_384400_witness :
    (calculate (fun _ => "") 0 FaradayRotation.new).1.calculationSuccess = true ∧
    FaradayRotation.new.m_moonEphem.distance_km = 384400 ∧
    |(calculate (fun _ => "") 0 FaradayRotation.new).1.propagationDelay_ms - 2564.44| ≤ 0.01 :=
  ⟨new_success _ 0, by norm_num [FaradayRotation.new, MoonEphemeris.new],
    calculate_delay_at_384400 (fun _ => "") 0 FaradayRotation.new (new_success _ 0)
      (by norm_num [FaradayRotation.new, MoonEphemeris.new])⟩

/-- C5 as stated fails at `endToEndState`: the distance is 384400 km and
`calculate` succeeds, but the reported delay is not within 0.01 ms of
2565.96 ms. -/
theorem calculate_delay_not_2565_96 :
    endToEndState.m_moonEphem.distance_km = 384400 ∧
    (calculate (fun _ => "") 0 endToEndState).1.calculationSuccess = true ∧
    ¬ |(calculate (fun _ => "") 0 endToEndState).1.propagationDelay_ms - 2565.96| ≤ 0.01 := by
  obtain ⟨hv, hb⟩ := endToEnd_pass (fun _ => "") endToEndState endToEndState_scenario
  have hd : endToEndState.m_moonEphem.distance_km = 384400 := endToEndState_scenario.distance
  refine ⟨hd, (calculate_success_iff _ 0 _).2 ⟨hv, hb⟩, ?_⟩
  rw [calculate_of_pass _ 0 _ hv hb]
  show ¬ |2 * endToEndState.m_moonEphem.distance_km * 1000 / 299792458 * 1000 - 2565.96| ≤ 0.01
  rw [hd, abs_le]
  norm_num

/-- C6. Every successful `calculate` reports a path length of twice the
Earth-Moon distance and a delay of `pathLength_km * 1000 / 299792458 * 1000`; a
distance of 384400 km gives a path length of exactly 768800 km. -/
theorem calculate_pathLength_and_delay (fmt : ℝ → String) (now : ℤ) (s : FaradayRotation)
    (h : (calculate fmt now s).1.calculationSuccess = true) :
    (calculate fmt now s).1.pathLength_km = 2 * s.m_moonEphem.distance_km ∧
    (calculate fmt now s).1.propagationDelay_ms =
      (calculate fmt now s).1.pathLength_km * 1000 / 299792458 * 1000 ∧
    (s.m_moonEphem.distance_km = 384400 →
      (calculate fmt now s).1.pathLength_km = 768800) := by
  obtain ⟨hv, hb⟩ := (calculate_success_iff fmt now s).1 h
  rw [calculate_of_pass fmt now s hv hb]
  refine ⟨rfl, rfl, fun hd => ?_⟩
  show 2 * s.m_moonEphem.distance_km = 768800
  rw [hd]; norm_num

/-- C6 at the default calculator, whose distance is 384400 km. -/
theorem calculate_pathLength_and_delay_witness :
    (calculate (fun _ => "") 0 FaradayRotation.new).1.calculationSuccess = true ∧
    (calculate (fun _ => "") 0 FaradayRotation.new).1.pathLength_km = 768800 :=
  ⟨new_success _ 0,
    (calculate_pathLength_and_delay (fun _ => "") 0 FaradayRotation.new (new_success _ 0)).2.2
      (by norm_num [FaradayRotation.new, MoonEphemeris.new])⟩

/-- C7. `validateParameters` is total. It returns true exactly when the
frequency is positive, both latitudes lie within `π / 2` of zero, both vTEC values
are non-negative and both field magnitudes are positive. The message is empty
exactly when it returns true, and it is always the concatenation, in this order,
of one segment per violated condition: frequency, DX latitude, Home latitude,
vTEC, field magnitude. -/
theorem validateParameters_spec (fmt : ℝ → String) (s : FaradayRotation) :
    ((validateParameters fmt s).1 = true ↔
      (0 < s.m_config.frequency_MHz ∧
        |s.m_dxSite.latitude| ≤ Real.pi / 2 ∧
        |s.m_homeSite.latitude| ≤ Real.pi / 2 ∧
        0 ≤ s.m_ionoData.vTEC_DX ∧ 0 ≤ s.m_ionoData.vTEC_Home ∧
        0 < s.m_ionoData.B_magnitude_DX ∧ 0 < s.m_ionoData.B_magnitude_Home)) ∧
    ((validateParameters fmt s).2 = "" ↔ (validateParameters fmt s).1 = true) ∧
    (validateParameters fmt s).2 =
      (if 0 < s.m_config.frequency_MHz then ""
        else "Invalid frequency: " ++ fmt s.m_config.frequency_MHz ++ " MHz. ") ++
      (if |s.m_dxSite.latitude| ≤ Real.pi / 2 then ""
        else "DX latitude out of range. ") ++
      (if |s.m_homeSite.latitude| ≤ Real.pi / 2 then ""
        else "Home latitude out of range. ") ++
      (if 0 ≤ s.m_ionoData.vTEC_DX ∧ 0 ≤ s.m_ionoData.vTEC_Home then ""
        else "vTEC values must be non-negative. ") ++
      (if 0 < s.m_ionoData.B_magnitude_DX ∧ 0 < s.m_ionoData.B_magnitude_Home then ""
        else "Magnetic field magnitude must be positive. ") :=
  ⟨validateParameters_iff fmt s, (validateParameters_fst fmt s).symm,
    validateParameters_snd fmt s⟩

/-- C8. For a state that passes validation, `calculate` fails exactly when a
resolved elevation is negative, the failure then being the moon-below-horizon one;
resolved elevations that are both at least `0` give success. -/
theorem calculate_fails_iff_below_horizon (fmt : ℝ → String) (now : ℤ) (s : FaradayRotation)
    (hv : (validateParameters fmt s).1 = true) :
    ((calculate fmt now s).1.calculationSuccess = false ↔
      ((calculateMoonElevation s).m_moonEphem.elevation_DX < 0 ∨
        (calculateMoonElevation s).m_moonEphem.elevation_Home < 0)) ∧
    ((calculate fmt now s).1.calculationSuccess = false →
      (calculate fmt now s).1.errorMessage =
        "Moon is below horizon at one or both stations") ∧
    (0 ≤ (calculateMoonElevation s).m_moonEphem.elevation_DX ∧
      0 ≤ (calculateMoonElevation s).m_moonEphem.elevation_Home →
      (calculate fmt now s).1.calculationSuccess = true) := by
  have key := calculate_success_iff fmt now s
  simp only [hv, true_and, belowHorizon] at key
  refine ⟨?_, ?_, ?_⟩
  · rw [← Bool.not_eq_true, key, not_not]
  · intro hf
    rw [← Bool.not_eq_true, key, not_not] at hf
    rw [calculate_of_below fmt now s hv hf]
  · rintro ⟨h1, h2⟩
    rw [key, not_or, not_lt, not_lt]
    exact ⟨h1, h2⟩

/-- C8 at `horizonCalculator`: validation passes, the resolved elevation of the DX
station is exactly `0`, and `calculate` succeeds. -/
theorem calculate_fails_iff_below_horizon_witness :
    (validateParameters (fun _ => "") horizonCalculator).1 = true ∧
    (calculateMoonElevation horizonCalculator).m_moonEphem.elevation_DX = 0 ∧
    (calculate (fun _ => "") 0 horizonCalculator).1.calculationSuccess = true :=
  ⟨horizonCalculator_valid _, horizonCalculator_resolved.1,
    (calculate_fails_iff_below_horizon (fun _ => "") 0 horizonCalculator
      (horizonCalculator_valid _)).2.2
      (by rw [horizonCalculator_resolved.1, horizonCalculator_resolved.2]; norm_num)⟩

/-- C9. The record returned by `calculate` has either the success flag set and an
empty message, or the flag cleared and a non-empty message. -/
theorem calculate_success_or_message (fmt : ℝ → String) (now : ℤ) (s : FaradayRotation) :
    ((calculate fmt now s).1.calculationSuccess = true ∧
      (calculate fmt now s).1.errorMessage = "") ∨
    ((calculate fmt now s).1.calculationSuccess = false ∧
      (calculate fmt now s).1.errorMessage ≠ "") := by
  by_cases hv : (validateParameters fmt s).1 = true
  · by_cases hb : belowHorizon s
    · right
      rw [calculate_of_below fmt now s hv hb]
      refine ⟨rfl, ?_⟩
      show "Moon is below horizon at one or both stations" ≠ ""
      decide
    · left
      rw [calculate_of_pass fmt now s hv hb]
      exact ⟨rfl, rfl⟩
  · right
    have hv' : (validateParameters fmt s).1 = false := by simpa using hv
    rw [calculate_of_invalid fmt now s hv']
    refine ⟨rfl, ?_⟩
    show (validateParameters fmt s).2 ≠ ""
    exact fun he => hv ((validateParameters_fst fmt s).2 he)

/-- C10. When `calculate` fails, every numeric field of the returned record has
its reset value: rotations, parallactic angles, `PLF`, loss, efficiency, path
length and delay are `0` and both slant factors are `1`. When validation is what
failed, the message is the one `validateParameters` produced and the stored
elevations and azimuths are those of the entry state. -/
theorem calculate_failure_record (fmt : ℝ → String) (now : ℤ) (s : FaradayRotation)
    (h : (calculate fmt now s).1.calculationSuccess = false) :
    ((calculate fmt now s).1.spatialRotation_deg = 0 ∧
      (calculate fmt now s).1.faradayRotation_DX_deg = 0 ∧
      (calculate fmt now s).1.faradayRotation_Home_deg = 0 ∧
      (calculate fmt now s).1.totalRotation_deg = 0 ∧
      (calculate fmt now s).1.parallacticAngle_DX_deg = 0 ∧
      (calculate fmt now s).1.parallacticAngle_Home_deg = 0 ∧
      (calculate fmt now s).1.PLF = 0 ∧
      (calculate fmt now s).1.polarizationLoss_dB = 0 ∧
      (calculate fmt now s).1.polarizationEfficiency = 0 ∧
      (calculate fmt now s).1.pathLength_km = 0 ∧
      (calculate fmt now s).1.propagationDelay_ms = 0 ∧
      (calculate fmt now s).1.slantFactor_DX = 1 ∧
      (calculate fmt now s).1.slantFactor_Home = 1) ∧
    ((validateParameters fmt s).1 = false →
      (calculate fmt now s).1.errorMessage = (validateParameters fmt s).2 ∧
      (calculate fmt now s).2.m_moonEphem.elevation_DX = s.m_moonEphem.elevation_DX ∧
      (calculate fmt now s).2.m_moonEphem.elevation_Home = s.m_moonEphem.elevation_Home ∧
      (calculate fmt now s).2.m_moonEphem.azimuth_DX = s.m_moonEphem.azimuth_DX ∧
      (calculate fmt now s).2.m_moonEphem.azimuth_Home = s.m_moonEphem.azimuth_Home) := by
  constructor
  · by_cases hv : (validateParameters fmt s).1 = true
    · have hb : belowHorizon s := by
        by_contra hb
        rw [(calculate_success_iff fmt now s).2 ⟨hv, hb⟩] at h
        exact Bool.noConfusion h
      rw [calculate_of_below fmt now s hv hb]
      norm_num [CalculationResults.new]
    · have hv' : (validateParameters fmt s).1 = false := by simpa using hv
      rw [calculate_of_invalid fmt now s hv']
      norm_num [CalculationResults.new]
  · intro hv
    rw [calculate_of_invalid fmt now s hv]
    exact ⟨rfl, rfl, rfl, rfl, rfl⟩

/-- C10 at the calculator with zero frequency, where `calculate` fails. -/
theorem calculate_failure_record_witness :
    (calculate (fun _ => "") 0 zeroFrequencyCalculator).1.calculationSuccess = false ∧
    (calculate (fun _ => "") 0 zeroFrequencyCalculator).1.PLF = 0 ∧
    (calculate (fun _ => "") 0 zeroFrequencyCalculator).1.slantFactor_DX = 1 :=
  have h : (calculate (fun _ => "") 0 zeroFrequencyCalculator).1.calculationSuccess = false := by
    rw [calculate_of_invalid _ 0 _ (zeroFrequency_invalid _)]
  ⟨h, (calculate_failure_record (fun _ => "") 0 zeroFrequencyCalculator h).1.2.2.2.2.2.2.1,
    (calculate_failure_record (fun _ => "") 0 zeroFrequencyCalculator h).1.2.2.2.2.2.2.2.2.2.2.2.1⟩

/-- C11. `calculate` leaves the configuration, both sites, the ionosphere state
and every moon field other than the two elevations and the two azimuths as they
were. When validation fails, or when an elevation field is non-zero on entry, the
whole moon state, those four fields included, is left as it was. -/
theorem calculate_frame (fmt : ℝ → String) (now : ℤ) (s : FaradayRotation) :
    (calculate fmt now s).2.m_config = s.m_config ∧
    (calculate fmt now s).2.m_dxSite = s.m_dxSite ∧
    (calculate fmt now s).2.m_homeSite = s.m_homeSite ∧
    (calculate fmt now s).2.m_ionoData = s.m_ionoData ∧
    (calculate fmt now s).2.m_moonEphem.rightAscension = s.m_moonEphem.rightAscension ∧
    (calculate fmt now s).2.m_moonEphem.declination = s.m_moonEphem.declination ∧
    (calculate fmt now s).2.m_moonEphem.distance_km = s.m_moonEphem.distance_km ∧
    (calculate fmt now s).2.m_moonEphem.hourAngle_DX = s.m_moonEphem.hourAngle_DX ∧
    (calculate fmt now s).2.m_moonEphem.hourAngle_Home = s.m_moonEphem.hourAngle_Home ∧
    (calculate fmt now s).2.m_moonEphem.observationTime = s.m_moonEphem.observationTime ∧
    (calculate fmt now s).2.m_moonEphem.julianDate = s.m_moonEphem.julianDate ∧
    (calculate fmt now s).2.m_moonEphem.ephemerisSource = s.m_moonEphem.ephemerisSource ∧
    ((validateParameters fmt s).1 = false ∨ s.m_moonEphem.elevation_DX ≠ 0 ∨
        s.m_moonEphem.elevation_Home ≠ 0 →
      (calculate fmt now s).2.m_moonEphem = s.m_moonEphem) := by
  obtain ⟨f1, f2, f3, f4, _, f6, f7, f8, f9⟩ := calculateMoonElevation_frame s
  obtain ⟨g1, g2, g3, g4⟩ := calculateMoonElevation_moon_frame s
  by_cases hv : (validateParameters fmt s).1 = true
  · rw [calculate_snd_of_valid fmt now s hv]
    refine ⟨f1, f2, f3, f4, g1, f6, f7, f8, f9, g2, g3, g4, ?_⟩
    rintro (h | h)
    · rw [hv] at h
      exact Bool.noConfusion h
    · show (calculateMoonElevation s).m_moonEphem = s.m_moonEphem
      rw [calculateMoonElevation_of_set s h]
  · have hv' : (validateParameters fmt s).1 = false := by simpa using hv
    rw [calculate_snd_of_invalid fmt now s hv']
    exact ⟨rfl, rfl, rfl, rfl, rfl, rfl, rfl, rfl, rfl, rfl, rfl, rfl, fun _ => rfl⟩

/-- C12. `calculateFaradayRotationPrecise` is
`(0.23647 / f^2) * (vTEC * mappingFactor) * (1e9 * projection)`, the mapping factor
taken at the given `hmF2` and Earth radius 6371. A successful `calculate` reports,
for each site, `rad2deg` of this value at the site's own vTEC, hmF2, field
magnitude, inclination and declination and at the elevation and azimuth stored
after the call when `includeFaradayRotation` is set, and `0` when it is not. -/
theorem calculate_faradayRotation (fmt : ℝ → String) (now : ℤ) (s : FaradayRotation)
    (h : (calculate fmt now s).1.calculationSuccess = true) :
    (∀ vTEC hmF2 B I D el az f : ℝ,
      IonospherePhysics.calculateFaradayRotationPrecise vTEC hmF2 B I D el az f =
        (0.23647 / f ^ 2) *
          (vTEC * IonospherePhysics.calculateMappingFunction el hmF2 6371) *
          (1e9 * IonospherePhysics.calculateMagneticFieldProjection B I D el az)) ∧
    (s.m_config.includeFaradayRotation = true →
      (calculate fmt now s).1.faradayRotation_DX_deg =
        rad2deg (IonospherePhysics.calculateFaradayRotationPrecise
          s.m_ionoData.vTEC_DX s.m_ionoData.hmF2_DX s.m_ionoData.B_magnitude_DX
          s.m_ionoData.B_inclination_DX s.m_ionoData.B_declination_DX
          (calculate fmt now s).2.m_moonEphem.elevation_DX
          (calculate fmt now s).2.m_moonEphem.azimuth_DX
          s.m_config.frequency_MHz) ∧
      (calculate fmt now s).1.faradayRotation_Home_deg =
        rad2deg (IonospherePhysics.calculateFaradayRotationPrecise
          s.m_ionoData.vTEC_Home s.m_ionoData.hmF2_Home s.m_ionoData.B_magnitude_Home
          s.m_ionoData.B_inclination_Home s.m_ionoData.B_declination_Home
          (calculate fmt now s).2.m_moonEphem.elevation_Home
          (calculate fmt now s).2.m_moonEphem.azimuth_Home
          s.m_config.frequency_MHz)) ∧
    (s.m_config.includeFaradayRotation = false →
      (calculate fmt now s).1.faradayRotation_DX_deg = 0 ∧
      (calculate fmt now s).1.faradayRotation_Home_deg = 0) := by
  obtain ⟨hv, hb⟩ := (calculate_success_iff fmt now s).1 h
  refine ⟨calculateFaradayRotationPrecise_eq, ?_, ?_⟩
  · intro hF
    rw [calculate_snd_of_valid fmt now s hv, calculate_of_pass fmt now s hv hb]
    simp [omegaDX, omegaHome, hF]
  · intro hF
    rw [calculate_of_pass fmt now s hv hb]
    simp only [omegaDX, omegaHome, hF]
    exact ⟨rad2deg_zero, rad2deg_zero⟩

/-- C12 at the default calculator, whose `calculate` succeeds with the Faraday
feature on. -/
theorem calculate_faradayRotation_witness :
    (calculate (fun _ => "") 0 FaradayRotation.new).1.calculationSuccess = true ∧
    (calculate (fun _ => "") 0 FaradayRotation.new).1.faradayRotation_DX_deg =
      rad2deg (IonospherePhysics.calculateFaradayRotationPrecise
        FaradayRotation.new.m_ionoData.vTEC_DX FaradayRotation.new.m_ionoData.hmF2_DX
        FaradayRotation.new.m_ionoData.B_magnitude_DX
        FaradayRotation.new.m_ionoData.B_inclination_DX
        FaradayRotation.new.m_ionoData.B_declination_DX
        (calculate (fun _ => "") 0 FaradayRotation.new).2.m_moonEphem.elevation_DX
        (calculate (fun _ => "") 0 FaradayRotation.new).2.m_moonEphem.azimuth_DX
        FaradayRotation.new.m_config.frequency_MHz) :=
  ⟨new_success _ 0,
    ((calculate_faradayRotation (fun _ => "") 0 FaradayRotation.new
      (new_success _ 0)).2.1 rfl).1⟩

/-- C13 as amended. With `vTEC = 0` and a frequency other than `0` the Faraday rotation
angle is `0`, whatever the other arguments are, for `calculateFaradayRotationPrecise`, whose
division is then by a non-zero number, and for the helper `calculateFaradayRotation` of a
calculator whose frequency is not `0`. -/
theorem faradayRotation_zero_vTEC (s : FaradayRotation) (hmF2 B I D el az f : ℝ)
    (hf : f ≠ 0) (hs : s.m_config.frequency_MHz ≠ 0) :
    IonospherePhysics.calculateFaradayRotationPreciseChecked 0 hmF2 B I D el az f = some 0 ∧
    IonospherePhysics.calculateFaradayRotationPrecise 0 hmF2 B I D el az f = 0 ∧
    IonospherePhysics.calculateFaradayRotationPreciseChecked 0
      SystemConstants.IONOSPHERE_HEIGHT_KM B I D el az s.m_config.frequency_MHz = some 0 ∧
    calculateFaradayRotation s 0 B I D el az = 0 := by
  refine ⟨?_, calculateFaradayRotationPrecise_zero_vTEC hmF2 B I D el az f, ?_, ?_⟩
  · rw [calculateFaradayRotationPreciseChecked_of_ne _ _ _ _ _ _ _ _ hf,
      calculateFaradayRotationPrecise_zero_vTEC]
  · rw [calculateFaradayRotationPreciseChecked_of_ne _ _ _ _ _ _ _ _ hs,
      calculateFaradayRotationPrecise_zero_vTEC]
  · unfold calculateFaradayRotation
    exact calculateFaradayRotationPrecise_zero_vTEC _ _ _ _ _ _ _

/-- C13 as amended, at the frequency 144 MHz and at the default calculator. -/
theorem faradayRotation_zero_vTEC_witness :
    (144 : ℝ) ≠ 0 ∧ FaradayRotation.new.m_config.frequency_MHz ≠ 0 ∧
    IonospherePhysics.calculateFaradayRotationPreciseChecked 0 350 5e-5 0 0 0 0 144 = some 0 ∧
    calculateFaradayRotation FaradayRotation.new 0 5e-5 0 0 0 0 = 0 :=
  ⟨by norm_num, by norm_num [FaradayRotation.new, SystemConfiguration.new],
    (faradayRotation_zero_vTEC FaradayRotation.new 350 5e-5 0 0 0 0 144 (by norm_num)
      (by norm_num [FaradayRotation.new, SystemConfiguration.new])).1,
    (faradayRotation_zero_vTEC FaradayRotation.new 350 5e-5 0 0 0 0 144 (by norm_num)
      (by norm_num [FaradayRotation.new, SystemConfiguration.new])).2.2.2⟩

/-- C13 as stated fails at the frequency `0`: the divisor `f_squared_MHz` is `0 * 0`, the
quotient `0.23647 / f_squared_MHz` is not a finite number, and with `vTEC = 0` the function
has no number to return, whatever the other arguments are; it does not return `0`. -/
theorem faradayRotation_zero_vTEC_zero_frequency :
    Cmath.divChecked 0.23647 (0 * 0) = none ∧
    IonospherePhysics.calculateFaradayRotationPreciseChecked 0 350 5e-5 0 0 0 0 0 = none ∧
    IonospherePhysics.calculateFaradayRotationPreciseChecked 0 350 5e-5 0 0 0 0 0 ≠ some 0 ∧
    (∀ hmF2 B I D el az : ℝ,
      IonospherePhysics.calculateFaradayRotationPreciseChecked 0 hmF2 B I D el az 0 = none) := by
  have h := calculateFaradayRotationPreciseChecked_zero 0 350 5e-5 0 0 0 0
  refine ⟨by simp [Cmath.divChecked], h, ?_, fun _ _ _ _ _ _ =>
    calculateFaradayRotationPreciseChecked_zero _ _ _ _ _ _ _⟩
  rw [h]
  simp

/-- C14. The slant factor is strictly decreasing on `[0, π / 2]`: for elevations
`0 ≤ e1 < e2 ≤ π / 2` the factor at `e1` is greater than the factor at `e2`. -/
theorem calculateSlantFactor_strictAnti (e1 e2 : ℝ)
    (h0 : 0 ≤ e1) (h12 : e1 < e2) (h2 : e2 ≤ Real.pi / 2) :
    calculateSlantFactor e2 < calculateSlantFactor e1 := by
  rw [calculateSlantFactor_of_mem e1 h0 (by linarith),
    calculateSlantFactor_of_mem e2 (by linarith) h2]
  have hc : Real.cos e2 < Real.cos e1 :=
    Real.cos_lt_cos_of_nonneg_of_le_pi_div_two h0 h2 h12
  have hc2 : 0 ≤ Real.cos e2 := Real.cos_nonneg_of_mem_Icc ⟨by linarith, h2⟩
  have hc1 : Real.cos e1 ≤ 1 := Real.cos_le_one e1
  have hx : 6371 * Real.cos e2 / 6721 < 6371 * Real.cos e1 / 6721 := by
    apply div_lt_div_of_pos_right _ (by norm_num)
    linarith
  have hx0 : 0 ≤ 6371 * Real.cos e2 / 6721 := by positivity
  have hx1 : 6371 * Real.cos e1 / 6721 < 1 := by
    rw [div_lt_one (by norm_num)]
    linarith
  have hsq : (6371 * Real.cos e2 / 6721) ^ 2 < (6371 * Real.cos e1 / 6721) ^ 2 := by
    nlinarith
  have hpos : 0 < 1 - (6371 * Real.cos e1 / 6721) ^ 2 := by nlinarith
  apply one_div_lt_one_div_of_lt (Real.sqrt_pos.2 hpos)
  exact Real.sqrt_lt_sqrt hpos.le (by linarith)

/-- C14 at the two ends of the interval: the factor at the zenith is smaller than
the factor at the horizon. -/
theorem calculateSlantFactor_strictAnti_witness :
    (0 : ℝ) ≤ 0 ∧ (0 : ℝ) < Real.pi / 2 ∧ Real.pi / 2 ≤ Real.pi / 2 ∧
    calculateSlantFactor (Real.pi / 2) < calculateSlantFactor 0 :=
  ⟨le_rfl, by positivity, le_rfl,
    calculateSlantFactor_strictAnti 0 (Real.pi / 2) le_rfl (by positivity) le_rfl⟩

/-- C15. The slant factor is `1` for every negative elevation and at elevation
`π / 2`; for a non-negative elevation `e` it is
`1 / cos (asin (clamp (6371 * cos e / (6371 + 350), -1, 1)))`. -/
theorem calculateSlantFactor_spec (e : ℝ) :
    (e < 0 → calculateSlantFactor e = 1) ∧
    calculateSlantFactor (Real.pi / 2) = 1 ∧
    (0 ≤ e → calculateSlantFactor e =
      1 / Real.cos (Real.arcsin (max (-1) (min 1 (6371 * Real.cos e / (6371 + 350)))))) := by
  refine ⟨calculateSlantFactor_of_neg e, ?_, calculateSlantFactor_of_nonneg e⟩
  have := Real.pi_pos
  rw [calculateSlantFactor_of_mem _ (by positivity) le_rfl, Real.cos_pi_div_two]
  norm_num

/-- C16. `createJonesVector psi chi` is the vector
`(cos psi cos chi - i sin psi sin chi, sin psi cos chi + i cos psi sin chi)`; its
squared norm is `1`, and so is its inner product with itself. -/
theorem createJonesVector_spec (psi chi : ℝ) :
    createJonesVector psi chi 0 =
      (Real.cos psi * Real.cos chi : ℝ) - Complex.I * (Real.sin psi * Real.sin chi : ℝ) ∧
    createJonesVector psi chi 1 =
      (Real.sin psi * Real.cos chi : ℝ) + Complex.I * (Real.cos psi * Real.sin chi : ℝ) ∧
    Complex.normSq (createJonesVector psi chi 0) +
      Complex.normSq (createJonesVector psi chi 1) = 1 ∧
    vectorDotProduct (createJonesVector psi chi) (createJonesVector psi chi) = 1 := by
  refine ⟨?_, ?_, jonesNormSq_createJonesVector psi chi, ?_⟩
  · apply Complex.ext <;>
      simp [createJonesVector, Complex.cos_ofReal_re, Complex.sin_ofReal_re,
        Complex.cos_ofReal_im, Complex.sin_ofReal_im]
  · apply Complex.ext <;>
      simp [createJonesVector, Complex.cos_ofReal_re, Complex.sin_ofReal_re,
        Complex.cos_ofReal_im, Complex.sin_ofReal_im]
  · rw [vectorDotProduct_self, jonesNormSq_createJonesVector]
    simp

/-- C17. `createRotationMatrix 0` is the identity matrix, and the product of
`createRotationMatrix theta` and `createRotationMatrix (-theta)` is the identity
matrix for every `theta`. -/
theorem createRotationMatrix_inverse (theta : ℝ) :
    createRotationMatrix 0 = ![![1, 0], ![0, 1]] ∧
    matrixMultiply (createRotationMatrix theta) (createRotationMatrix (-theta)) =
      ![![1, 0], ![0, 1]] := by
  refine ⟨createRotationMatrix_zero, ?_⟩
  have h := Real.sin_sq_add_cos_sq theta
  have z0 : (0.0 : ℝ) = 0 := by norm_num
  funext i j
  fin_cases i <;> fin_cases j <;>
    simp [matrixMultiply, createRotationMatrix, Complex.ext_iff, z0] <;> nlinarith

/-- C18. `createMoonReflectionMatrix` is `diag(1, -1)`; applied to
`createJonesVector psi chi` it gives `createJonesVector (-psi) (-chi)`; applied
twice to any vector it gives the vector back. -/
theorem createMoonReflectionMatrix_flip (psi chi : ℝ) :
    createMoonReflectionMatrix = ![![1, 0], ![0, -1]] ∧
    matrixVectorMultiply createMoonReflectionMatrix (createJonesVector psi chi) =
      createJonesVector (-psi) (-chi) ∧
    (∀ v : JonesVector,
      matrixVectorMultiply createMoonReflectionMatrix
        (matrixVectorMultiply createMoonReflectionMatrix v) = v) := by
  refine ⟨createMoonReflectionMatrix_eq, ?_, ?_⟩
  · funext i
    fin_cases i <;>
      simp [matrixVectorMultiply, createMoonReflectionMatrix, createJonesVector,
        Complex.ext_iff] <;> norm_num
  · intro v
    funext i
    fin_cases i <;>
      simp [matrixVectorMultiply, createMoonReflectionMatrix, Complex.ext_iff] <;> norm_num

/-- C19. The magnetic field projection is the field magnitude times the cosine of
`calculateMagneticAngle`. It is the magnitude times the dot product of the two
unit vectors, the angle is the arccosine of that same dot product (the clamp
leaves it as it is), and the angle lies in `[0, π]`. -/
theorem projection_eq_magnitude_mul_cos_angle (B I D e a : ℝ) :
    IonospherePhysics.calculateMagneticFieldProjection B I D e a =
      B * Real.cos (calculateMagneticAngle I D e a) ∧
    IonospherePhysics.calculateMagneticFieldProjection B I D e a =
      B * (Real.cos e * Real.cos a * (Real.cos I * Real.cos D) +
        Real.cos e * Real.sin a * (Real.cos I * Real.sin D) +
        Real.sin e * -Real.sin I) ∧
    calculateMagneticAngle I D e a =
      Real.arccos (Real.cos e * Real.cos a * (Real.cos I * Real.cos D) +
        Real.cos e * Real.sin a * (Real.cos I * Real.sin D) +
        Real.sin e * -Real.sin I) ∧
    0 ≤ calculateMagneticAngle I D e a ∧ calculateMagneticAngle I D e a ≤ Real.pi := by
  have h := abs_le.1 (unit_dot_abs_le_one I D e a)
  have hang : calculateMagneticAngle I D e a =
      Real.arccos (Real.cos e * Real.cos a * (Real.cos I * Real.cos D) +
        Real.cos e * Real.sin a * (Real.cos I * Real.sin D) +
        Real.sin e * -Real.sin I) := by
    have z1 : (1.0 : ℝ) = 1 := by norm_num
    simp only [calculateMagneticAngle, z1]
    rw [min_eq_right h.2, max_eq_right h.1]
  refine ⟨?_, calculateMagneticFieldProjection_eq B I D e a, hang, ?_, ?_⟩
  · rw [hang, Real.cos_arccos h.1 h.2, calculateMagneticFieldProjection_eq]
  · rw [hang]; exact Real.arccos_nonneg _
  · rw [hang]; exact Real.arccos_le_pi _

/-- C21. The parallactic angle is
`atan2 (sin H cos lat, sin lat cos dec - cos lat sin dec cos H)`. Every successful
`calculate` reports, for each site, `rad2deg` of that angle at the latitude and the
hour angle of the site and the declination of the moon state, whatever the feature
flags are; it reports as spatial rotation `rad2deg` of the sum of the two angles
when `includeSpatialRotation` is set, and `0` when it is not. -/
theorem calculate_parallactic (fmt : ℝ → String) (now : ℤ) (s : FaradayRotation)
    (h : (calculate fmt now s).1.calculationSuccess = true) :
    (∀ lat dec H : ℝ, calculateParallacticAngle lat dec H =
      Cmath.atan2 (Real.sin H * Real.cos lat)
        (Real.sin lat * Real.cos dec - Real.cos lat * Real.sin dec * Real.cos H)) ∧
    (calculate fmt now s).1.parallacticAngle_DX_deg =
      rad2deg (calculateParallacticAngle s.m_dxSite.latitude s.m_moonEphem.declination
        s.m_moonEphem.hourAngle_DX) ∧
    (calculate fmt now s).1.parallacticAngle_Home_deg =
      rad2deg (calculateParallacticAngle s.m_homeSite.latitude s.m_moonEphem.declination
        s.m_moonEphem.hourAngle_Home) ∧
    (s.m_config.includeSpatialRotation = true →
      (calculate fmt now s).1.spatialRotation_deg =
        rad2deg (calculateParallacticAngle s.m_dxSite.latitude s.m_moonEphem.declination
            s.m_moonEphem.hourAngle_DX +
          calculateParallacticAngle s.m_homeSite.latitude s.m_moonEphem.declination
            s.m_moonEphem.hourAngle_Home)) ∧
    (s.m_config.includeSpatialRotation = false →
      (calculate fmt now s).1.spatialRotation_deg = 0) := by
  obtain ⟨hv, hb⟩ := (calculate_success_iff fmt now s).1 h
  rw [calculate_of_pass fmt now s hv hb]
  refine ⟨fun _ _ _ => rfl, rfl, rfl, ?_, ?_⟩
  · intro hS
    simp [hS, nuDX, nuHome]
  · intro hS
    simp [hS, rad2deg_zero]

/-- C21 at the default calculator, where the spatial rotation is included: the
reported spatial rotation is `rad2deg` of the sum of the two parallactic angles. -/
theorem calculate_parallactic_witness :
    (calculate (fun _ => "") 0 FaradayRotation.new).1.calculationSuccess = true ∧
    (calculate (fun _ => "") 0 FaradayRotation.new).1.spatialRotation_deg =
      rad2deg (calculateParallacticAngle FaradayRotation.new.m_dxSite.latitude
          FaradayRotation.new.m_moonEphem.declination
          FaradayRotation.new.m_moonEphem.hourAngle_DX +
        calculateParallacticAngle FaradayRotation.new.m_homeSite.latitude
          FaradayRotation.new.m_moonEphem.declination
          FaradayRotation.new.m_moonEphem.hourAngle_Home) :=
  ⟨new_success _ _,
    (calculate_parallactic (fun _ => "") 0 FaradayRotation.new (new_success _ _)).2.2.2.1 rfl⟩

/-- C22. For every successful `calculate`, the reported total rotation is the sum
of the reported spatial rotation and the two reported Faraday rotations. -/
theorem calculate_totalRotation (fmt : ℝ → String) (now : ℤ) (s : FaradayRotation)
    (h : (calculate fmt now s).1.calculationSuccess = true) :
    (calculate fmt now s).1.totalRotation_deg =
      (calculate fmt now s).1.spatialRotation_deg +
        (calculate fmt now s).1.faradayRotation_DX_deg +
        (calculate fmt now s).1.faradayRotation_Home_deg := by
  obtain ⟨hv, hb⟩ := (calculate_success_iff fmt now s).1 h
  rw [calculate_of_pass fmt now s hv hb]
  simp only [rad2deg_add]

/-- C22 at the default calculator. -/
theorem calculate_totalRotation_witness :
    (calculate (fun _ => "") 0 FaradayRotation.new).1.calculationSuccess = true ∧
    (calculate (fun _ => "") 0 FaradayRotation.new).1.totalRotation_deg =
      (calculate (fun _ => "") 0 FaradayRotation.new).1.spatialRotation_deg +
        (calculate (fun _ => "") 0 FaradayRotation.new).1.faradayRotation_DX_deg +
        (calculate (fun _ => "") 0 FaradayRotation.new).1.faradayRotation_Home_deg :=
  ⟨new_success _ _,
    calculate_totalRotation (fun _ => "") 0 FaradayRotation.new (new_success _ _)⟩

/-- C23. Two calculators that hold the same configuration, sites, ionosphere and
moon state and differ only in the stored result records `r` and `r'` return, at
any two time stamps, records that agree in every field once `calculationTime` is
set aside; and after `calculate` the accessor `getLastResults` gives the record
that `calculate` returned. -/
theorem calculate_overwrites_record (fmt : ℝ → String) (now now' : ℤ) (s : FaradayRotation)
    (r r' : CalculationResults) :
    { (calculate fmt now { s with m_lastResults := r }).1 with calculationTime := 0 } =
      { (calculate fmt now' { s with m_lastResults := r' }).1 with calculationTime := 0 } ∧
    getLastResults (calculate fmt now { s with m_lastResults := r }).2 =
      (calculate fmt now { s with m_lastResults := r }).1 := by
  rw [calculate_lastResults, calculate_lastResults]
  exact ⟨calculate_time fmt now now' 0 s, calculate_getLastResults fmt now s⟩

/-- C24. For characters `c0 c1` in `A`-`R`, `c2 c3` in `0`-`9` and `c4 c5` in
`a`-`x`, `gridToLatLon` accepts the locator `c0 c1 c2 c3 c4 c5` and `latLonToGrid`
with precision 6 maps the point it gives back to that locator; likewise for the
locator `c0 c1 c2 c3` with precision 4. -/
theorem grid_roundtrip (c0 c1 c2 c3 c4 c5 : Char)
    (h0 : 'A'.toNat ≤ c0.toNat ∧ c0.toNat ≤ 'R'.toNat)
    (h1 : 'A'.toNat ≤ c1.toNat ∧ c1.toNat ≤ 'R'.toNat)
    (h2 : '0'.toNat ≤ c2.toNat ∧ c2.toNat ≤ '9'.toNat)
    (h3 : '0'.toNat ≤ c3.toNat ∧ c3.toNat ≤ '9'.toNat)
    (h4 : 'a'.toNat ≤ c4.toNat ∧ c4.toNat ≤ 'x'.toNat)
    (h5 : 'a'.toNat ≤ c5.toNat ∧ c5.toNat ≤ 'x'.toNat) :
    (∃ lat lon, MaidenheadGrid.gridToLatLon (String.mk [c0, c1, c2, c3, c4, c5]) = Except.ok (lat, lon) ∧
      MaidenheadGrid.latLonToGrid lat lon 6 = Except.ok (String.mk [c0, c1, c2, c3, c4, c5])) ∧
    (∃ lat lon, MaidenheadGrid.gridToLatLon (String.mk [c0, c1, c2, c3]) = Except.ok (lat, lon) ∧
      MaidenheadGrid.latLonToGrid lat lon 4 = Except.ok (String.mk [c0, c1, c2, c3])) := by
  have eA : 'A'.toNat = 65 := rfl
  have eR : 'R'.toNat = 82 := rfl
  have e0 : '0'.toNat = 48 := rfl
  have e9 : '9'.toNat = 57 := rfl
  have ea : 'a'.toNat = 97 := rfl
  have ex : 'x'.toNat = 120 := rfl
  rw [eA, eR] at h0 h1
  rw [e0, e9] at h2 h3
  rw [ea, ex] at h4 h5
  obtain ⟨p0, q0, r0⟩ := canonical_char c0 65 82 (by exact_mod_cast h0.1)
    (by exact_mod_cast h0.2) (by norm_num)
  obtain ⟨p1, q1, r1⟩ := canonical_char c1 65 82 (by exact_mod_cast h1.1)
    (by exact_mod_cast h1.2) (by norm_num)
  obtain ⟨p2, q2, r2⟩ := canonical_char c2 48 57 (by exact_mod_cast h2.1)
    (by exact_mod_cast h2.2) (by norm_num)
  obtain ⟨p3, q3, r3⟩ := canonical_char c3 48 57 (by exact_mod_cast h3.1)
    (by exact_mod_cast h3.2) (by norm_num)
  obtain ⟨p4, q4, r4⟩ := canonical_char c4 97 120 (by exact_mod_cast h4.1)
    (by exact_mod_cast h4.2) (by norm_num)
  obtain ⟨p5, q5, r5⟩ := canonical_char c5 97 120 (by exact_mod_cast h5.1)
    (by exact_mod_cast h5.2) (by norm_num)
  have key := roundtrip_aux _ _ _ _ _ _ ⟨q0, r0⟩ ⟨q1, r1⟩ ⟨q2, r2⟩ ⟨q3, r3⟩ ⟨q4, r4⟩ ⟨q5, r5⟩
  simp only [cell6, cell4] at key
  rw [p0, p1, p2, p3, p4, p5] at key
  exact key

/-- C24 at the locators `FN20xa` and `FN20`. -/
theorem grid_roundtrip_witness :
    (∃ lat lon, MaidenheadGrid.gridToLatLon "FN20xa" = Except.ok (lat, lon) ∧
      MaidenheadGrid.latLonToGrid lat lon 6 = Except.ok "FN20xa") ∧
    (∃ lat lon, MaidenheadGrid.gridToLatLon "FN20" = Except.ok (lat, lon) ∧
      MaidenheadGrid.latLonToGrid lat lon 4 = Except.ok "FN20") :=
  grid_roundtrip 'F' 'N' '2' '0' 'x' 'a' (by decide) (by decide) (by decide) (by decide)
    (by decide) (by decide)

/-- C25. `latLonToGrid` raises exactly when the latitude is outside `[-90, 90]` or
the longitude outside `[-180, 180]`, at every precision; and for every latitude and
longitude inside, the locator of six characters that it returns is accepted by
`gridToLatLon` and decodes to a point within `1 / 48` degree of the latitude and
`1 / 24` degree of the longitude. -/
theorem latLonToGrid_spec (lat lon : ℝ) :
    (∀ precision : ℤ, (∃ e, MaidenheadGrid.latLonToGrid lat lon precision = Except.error e) ↔
      (lat < -90 ∨ lat > 90 ∨ lon < -180 ∨ lon > 180)) ∧
    (-90 ≤ lat ∧ lat ≤ 90 → -180 ≤ lon ∧ lon ≤ 180 →
      ∃ g lat' lon', MaidenheadGrid.latLonToGrid lat lon 6 = Except.ok g ∧
        MaidenheadGrid.gridToLatLon g = Except.ok (lat', lon') ∧
        |lat' - lat| ≤ 1 / 48 ∧ |lon' - lon| ≤ 1 / 24) :=
  ⟨fun precision => latLonToGrid_error_iff lat lon precision,
    fun hlat hlon => latLonToGrid_decode lat lon hlat hlon⟩

/-- C26. The locator `ZZ99` is accepted by `gridToLatLon`, which checks that the
first two characters are letters and not that they lie in `A`-`R`: it decodes to
latitude 169.5 and longitude 339 degrees, outside `[-90, 90]` and `[-180, 180]`.
`setDXStationByGrid` succeeds on it and stores a latitude of more than `π / 2`, so
that `validateParameters` fails with the message of the DX latitude. -/
theorem setDXStationByGrid_ZZ99 :
    MaidenheadGrid.gridToLatLon "ZZ99" = Except.ok (169.5, 339) ∧
    ¬ ((169.5 : ℝ) ≤ 90) ∧ ¬ ((339 : ℝ) ≤ 180) ∧
    (∃ s, setDXStationByGrid FaradayRotation.new "ZZ99" 0 0 = Except.ok s ∧
      s.m_dxSite.latitude = deg2rad 169.5 ∧
      ¬ (|s.m_dxSite.latitude| ≤ Real.pi / 2) ∧
      (validateParameters (fun _ => "") s).1 = false ∧
      (validateParameters (fun _ => "") s).2 = "DX latitude out of range. ") := by
  have hlat : ¬ (|deg2rad 169.5| ≤ Real.pi / 2) := by
    have := Real.pi_pos
    unfold deg2rad SystemConstants.PI
    rw [abs_of_pos (by positivity), not_le]
    linarith
  refine ⟨gridToLatLon_ZZ99, by norm_num, by norm_num, ?_⟩
  simp only [setDXStationByGrid, gridToLatLon_ZZ99]
  refine ⟨_, rfl, rfl, hlat, ?_, ?_⟩
  · rw [← Bool.not_eq_true, validateParameters_iff]
    exact fun h => hlat h.2.1
  · rw [validateParameters_snd]
    have := Real.pi_pos
    have h2 : |SiteParameters.new.latitude| ≤ Real.pi / 2 := by
      simp only [SiteParameters.new]
      norm_num
      positivity
    simp only [SystemConstants.PI, hlat, if_false, FaradayRotation.new, h2, if_true]
    norm_num [IonosphereData.new, SystemConfiguration.new]

/-- C28 as amended. For a loaded calendar with entries at 00:00:00 in strictly
increasing order of the day of the year, `getMoonDeclination` returns the
declination of an entry for a date-time of the same day of the year, the
declination of the first entry for a day of the year before the first entry, and
that of the last entry for a day of the year after the last entry; and for any
reader it returns `false` exactly when nothing is loaded or there is no entry. -/
theorem getMoonDeclination_by_day_of_year (r : MoonCalendarReader) (date : Tm)
    (hl : r.m_loaded = true) (hne : r.m_entries ≠ [])
    (hmid : ∀ e ∈ r.m_entries, e.date.tm_hour = 0 ∧ e.date.tm_min = 0 ∧ e.date.tm_sec = 0)
    (hord : r.m_entries.Pairwise
      (fun a b => MoonCalendarReader.dateToDayOfYear a.date < MoonCalendarReader.dateToDayOfYear b.date)) :
    (∀ e ∈ r.m_entries, MoonCalendarReader.dateToDayOfYear date = MoonCalendarReader.dateToDayOfYear e.date →
      MoonCalendarReader.getMoonDeclination r date = some e.declination) ∧
    (∀ e, r.m_entries.head? = some e → MoonCalendarReader.dateToDayOfYear date < MoonCalendarReader.dateToDayOfYear e.date →
      MoonCalendarReader.getMoonDeclination r date = some e.declination) ∧
    (∀ e, r.m_entries.getLast? = some e → MoonCalendarReader.dateToDayOfYear e.date < MoonCalendarReader.dateToDayOfYear date →
      MoonCalendarReader.getMoonDeclination r date = some e.declination) ∧
    (∀ (r' : MoonCalendarReader) (date' : Tm),
      MoonCalendarReader.getMoonDeclination r' date' = none ↔ (r'.m_loaded = false ∨ r'.m_entries = [])) := by
  rw [getMoonDeclination_of_loaded r date hl hne]
  refine ⟨?_, ?_, ?_, getMoonDeclination_none_iff⟩
  · intro e he hd
    rw [getMoonDeclinationFrom_exact r _ e hd.symm r.m_entries 0 hmid hord he]
  · intro e he hd
    cases hr : r.m_entries with
    | nil => exact absurd hr hne
    | cons x rest =>
      rw [hr] at he
      have hx : x = e := by simpa using he
      subst hx
      rw [← hr, getMoonDeclinationFrom_before r _ x rest hr hd]
  · intro e he hd
    rw [getMoonDeclinationFrom_after r _ e he hd r.m_entries 0 hmid hord (Or.inr he)]

/-- C28 as amended, at the calendar of 1 and 2 January and the date 2 January 2026. -/
theorem getMoonDeclination_by_day_of_year_witness :
    januaryCalendar.m_loaded = true ∧ januaryCalendar.m_entries ≠ [] ∧
    januarySecond ∈ januaryCalendar.m_entries ∧
    MoonCalendarReader.getMoonDeclination januaryCalendar (Tm.midnight 2026 1 2) = some 2 :=
  ⟨rfl, by simp [januaryCalendar], by simp [januaryCalendar],
    (getMoonDeclination_by_day_of_year januaryCalendar (Tm.midnight 2026 1 2) rfl
      (by simp [januaryCalendar])
      (by simp [januaryCalendar, januaryFirst, januarySecond, Tm.midnight])
      (by simp [januaryCalendar, januaryFirst, januarySecond, dateToDayOfYear_jan1,
        dateToDayOfYear_jan2])).1 januarySecond (by simp [januaryCalendar]) rfl⟩

/-- C28 as stated fails. In the loaded calendar of 1 January 2026 (declination 1)
and 2 January 2026 (declination 2), in increasing date order, the date 31 December
2025 is earlier than every entry and gets the declination of the last entry, and
the date 1 January 2027 is later than every entry and gets the declination of the
first entry: the year of the date is not compared. -/
theorem getMoonDeclination_ignores_year :
    januaryCalendar.m_loaded = true ∧
    januaryCalendar.m_entries = [januaryFirst, januarySecond] ∧
    Tm.before januaryFirst.date januarySecond.date ∧
    Tm.before (Tm.midnight 2025 12 31) januaryFirst.date ∧
    Tm.before januarySecond.date (Tm.midnight 2027 1 1) ∧
    MoonCalendarReader.getMoonDeclination januaryCalendar (Tm.midnight 2025 12 31) =
      some januarySecond.declination ∧
    MoonCalendarReader.getMoonDeclination januaryCalendar (Tm.midnight 2025 12 31) ≠
      some januaryFirst.declination ∧
    MoonCalendarReader.getMoonDeclination januaryCalendar (Tm.midnight 2027 1 1) =
      some januaryFirst.declination ∧
    MoonCalendarReader.getMoonDeclination januaryCalendar (Tm.midnight 2027 1 1) ≠
      some januarySecond.declination := by
  have h1 : MoonCalendarReader.getMoonDeclination januaryCalendar (Tm.midnight 2025 12 31) =
      some januarySecond.declination := by
    simp only [MoonCalendarReader.getMoonDeclination, januaryCalendar, januaryFirst,
      januarySecond, MoonCalendarReader.getMoonDeclinationFrom, dateToDayOfYear_jan1,
      dateToDayOfYear_jan2, dateToDayOfYear_dec31_2025]
    norm_num
  have h2 : MoonCalendarReader.getMoonDeclination januaryCalendar (Tm.midnight 2027 1 1) =
      some januaryFirst.declination := by
    simp only [MoonCalendarReader.getMoonDeclination, januaryCalendar, januaryFirst,
      januarySecond, MoonCalendarReader.getMoonDeclinationFrom, dateToDayOfYear_jan1,
      dateToDayOfYear_jan2]
    norm_num
  refine ⟨rfl, rfl, ?_, ?_, ?_, h1, ?_, h2, ?_⟩
  · simp [januaryFirst, januarySecond, Tm.before, Tm.midnight]
  · simp [januaryFirst, Tm.before, Tm.midnight]
  · simp [januarySecond, Tm.before, Tm.midnight]
  · rw [h1]
    simp [januaryFirst, januarySecond]
  · rw [h2]
    simp [januaryFirst, januarySecond]

/-- C29. For linear antennas at both ends and every successful `calculate`, with
`Phi_up` and `Phi_down` the sum of the parallactic angle and the reported Faraday
rotation of the DX and of the Home leg: `PLF = cos^2 (psi_Home - psi_DX - Phi_up -
Phi_down)` when the reflection is not included and `PLF = cos^2 (psi_Home + psi_DX +
Phi_up - Phi_down)` when it is, whatever `includeSpatialRotation` is. -/
theorem calculate_PLF_linear (fmt : ℝ → String) (now : ℤ) (s : FaradayRotation)
    (h : (calculate fmt now s).1.calculationSuccess = true)
    (hD : s.m_dxSite.chi = 0) (hH : s.m_homeSite.chi = 0) :
    (s.m_config.includeMoonReflection = false →
      (calculate fmt now s).1.PLF =
        Real.cos (s.m_homeSite.psi - s.m_dxSite.psi -
          (calculateParallacticAngle s.m_dxSite.latitude s.m_moonEphem.declination
              s.m_moonEphem.hourAngle_DX +
            deg2rad (calculate fmt now s).1.faradayRotation_DX_deg) -
          (calculateParallacticAngle s.m_homeSite.latitude s.m_moonEphem.declination
              s.m_moonEphem.hourAngle_Home +
            deg2rad (calculate fmt now s).1.faradayRotation_Home_deg)) ^ 2) ∧
    (s.m_config.includeMoonReflection = true →
      (calculate fmt now s).1.PLF =
        Real.cos (s.m_homeSite.psi + s.m_dxSite.psi +
          (calculateParallacticAngle s.m_dxSite.latitude s.m_moonEphem.declination
              s.m_moonEphem.hourAngle_DX +
            deg2rad (calculate fmt now s).1.faradayRotation_DX_deg) -
          (calculateParallacticAngle s.m_homeSite.latitude s.m_moonEphem.declination
              s.m_moonEphem.hourAngle_Home +
            deg2rad (calculate fmt now s).1.faradayRotation_Home_deg)) ^ 2) := by
  obtain ⟨hv, hb⟩ := (calculate_success_iff fmt now s).1 h
  rw [calculate_of_pass fmt now s hv hb]
  simp only [deg2rad_rad2deg]
  exact ⟨fun hM => linkPLF_linear_direct s hD hH hM,
    fun hM => linkPLF_linear_reflection s hD hH hM⟩

/-- C29 at the default calculator, whose antennas are linear and whose reflection
is included. -/
theorem calculate_PLF_linear_witness :
    (calculate (fun _ => "") 0 FaradayRotation.new).1.calculationSuccess = true ∧
    FaradayRotation.new.m_dxSite.chi = 0 ∧ FaradayRotation.new.m_homeSite.chi = 0 ∧
    (calculate (fun _ => "") 0 FaradayRotation.new).1.PLF =
      Real.cos (FaradayRotation.new.m_homeSite.psi + FaradayRotation.new.m_dxSite.psi +
        (calculateParallacticAngle FaradayRotation.new.m_dxSite.latitude
            FaradayRotation.new.m_moonEphem.declination
            FaradayRotation.new.m_moonEphem.hourAngle_DX +
          deg2rad (calculate (fun _ => "") 0 FaradayRotation.new).1.faradayRotation_DX_deg) -
        (calculateParallacticAngle FaradayRotation.new.m_homeSite.latitude
            FaradayRotation.new.m_moonEphem.declination
            FaradayRotation.new.m_moonEphem.hourAngle_Home +
          deg2rad (calculate (fun _ => "") 0 FaradayRotation.new).1.faradayRotation_Home_deg))
        ^ 2 :=
  ⟨new_success _ _, by norm_num [FaradayRotation.new, SiteParameters.new],
    by norm_num [FaradayRotation.new, SiteParameters.new],
    (calculate_PLF_linear (fun _ => "") 0 FaradayRotation.new (new_success _ _)
      (by norm_num [FaradayRotation.new, SiteParameters.new])
      (by norm_num [FaradayRotation.new, SiteParameters.new])).2 rfl⟩

/-- C31 as amended. Once an elevation field of the stored moon state is not `0`, a
`calculate`, any calls of the setters other than `setMoonEphemeris` (whether they
return or raise) and a second `calculate` leave the stored moon state, and so the
two elevations and the two azimuths, as they were; the two records hold the same
slant factors whenever they hold the same `calculationSuccess`; and
`setMoonEphemeris` replaces the moon state. -/
theorem calculate_keeps_cached_moon (fmt : ℝ → String) (now now' : ℤ) (s : FaradayRotation)
    (calls : List SetterCall)
    (h : s.m_moonEphem.elevation_DX ≠ 0 ∨ s.m_moonEphem.elevation_Home ≠ 0) :
    (calculate fmt now' (calls.foldl SetterCall.run (calculate fmt now s).2)).2.m_moonEphem =
      s.m_moonEphem ∧
    ((calculate fmt now' (calls.foldl SetterCall.run (calculate fmt now s).2)).1.calculationSuccess
        = (calculate fmt now s).1.calculationSuccess →
      (calculate fmt now' (calls.foldl SetterCall.run (calculate fmt now s).2)).1.slantFactor_DX
        = (calculate fmt now s).1.slantFactor_DX ∧
      (calculate fmt now' (calls.foldl SetterCall.run (calculate fmt now s).2)).1.slantFactor_Home
        = (calculate fmt now s).1.slantFactor_Home) ∧
    (∀ (t : FaradayRotation) (moon : MoonEphemeris),
      (setMoonEphemeris t moon).m_moonEphem = moon) := by
  have e1 := calculate_moonEphem_of_set fmt now s h
  have e2 : (calls.foldl SetterCall.run (calculate fmt now s).2).m_moonEphem = s.m_moonEphem := by
    rw [foldl_run_moonEphem, e1]
  have h2 : (calls.foldl SetterCall.run (calculate fmt now s).2).m_moonEphem.elevation_DX ≠ 0 ∨
      (calls.foldl SetterCall.run (calculate fmt now s).2).m_moonEphem.elevation_Home ≠ 0 := by
    rw [e2]
    exact h
  refine ⟨?_, ?_, fun _ _ => rfl⟩
  · rw [calculate_moonEphem_of_set fmt now' _ h2, e2]
  · intro hs
    obtain ⟨a1, a2⟩ := calculate_slantFactor fmt now s
    obtain ⟨b1, b2⟩ := calculate_slantFactor fmt now'
      (calls.foldl SetterCall.run (calculate fmt now s).2)
    rw [a1, a2, b1, b2, hs, calculateMoonElevation_of_set _ h2, calculateMoonElevation_of_set _ h,
      e2]
    exact ⟨rfl, rfl⟩

/-- C31 as amended, at `lowMoonCalculator` with a call of `setDXStation` on a site. -/
theorem calculate_keeps_cached_moon_witness :
    (lowMoonCalculator.m_moonEphem.elevation_DX ≠ 0 ∨
      lowMoonCalculator.m_moonEphem.elevation_Home ≠ 0) ∧
    (calculate (fun _ => "") 1 ([SetterCall.setDXStationSite SiteParameters.new].foldl
      SetterCall.run (calculate (fun _ => "") 0 lowMoonCalculator).2)).2.m_moonEphem =
      lowMoonCalculator.m_moonEphem :=
  ⟨lowMoonCalculator_set,
    (calculate_keeps_cached_moon (fun _ => "") 0 1 lowMoonCalculator
      [SetterCall.setDXStationSite SiteParameters.new] lowMoonCalculator_set).1⟩

/-- C31 as stated fails at `lowMoonCalculator`: an elevation field is not `0`, the first
`calculate` succeeds, `setConfiguration` with frequency `0` and a second `calculate`
leave the moon state as it was, but the second record is that of a validation
failure and holds the slant factor `1` for the DX station, which the first record
does not. -/
theorem calculate_slantFactor_reset_on_failure :
    (lowMoonCalculator.m_moonEphem.elevation_DX ≠ 0 ∨
      lowMoonCalculator.m_moonEphem.elevation_Home ≠ 0) ∧
    (calculate (fun _ => "") 0 lowMoonCalculator).1.calculationSuccess = true ∧
    (calculate (fun _ => "") 1 (setConfiguration (calculate (fun _ => "") 0 lowMoonCalculator).2
      { SystemConfiguration.new with frequency_MHz := 0 })).2.m_moonEphem =
        lowMoonCalculator.m_moonEphem ∧
    (calculate (fun _ => "") 1 (setConfiguration (calculate (fun _ => "") 0 lowMoonCalculator).2
      { SystemConfiguration.new with frequency_MHz := 0 })).1.slantFactor_DX = 1 ∧
    (calculate (fun _ => "") 0 lowMoonCalculator).1.slantFactor_DX ≠ 1 := by
  have hs := lowMoonCalculator_success (fun _ => "") 0
  have e1 := calculate_moonEphem_of_set (fun _ => "") 0 lowMoonCalculator lowMoonCalculator_set
  have hv : (validateParameters (fun _ => "") (setConfiguration
      (calculate (fun _ => "") 0 lowMoonCalculator).2
      { SystemConfiguration.new with frequency_MHz := 0 })).1 = false := by
    rw [← Bool.not_eq_true, validateParameters_iff]
    simp [setConfiguration]
  refine ⟨lowMoonCalculator_set, hs, ?_, ?_, ?_⟩
  · rw [calculate_moonEphem_of_set]
    · exact e1
    · show (calculate (fun _ => "") 0 lowMoonCalculator).2.m_moonEphem.elevation_DX ≠ 0 ∨
        (calculate (fun _ => "") 0 lowMoonCalculator).2.m_moonEphem.elevation_Home ≠ 0
      rw [e1]
      exact lowMoonCalculator_set
  · rw [calculate_of_invalid _ _ _ hv]
    norm_num [CalculationResults.new]
  · rw [(calculate_slantFactor (fun _ => "") 0 lowMoonCalculator).1, if_pos hs,
      calculateMoonElevation_of_set _ lowMoonCalculator_set]
    have : lowMoonCalculator.m_moonEphem.elevation_DX = 0 := by
      norm_num [lowMoonCalculator, MoonEphemeris.new]
    rw [this]
    exact calculateSlantFactor_zero_ne_one

/-- C32. Two states that differ only in `hmF2_DX` and `hmF2_Home` report the same
slant factors; on success each slant factor is the mapping factor of the stored
elevation at the shell height 350 km; with `includeFaradayRotation` set, the reported
Faraday rotation of a site, in radians, is `(0.23647 / f^2) * vTEC * M * B_proj (nT)`
with `M` the mapping factor at the `hmF2` of that site, and it is that product with
the reported slant factor in place of `M` when the `hmF2` of the site is 350. -/
theorem calculate_slantFactor_fixed_height (fmt : ℝ → String) (now : ℤ) (s : FaradayRotation)
    (hmF2_DX hmF2_Home : ℝ) :
    ((calculate fmt now { s with m_ionoData :=
        { s.m_ionoData with hmF2_DX := hmF2_DX, hmF2_Home := hmF2_Home } }).1.slantFactor_DX =
      (calculate fmt now s).1.slantFactor_DX ∧
     (calculate fmt now { s with m_ionoData :=
        { s.m_ionoData with hmF2_DX := hmF2_DX, hmF2_Home := hmF2_Home } }).1.slantFactor_Home =
      (calculate fmt now s).1.slantFactor_Home) ∧
    ((calculate fmt now s).1.calculationSuccess = true →
      (calculate fmt now s).1.slantFactor_DX =
        IonospherePhysics.calculateMappingFunction
          (calculate fmt now s).2.m_moonEphem.elevation_DX 350 6371 ∧
      (calculate fmt now s).1.slantFactor_Home =
        IonospherePhysics.calculateMappingFunction
          (calculate fmt now s).2.m_moonEphem.elevation_Home 350 6371) ∧
    ((calculate fmt now s).1.calculationSuccess = true →
      s.m_config.includeFaradayRotation = true →
      deg2rad (calculate fmt now s).1.faradayRotation_DX_deg =
        (0.23647 / s.m_config.frequency_MHz ^ 2) * s.m_ionoData.vTEC_DX *
          IonospherePhysics.calculateMappingFunction
            (calculate fmt now s).2.m_moonEphem.elevation_DX s.m_ionoData.hmF2_DX 6371 *
          (IonospherePhysics.calculateMagneticFieldProjection s.m_ionoData.B_magnitude_DX
            s.m_ionoData.B_inclination_DX s.m_ionoData.B_declination_DX
            (calculate fmt now s).2.m_moonEphem.elevation_DX
            (calculate fmt now s).2.m_moonEphem.azimuth_DX * 1e9) ∧
      deg2rad (calculate fmt now s).1.faradayRotation_Home_deg =
        (0.23647 / s.m_config.frequency_MHz ^ 2) * s.m_ionoData.vTEC_Home *
          IonospherePhysics.calculateMappingFunction
            (calculate fmt now s).2.m_moonEphem.elevation_Home s.m_ionoData.hmF2_Home 6371 *
          (IonospherePhysics.calculateMagneticFieldProjection s.m_ionoData.B_magnitude_Home
            s.m_ionoData.B_inclination_Home s.m_ionoData.B_declination_Home
            (calculate fmt now s).2.m_moonEphem.elevation_Home
            (calculate fmt now s).2.m_moonEphem.azimuth_Home * 1e9)) ∧
    ((calculate fmt now s).1.calculationSuccess = true →
      s.m_config.includeFaradayRotation = true →
      (s.m_ionoData.hmF2_DX = 350 →
        deg2rad (calculate fmt now s).1.faradayRotation_DX_deg =
          (0.23647 / s.m_config.frequency_MHz ^ 2) * s.m_ionoData.vTEC_DX *
            (calculate fmt now s).1.slantFactor_DX *
            (IonospherePhysics.calculateMagneticFieldProjection s.m_ionoData.B_magnitude_DX
              s.m_ionoData.B_inclination_DX s.m_ionoData.B_declination_DX
              (calculate fmt now s).2.m_moonEphem.elevation_DX
              (calculate fmt now s).2.m_moonEphem.azimuth_DX * 1e9)) ∧
      (s.m_ionoData.hmF2_Home = 350 →
        deg2rad (calculate fmt now s).1.faradayRotation_Home_deg =
          (0.23647 / s.m_config.frequency_MHz ^ 2) * s.m_ionoData.vTEC_Home *
            (calculate fmt now s).1.slantFactor_Home *
            (IonospherePhysics.calculateMagneticFieldProjection s.m_ionoData.B_magnitude_Home
              s.m_ionoData.B_inclination_Home s.m_ionoData.B_declination_Home
              (calculate fmt now s).2.m_moonEphem.elevation_Home
              (calculate fmt now s).2.m_moonEphem.azimuth_Home * 1e9))) := by
  have key : ∀ h : (calculate fmt now s).1.calculationSuccess = true,
      (calculate fmt now s).2.m_moonEphem = (calculateMoonElevation s).m_moonEphem ∧
      (calculate fmt now s).1.slantFactor_DX =
        calculateSlantFactor (calculateMoonElevation s).m_moonEphem.elevation_DX ∧
      (calculate fmt now s).1.slantFactor_Home =
        calculateSlantFactor (calculateMoonElevation s).m_moonEphem.elevation_Home ∧
      (calculate fmt now s).1.faradayRotation_DX_deg = rad2deg (omegaDX s) ∧
      (calculate fmt now s).1.faradayRotation_Home_deg = rad2deg (omegaHome s) := by
    intro h
    obtain ⟨hv, hb⟩ := (calculate_success_iff fmt now s).1 h
    rw [calculate_snd_of_valid fmt now s hv, calculate_of_pass fmt now s hv hb]
    exact ⟨rfl, rfl, rfl, rfl, rfl⟩
  refine ⟨?_, ?_, ?_, ?_⟩
  · obtain ⟨a1, a2⟩ := calculate_slantFactor fmt now s
    obtain ⟨b1, b2⟩ := calculate_slantFactor fmt now { s with m_ionoData :=
      { s.m_ionoData with hmF2_DX := hmF2_DX, hmF2_Home := hmF2_Home } }
    rw [a1, a2, b1, b2, calculate_success_hmF2, calculateMoonElevation_ionoData]
    exact ⟨rfl, rfl⟩
  · intro h
    obtain ⟨k0, k1, k2, _, _⟩ := key h
    rw [k0, k1, k2, calculateSlantFactor_eq_mapping, calculateSlantFactor_eq_mapping]
    exact ⟨rfl, rfl⟩
  · intro h hF
    obtain ⟨k0, _, _, k3, k4⟩ := key h
    rw [k0, k3, k4, deg2rad_rad2deg, deg2rad_rad2deg]
    simp only [omegaDX, omegaHome, hF, if_true, calculateFaradayRotationPrecise_eq]
    constructor <;> ring
  · intro h hF
    obtain ⟨k0, k1, k2, k3, k4⟩ := key h
    rw [k0, k1, k2, k3, k4, deg2rad_rad2deg, deg2rad_rad2deg, calculateSlantFactor_eq_mapping,
      calculateSlantFactor_eq_mapping]
    simp only [omegaDX, omegaHome, hF, if_true, calculateFaradayRotationPrecise_eq]
    constructor <;> intro h3 <;> rw [h3] <;> ring

/-- C33. For a positive Earth radius and a positive `hmF2`, at every elevation the
divisor `cos chi` of `calculateMappingFunction` is positive and the factor lies
between `1` and `(earthRadius + hmF2) / sqrt (hmF2 * (2 * earthRadius + hmF2))`, a
bound that is attained at elevation `0` and is within 0.01 of 3.14 for 6371 km and
350 km. -/
theorem calculateMappingFunction_bounds (elevation hmF2 earthRadius : ℝ)
    (hR : 0 < earthRadius) (hh : 0 < hmF2) :
    0 < Real.cos (Real.arcsin
      (max (-1) (min 1 (earthRadius * Real.cos elevation / (earthRadius + hmF2))))) ∧
    1 ≤ IonospherePhysics.calculateMappingFunction elevation hmF2 earthRadius ∧
    IonospherePhysics.calculateMappingFunction elevation hmF2 earthRadius ≤
      (earthRadius + hmF2) / √(hmF2 * (2 * earthRadius + hmF2)) ∧
    IonospherePhysics.calculateMappingFunction 0 hmF2 earthRadius =
      (earthRadius + hmF2) / √(hmF2 * (2 * earthRadius + hmF2)) ∧
    |(6371 + 350 : ℝ) / √(350 * (2 * 6371 + 350)) - 3.14| ≤ 0.01 := by
  obtain ⟨c1, c2, c3⟩ := cos_chi_bounds elevation hmF2 earthRadius hR hh
  have hp : 0 < earthRadius + hmF2 := by linarith
  have hs : 0 < √(hmF2 * (2 * earthRadius + hmF2)) := Real.sqrt_pos.2 (by positivity)
  have hc : 0 < Real.cos (Real.arcsin
      (earthRadius * Real.cos elevation / (earthRadius + hmF2))) := lt_of_lt_of_le c3 c1
  refine ⟨?_, ?_, ?_, ?_, shell_bound_default⟩
  · rw [clamp_sinChi elevation hmF2 earthRadius hR hh]
    exact hc
  · by_cases he : elevation < 0
    · rw [calculateMappingFunction_of_neg elevation hmF2 earthRadius he]
    · rw [calculateMappingFunction_of_nonneg elevation hmF2 earthRadius hR hh (not_lt.1 he),
        le_div_iff₀ hc, one_mul]
      exact c2
  · by_cases he : elevation < 0
    · rw [calculateMappingFunction_of_neg elevation hmF2 earthRadius he]
      exact shell_bound_ge_one hmF2 earthRadius hR hh
    · rw [calculateMappingFunction_of_nonneg elevation hmF2 earthRadius hR hh (not_lt.1 he),
        div_le_div_iff₀ hc hs]
      have := (div_le_iff₀ hp).1 c1
      linarith
  · rw [calculateMappingFunction_of_nonneg 0 hmF2 earthRadius hR hh le_rfl, Real.cos_zero,
      mul_one, Real.cos_arcsin, shell_sqrt hmF2 earthRadius hR hh, one_div, inv_div]

/-- C33 at elevation `0`, Earth radius 6371 km and `hmF2` 350 km. -/
theorem calculateMappingFunction_bounds_witness :
    (0 : ℝ) < 6371 ∧ (0 : ℝ) < 350 ∧
    1 ≤ IonospherePhysics.calculateMappingFunction 0 350 6371 ∧
    IonospherePhysics.calculateMappingFunction 0 350 6371 =
      (6371 + 350) / √(350 * (2 * 6371 + 350)) :=
  ⟨by norm_num, by norm_num,
    (calculateMappingFunction_bounds 0 350 6371 (by norm_num) (by norm_num)).2.1,
    (calculateMappingFunction_bounds 0 350 6371 (by norm_num) (by norm_num)).2.2.2.1⟩

/-- C34. The setters `setDXStation` and `setHomeStation` by coordinates raise exactly
when the coordinates in degrees are outside `[-90, 90]` or `[-180, 180]`; but on the
default calculator with latitude 2 radians they raise after the latitude, the
longitude, `psi` and `chi` have been stored, so that only the locator of the site is
what it was before the call. -/
theorem setDXStation_not_atomic :
    (∀ (s : FaradayRotation) (latitude longitude psi chi : ℝ),
      ((∃ e, setDXStation s latitude longitude psi chi = Except.error e) ↔
        (rad2deg latitude < -90 ∨ rad2deg latitude > 90 ∨
          rad2deg longitude < -180 ∨ rad2deg longitude > 180)) ∧
      ((∃ e, setHomeStation s latitude longitude psi chi = Except.error e) ↔
        (rad2deg latitude < -90 ∨ rad2deg latitude > 90 ∨
          rad2deg longitude < -180 ∨ rad2deg longitude > 180))) ∧
    (∃ s', setDXStation FaradayRotation.new 2 1 0.5 0.25 =
        Except.error ("Latitude must be between -90 and 90", s') ∧
      s'.m_dxSite.latitude = 2 ∧ s'.m_dxSite.longitude = 1 ∧
      s'.m_dxSite.psi = 0.5 ∧ s'.m_dxSite.chi = 0.25 ∧
      s'.m_dxSite.gridLocator = FaradayRotation.new.m_dxSite.gridLocator ∧
      FaradayRotation.new.m_dxSite.latitude = 0 ∧ s'.m_dxSite ≠ FaradayRotation.new.m_dxSite) ∧
    (∃ s', setHomeStation FaradayRotation.new 2 1 0.5 0.25 =
        Except.error ("Latitude must be between -90 and 90", s') ∧
      s'.m_homeSite.latitude = 2 ∧ FaradayRotation.new.m_homeSite.latitude = 0 ∧
      s'.m_homeSite ≠ FaradayRotation.new.m_homeSite) := by
  have z0 : (0.0 : ℝ) = 0 := by norm_num
  refine ⟨fun s latitude longitude psi chi =>
    ⟨setDXStation_error_iff s latitude longitude psi chi,
      setHomeStation_error_iff s latitude longitude psi chi⟩, ?_, ?_⟩
  · simp only [setDXStation, latLonToGrid_rad2deg_two]
    refine ⟨_, rfl, rfl, rfl, rfl, rfl, rfl, ?_, ?_⟩
    · simp [FaradayRotation.new, SiteParameters.new, z0]
    · intro h
      have h2 := congrArg SiteParameters.latitude h
      simp [FaradayRotation.new, SiteParameters.new, z0] at h2
  · simp only [setHomeStation, latLonToGrid_rad2deg_two]
    refine ⟨_, rfl, rfl, ?_, ?_⟩
    · simp [FaradayRotation.new, SiteParameters.new, z0]
    · intro h
      have h2 := congrArg SiteParameters.latitude h
      simp [FaradayRotation.new, SiteParameters.new, z0] at h2

/-- C35. For a field magnitude `B ≥ 0` the projection of the field on the ray is at
most `B` in absolute value, and for `vTEC ≥ 0` and `f > 0` the Faraday rotation is
at most `(0.23647 / f^2) * vTEC * mappingFactor * B * 1e9` in absolute value. -/
theorem faradayRotation_abs_le (vTEC hmF2 B I D e a f : ℝ) (hB : 0 ≤ B) :
    |IonospherePhysics.calculateMagneticFieldProjection B I D e a| ≤ B ∧
    (0 ≤ vTEC → 0 < f →
      |IonospherePhysics.calculateFaradayRotationPrecise vTEC hmF2 B I D e a f| ≤
        (0.23647 / f ^ 2) * vTEC *
          IonospherePhysics.calculateMappingFunction e hmF2 6371 * B * 1e9) := by
  have hp := calculateMagneticFieldProjection_abs_le B I D e a hB
  refine ⟨hp, fun hv hf => ?_⟩
  have hM := calculateMappingFunction_nonneg e hmF2 6371
  rw [calculateFaradayRotationPrecise_eq]
  have hc : (0 : ℝ) ≤ 0.23647 / f ^ 2 := by positivity
  rw [abs_mul, abs_mul, abs_mul, abs_mul, abs_of_nonneg hc, abs_of_nonneg hv, abs_of_nonneg hM,
    abs_of_nonneg (by norm_num : (0 : ℝ) ≤ 1e9)]
  have h1 : 0 ≤ 0.23647 / f ^ 2 * (vTEC *
      IonospherePhysics.calculateMappingFunction e hmF2 6371) := by positivity
  calc 0.23647 / f ^ 2 * (vTEC * IonospherePhysics.calculateMappingFunction e hmF2 6371) *
        (1e9 * |IonospherePhysics.calculateMagneticFieldProjection B I D e a|)
      ≤ 0.23647 / f ^ 2 * (vTEC * IonospherePhysics.calculateMappingFunction e hmF2 6371) *
        (1e9 * B) := by
        apply mul_le_mul_of_nonneg_left _ h1
        linarith
    _ = _ := by ring

/-- C35 at the field magnitude `5e-5` with all angles `0`. -/
theorem faradayRotation_abs_le_witness :
    (0 : ℝ) ≤ 5e-5 ∧
    |IonospherePhysics.calculateMagneticFieldProjection 5e-5 0 0 0 0| ≤ 5e-5 :=
  ⟨by norm_num, (faradayRotation_abs_le 20 350 5e-5 0 0 0 0 144 (by norm_num)).1⟩

/-- C36. For a header with non-zero `dlat` and `dlon`, a point inside the grid and a
map whose four nodes around the point are not the sentinel 9999,
`bilinearInterpolate` returns the combination of the four node values with the
fractional parts of the row and column coordinates as weights; the weights lie in
`[0, 1)`, the value lies between the least and the greatest of the four node values,
and at a node of the grid it is the value stored at the node. -/
theorem bilinearInterpolate_convex (r : IonexReader) (data : List (List ℝ)) (lat lon : ℝ)
    (hdlat : r.m_header.dlat ≠ 0) (hdlon : r.m_header.dlon ≠ 0)
    (hlat : 0 ≤ r.latNorm lat ∧ r.latNorm lat ≤ (r.m_header.numLat : ℝ) - 1)
    (hlon : 0 ≤ r.lonNorm lon ∧ r.lonNorm lon ≤ (r.m_header.numLon : ℝ) - 1)
    (hv : Cpp.index2 data ⌊r.latNorm lat⌋ ⌊r.lonNorm lon⌋ ≠ 9999 ∧
      Cpp.index2 data ⌊r.latNorm lat⌋ (min (⌊r.lonNorm lon⌋ + 1) (r.m_header.numLon - 1))
        ≠ 9999 ∧
      Cpp.index2 data (min (⌊r.latNorm lat⌋ + 1) (r.m_header.numLat - 1)) ⌊r.lonNorm lon⌋
        ≠ 9999 ∧
      Cpp.index2 data (min (⌊r.latNorm lat⌋ + 1) (r.m_header.numLat - 1))
        (min (⌊r.lonNorm lon⌋ + 1) (r.m_header.numLon - 1)) ≠ 9999) :
    r.bilinearInterpolate data lat lon =
      (Cpp.index2 data ⌊r.latNorm lat⌋ ⌊r.lonNorm lon⌋ * (1 - Int.fract (r.lonNorm lon)) +
        Cpp.index2 data ⌊r.latNorm lat⌋
          (min (⌊r.lonNorm lon⌋ + 1) (r.m_header.numLon - 1)) * Int.fract (r.lonNorm lon)) *
        (1 - Int.fract (r.latNorm lat)) +
      (Cpp.index2 data (min (⌊r.latNorm lat⌋ + 1) (r.m_header.numLat - 1)) ⌊r.lonNorm lon⌋ *
          (1 - Int.fract (r.lonNorm lon)) +
        Cpp.index2 data (min (⌊r.latNorm lat⌋ + 1) (r.m_header.numLat - 1))
          (min (⌊r.lonNorm lon⌋ + 1) (r.m_header.numLon - 1)) * Int.fract (r.lonNorm lon)) *
        Int.fract (r.latNorm lat) ∧
    (0 ≤ Int.fract (r.latNorm lat) ∧ Int.fract (r.latNorm lat) < 1 ∧
      0 ≤ Int.fract (r.lonNorm lon) ∧ Int.fract (r.lonNorm lon) < 1) ∧
    min (min (Cpp.index2 data ⌊r.latNorm lat⌋ ⌊r.lonNorm lon⌋)
        (Cpp.index2 data ⌊r.latNorm lat⌋ (min (⌊r.lonNorm lon⌋ + 1) (r.m_header.numLon - 1))))
      (min (Cpp.index2 data (min (⌊r.latNorm lat⌋ + 1) (r.m_header.numLat - 1))
          ⌊r.lonNorm lon⌋)
        (Cpp.index2 data (min (⌊r.latNorm lat⌋ + 1) (r.m_header.numLat - 1))
          (min (⌊r.lonNorm lon⌋ + 1) (r.m_header.numLon - 1)))) ≤
      r.bilinearInterpolate data lat lon ∧
    r.bilinearInterpolate data lat lon ≤
      max (max (Cpp.index2 data ⌊r.latNorm lat⌋ ⌊r.lonNorm lon⌋)
        (Cpp.index2 data ⌊r.latNorm lat⌋ (min (⌊r.lonNorm lon⌋ + 1) (r.m_header.numLon - 1))))
      (max (Cpp.index2 data (min (⌊r.latNorm lat⌋ + 1) (r.m_header.numLat - 1))
          ⌊r.lonNorm lon⌋)
        (Cpp.index2 data (min (⌊r.latNorm lat⌋ + 1) (r.m_header.numLat - 1))
          (min (⌊r.lonNorm lon⌋ + 1) (r.m_header.numLon - 1)))) ∧
    (∀ i j : ℤ, lat = r.indexToLat i → lon = r.indexToLon j →
      r.bilinearInterpolate data lat lon = Cpp.index2 data i j) := by
  have e := bilinearInterpolate_eq r data lat lon hlat hlon hv
  have fa0 := Int.fract_nonneg (r.latNorm lat)
  have fa1 := Int.fract_lt_one (r.latNorm lat)
  have fb0 := Int.fract_nonneg (r.lonNorm lon)
  have fb1 := Int.fract_lt_one (r.lonNorm lon)
  refine ⟨e, ⟨fa0, fa1, fb0, fb1⟩, ?_, ?_, ?_⟩
  · rw [e]
    exact (bilinear_between _ _ _ _ _ _ fa0 fa1.le fb0 fb1.le).1
  · rw [e]
    exact (bilinear_between _ _ _ _ _ _ fa0 fa1.le fb0 fb1.le).2
  · intro i j hi hj
    have ni := latNorm_indexToLat r i hdlat
    have nj := lonNorm_indexToLon r j hdlon
    rw [e, hi, hj, ni, nj, Int.fract_intCast, Int.fract_intCast, Int.floor_intCast,
      Int.floor_intCast]
    ring

/-- C36 at the node of row 0 and column 0 of `unitGridData`. -/
theorem bilinearInterpolate_convex_witness :
    unitGridReader.bilinearInterpolate unitGridData 0 0 = 1 := by
  have h := (bilinearInterpolate_convex unitGridReader unitGridData 0 0
    (by simp [unitGridReader]) (by simp [unitGridReader])
    (by rw [unitGrid_norm.1]; norm_num [unitGridReader])
    (by rw [unitGrid_norm.2]; norm_num [unitGridReader])
    (by
      rw [unitGrid_norm.1, unitGrid_norm.2]
      norm_num [unitGridReader, unitGridData, Cpp.index2])).2.2.2.2 0 0
    (by simp [IonexReader.indexToLat, unitGridReader])
    (by simp [IonexReader.indexToLon, unitGridReader])
  rw [h]
  simp [Cpp.index2, unitGridData]

/-- C37. For a non-empty index of maps, in increasing order of the epochs,
`findClosestMaps` succeeds; it returns the target twice when a map has the epoch of
the target, the greatest epoch below and the least epoch above the target when the
target lies strictly between two maps, and the first or the last epoch twice when
the target is before or after all maps. When the two maps load with values other
than the sentinel, `getTecValueInterpolated` returns the value of the one map when
the epochs are equal and `v1 + (target - t1) / (t2 - t1) * (v2 - v1)` otherwise,
which lies between `v1` and `v2` when `t1 < target < t2`. -/
theorem findClosestMaps_brackets (r : IonexReader) (mktime : Tm → ℤ)
    (loadTecMap : ℤ → Option TecMap) (time : Tm) (lat lon : ℝ)
    (hs : r.m_mapPositions.Pairwise (fun a b => a.1 < b.1)) (hne : r.m_mapPositions ≠ []) :
    (∃ t1 t2, r.findClosestMaps mktime time = some (t1, t2)) ∧
    ((∃ p ∈ r.m_mapPositions, p.1 = IonexReader.tmToTime mktime time) →
      r.findClosestMaps mktime time =
        some (IonexReader.tmToTime mktime time, IonexReader.tmToTime mktime time)) ∧
    ((∃ p ∈ r.m_mapPositions, p.1 < IonexReader.tmToTime mktime time) →
      (∃ q ∈ r.m_mapPositions, IonexReader.tmToTime mktime time < q.1) →
      (∀ p ∈ r.m_mapPositions, p.1 ≠ IonexReader.tmToTime mktime time) →
      ∃ t1 t2, r.findClosestMaps mktime time = some (t1, t2) ∧
        t1 < IonexReader.tmToTime mktime time ∧ IonexReader.tmToTime mktime time < t2 ∧
        (∃ p ∈ r.m_mapPositions, p.1 = t1) ∧ (∃ q ∈ r.m_mapPositions, q.1 = t2) ∧
        ∀ p ∈ r.m_mapPositions, p.1 ≤ t1 ∨ t2 ≤ p.1) ∧
    ((∀ p ∈ r.m_mapPositions, IonexReader.tmToTime mktime time < p.1) →
      ∀ x, r.m_mapPositions.head? = some x →
        r.findClosestMaps mktime time = some (x.1, x.1)) ∧
    ((∀ p ∈ r.m_mapPositions, p.1 < IonexReader.tmToTime mktime time) →
      ∀ x, r.m_mapPositions.getLast? = some x →
        r.findClosestMaps mktime time = some (x.1, x.1)) ∧
    (∀ (t1 t2 : ℤ) (map1 map2 : TecMap),
      r.findClosestMaps mktime time = some (t1, t2) → r.m_isOpen = true →
      loadTecMap (r.positionAt t1) = some map1 → loadTecMap (r.positionAt t2) = some map2 →
      r.bilinearInterpolate map1.data lat lon ≠ 9999 →
      r.bilinearInterpolate map2.data lat lon ≠ 9999 →
      (t1 = t2 → r.getTecValueInterpolated mktime true loadTecMap time lat lon =
        some (r.bilinearInterpolate map1.data lat lon)) ∧
      (t1 ≠ t2 → r.getTecValueInterpolated mktime true loadTecMap time lat lon =
        some (r.bilinearInterpolate map1.data lat lon +
          ((IonexReader.tmToTime mktime time - t1 : ℤ) : ℝ) / ((t2 - t1 : ℤ) : ℝ) *
            (r.bilinearInterpolate map2.data lat lon -
              r.bilinearInterpolate map1.data lat lon))) ∧
      (t1 < IonexReader.tmToTime mktime time → IonexReader.tmToTime mktime time < t2 →
        min (r.bilinearInterpolate map1.data lat lon)
            (r.bilinearInterpolate map2.data lat lon) ≤
          r.bilinearInterpolate map1.data lat lon +
            ((IonexReader.tmToTime mktime time - t1 : ℤ) : ℝ) / ((t2 - t1 : ℤ) : ℝ) *
              (r.bilinearInterpolate map2.data lat lon -
                r.bilinearInterpolate map1.data lat lon) ∧
        r.bilinearInterpolate map1.data lat lon +
            ((IonexReader.tmToTime mktime time - t1 : ℤ) : ℝ) / ((t2 - t1 : ℤ) : ℝ) *
              (r.bilinearInterpolate map2.data lat lon -
                r.bilinearInterpolate map1.data lat lon) ≤
          max (r.bilinearInterpolate map1.data lat lon)
            (r.bilinearInterpolate map2.data lat lon))) := by
  have ht : IonexReader.tmToTime mktime time = mktime time := rfl
  rw [ht]
  have hc := findClosestMaps_cases r mktime time hs
  refine ⟨?_, ?_, ?_, ?_, ?_, ?_⟩
  · rcases hc with ⟨last, _, _, hf⟩ | ⟨hnil, _⟩ | ⟨x, _, _, hf⟩ | ⟨x, _, _, hf⟩ |
      ⟨b, _, x, _, _, _, _, hf⟩
    · exact ⟨_, _, hf⟩
    · exact absurd hnil hne
    · exact ⟨_, _, hf⟩
    · exact ⟨_, _, hf⟩
    · exact ⟨_, _, hf⟩
  · rintro ⟨p, hp, hpe⟩
    rcases hc with ⟨last, _, hall, _⟩ | ⟨hnil, _⟩ | ⟨x, _, hxe, hf⟩ | ⟨x, hh, hlt, _⟩ |
      ⟨b, _, x, _, hb, hx, hall, _⟩
    · have := hall p hp
      omega
    · exact absurd hnil hne
    · rw [hf, hxe]
    · have := (head_le_of_sorted _ hs x hh).2 p hp
      omega
    · rcases hall p hp with h | h <;> omega
  · rintro ⟨p, hp, hpl⟩ ⟨q, hq, hql⟩ hno
    rcases hc with ⟨last, _, hall, _⟩ | ⟨hnil, _⟩ | ⟨x, hxm, hxe, _⟩ | ⟨x, hh, hlt, _⟩ |
      ⟨b, hbm, x, hxm, hb, hx, hall, hf⟩
    · have := hall q hq
      omega
    · exact absurd hnil hne
    · exact absurd hxe (hno x hxm)
    · have := (head_le_of_sorted _ hs x hh).2 p hp
      omega
    · exact ⟨b.1, x.1, hf, hb, hx, ⟨b, hbm, rfl⟩, ⟨x, hxm, rfl⟩, hall⟩
  · intro hall' x hh
    have hxm := (head_le_of_sorted _ hs x hh).1
    rcases hc with ⟨last, _, hall, _⟩ | ⟨hnil, _⟩ | ⟨y, hym, hye, _⟩ | ⟨y, hh', _, hf⟩ |
      ⟨b, hbm, y, _, hb, _, _, _⟩
    · have h1 := hall x hxm
      have h2 := hall' x hxm
      omega
    · exact absurd hnil hne
    · have := hall' y hym
      omega
    · rw [hh] at hh'
      cases hh'
      exact hf
    · have := hall' b hbm
      omega
  · intro hall' x hl
    have hxm := (le_last_of_sorted _ hs x hl).1
    rcases hc with ⟨last, hl', _, hf⟩ | ⟨hnil, _⟩ | ⟨y, hym, hye, _⟩ | ⟨y, hh', hlt, _⟩ |
      ⟨b, _, y, hym, _, hy, _, _⟩
    · rw [hl] at hl'
      cases hl'
      exact hf
    · exact absurd hnil hne
    · have := hall' y hym
      omega
    · have := hall' y (head_le_of_sorted _ hs y hh').1
      omega
    · have := hall' y hym
      omega
  · intro t1 t2 map1 map2 hf ho h1 h2 v1 v2
    obtain ⟨g1, g2⟩ := getTecValueInterpolated_of_maps r mktime loadTecMap time lat lon t1 t2
      map1 map2 hf ho h1 h2 v1 v2
    exact ⟨g1, g2, fun a b => time_ratio_between t1 t2 (mktime time) _ _ a b⟩

/-- C37 at `unitGridReader`, with maps at the epochs 0 and 3600, and the target 1800. -/
theorem findClosestMaps_brackets_witness :
    unitGridReader.m_mapPositions.Pairwise (fun a b => a.1 < b.1) ∧
    unitGridReader.m_mapPositions ≠ [] ∧
    ∃ t1 t2, unitGridReader.findClosestMaps (fun _ => 1800) (Tm.midnight 2026 1 1) =
        some (t1, t2) ∧ t1 < 1800 ∧ 1800 < t2 := by
  have hs : unitGridReader.m_mapPositions.Pairwise (fun a b => a.1 < b.1) := by
    simp [unitGridReader]
  have hne : unitGridReader.m_mapPositions ≠ [] := by simp [unitGridReader]
  obtain ⟨t1, t2, h1, h2, h3, _⟩ :=
    (findClosestMaps_brackets unitGridReader (fun _ => 1800) (fun _ => none)
      (Tm.midnight 2026 1 1) 0 0 hs hne).2.2.1
      ⟨(0, 0), by simp [unitGridReader], by simp [IonexReader.tmToTime]⟩
      ⟨(3600, 100), by simp [unitGridReader], by simp [IonexReader.tmToTime]⟩
      (by simp [unitGridReader, IonexReader.tmToTime])
  exact ⟨hs, hne, t1, t2, h1, h2, h3⟩

/-- C38. A coefficient of degree `n` and order `m` with `0 ≤ m ≤ n ≤ 12` has its index
in `[0, 91)`; but `loadCoefficientFile` keeps the record of degree 12 and order 13,
whose index is 91, and `timeEvolveCoefficients` then writes outside the vectors of
91 elements. -/
theorem getIndex_out_of_bounds :
    (∀ n m : ℤ, 0 ≤ m → m ≤ n → n ≤ 12 →
      0 ≤ WMMModel.getIndex n m ∧ WMMModel.getIndex n m < 91) ∧
    (WMMModel.loadCoefficientFile WMMModel.new (some [orderThirteen])).1 = true ∧
    (WMMModel.loadCoefficientFile WMMModel.new (some [orderThirteen])).2.m_coefficients =
      [orderThirteen] ∧
    WMMModel.getIndex orderThirteen.n orderThirteen.m = 91 ∧
    WMMModel.timeEvolveCoefficients
      (WMMModel.loadCoefficientFile WMMModel.new (some [orderThirteen])).2 2025 = none := by
  have e1 : (WMMModel.loadCoefficientFile WMMModel.new (some [orderThirteen])).2.m_coefficients =
      [orderThirteen] := by
    simp [WMMModel.loadCoefficientFile, WMMConstants.MAX_DEGREE, orderThirteen]
  have e2 : WMMModel.getIndex orderThirteen.n orderThirteen.m = 91 := by
    simp [orderThirteen, getIndex_eq]
  refine ⟨getIndex_mem, ?_, e1, e2, ?_⟩
  · simp [WMMModel.loadCoefficientFile, WMMConstants.MAX_DEGREE, orderThirteen]
  · have e3 : Int.tdiv 182 2 = 91 := by decide
    simp only [WMMModel.timeEvolveCoefficients, e1, WMMModel.timeEvolveLoop, e2,
      WMMModel.assign, WMMConstants.MAX_DEGREE]
    simp [e3]

/-- C39 as amended. For a time with minute in `0..59` and hour in `0..23`: rounding
down gives second `0` and the latest minute that is a multiple of 5 and not after
the minute of the time, in the same hour; rounding up gives second `0` and a minute
that ends in 5, in a time that is not earlier than the time and at most 9 minutes
later, the hour and the day being carried. -/
theorem roundToNearest5Minutes_spec (time : Tm) (h0 : 0 ≤ time.tm_min)
    (h1 : time.tm_min ≤ 59) (h2 : 0 ≤ time.tm_hour) (h3 : time.tm_hour ≤ 23) :
    ((NOAAGlotecReader.roundToNearest5Minutes time true).tm_sec = 0 ∧
     (NOAAGlotecReader.roundToNearest5Minutes time true).tm_min % 5 = 0 ∧
     (NOAAGlotecReader.roundToNearest5Minutes time true).tm_min ≤ time.tm_min ∧
     time.tm_min < (NOAAGlotecReader.roundToNearest5Minutes time true).tm_min + 5 ∧
     (NOAAGlotecReader.roundToNearest5Minutes time true).tm_hour = time.tm_hour ∧
     (NOAAGlotecReader.roundToNearest5Minutes time true).tm_mday = time.tm_mday ∧
     (NOAAGlotecReader.roundToNearest5Minutes time true).tm_mon = time.tm_mon ∧
     (NOAAGlotecReader.roundToNearest5Minutes time true).tm_year = time.tm_year) ∧
    ((NOAAGlotecReader.roundToNearest5Minutes time false).tm_sec = 0 ∧
     (NOAAGlotecReader.roundToNearest5Minutes time false).tm_min % 10 = 5 ∧
     0 ≤ (NOAAGlotecReader.roundToNearest5Minutes time false).tm_min ∧
     (NOAAGlotecReader.roundToNearest5Minutes time false).tm_min ≤ 59 ∧
     0 ≤ (NOAAGlotecReader.roundToNearest5Minutes time false).tm_hour ∧
     (NOAAGlotecReader.roundToNearest5Minutes time false).tm_hour ≤ 23 ∧
     time.minuteOfMonth ≤ (NOAAGlotecReader.roundToNearest5Minutes time false).minuteOfMonth ∧
     (NOAAGlotecReader.roundToNearest5Minutes time false).minuteOfMonth ≤
       time.minuteOfMonth + 9) :=
  ⟨roundDown_spec time h0, roundUp_spec time h0 h1 h2 h3⟩

/-- C39 as amended, at `sixPastNoon`. -/
theorem roundToNearest5Minutes_spec_witness :
    (0 ≤ sixPastNoon.tm_min ∧ sixPastNoon.tm_min ≤ 59) ∧
    (0 ≤ sixPastNoon.tm_hour ∧ sixPastNoon.tm_hour ≤ 23) ∧
    (NOAAGlotecReader.roundToNearest5Minutes sixPastNoon true).tm_sec = 0 ∧
    (NOAAGlotecReader.roundToNearest5Minutes sixPastNoon false).tm_min % 10 = 5 :=
  ⟨by decide, by decide,
    (roundToNearest5Minutes_spec sixPastNoon (by decide) (by decide) (by decide)
      (by decide)).1.1,
    (roundToNearest5Minutes_spec sixPastNoon (by decide) (by decide) (by decide)
      (by decide)).2.2.1⟩

/-- C39 as stated fails at `sixPastNoon`: the minute 6 is in `0..59`, and rounding up
gives the minute 15 of the same hour, which is 9 minutes later and not within 5
minutes of the time. -/
theorem roundToNearest5Minutes_skips_ten :
    (0 ≤ sixPastNoon.tm_min ∧ sixPastNoon.tm_min ≤ 59) ∧
    sixPastNoon.tm_min = 6 ∧
    (NOAAGlotecReader.roundToNearest5Minutes sixPastNoon false).tm_min = 15 ∧
    (NOAAGlotecReader.roundToNearest5Minutes sixPastNoon false).tm_hour =
      sixPastNoon.tm_hour ∧
    (NOAAGlotecReader.roundToNearest5Minutes sixPastNoon false).tm_mday =
      sixPastNoon.tm_mday ∧
    ¬ ((NOAAGlotecReader.roundToNearest5Minutes sixPastNoon false).minuteOfMonth ≤
      sixPastNoon.minuteOfMonth + 5) := by
  decide

end
